import Mathlib

/-!
# Live migration coordinator (`src/qemu/qemu_migration.c`)

A shallow embedding of the migration cookie codec, the policy and safety
gates, the phase state machine, the flag validation of the Begin and Prepare
steps, the progress loops, the storage copy, and the Perform, Finish and
Confirm steps, followed by the properties established about them.

Conventions of the embedding:

* a `char *` that may be `NULL` is an `Option String`; a non-null C string is
  a `String`;
* `unsigned int` flag words are `Nat`, tested with `&&&` and set with `|||`;
* routines of other modules (the XML library, the lock manager, the UUID and
  number parsers, the enum string tables of other files) are fields of `Env`
  or of the object they are queried on;
* a fallible routine returns an `Outcome`: the errors it reported through
  `virReportError`, in order, and its value (`none` on the failure return);
* what a routine meets outside the file (the answers of the hypervisor, of
  the destination, of the clock) is given to it as an observation record; the
  commands it sends to the hypervisor and the calls it makes on the guest are
  listed in its result, in order;
* a loop that polls until the outside world answers is run on the list of the
  observations of its iterations, and gives `none` when it is still polling
  after the last of them;
* memory allocation is taken to succeed.
-/

namespace QemuMigration

/-! ## Error reporting -/

/-- Error codes of `virReportError` used by the migration code. -/
inductive VirErrorCode
  | VIR_ERR_INTERNAL_ERROR
  | VIR_ERR_OPERATION_INVALID
  | VIR_ERR_OPERATION_ABORTED
  | VIR_ERR_OPERATION_FAILED
  | VIR_ERR_MIGRATE_UNSAFE
  | VIR_ERR_ARGUMENT_UNSUPPORTED
  | VIR_ERR_INVALID_ARG
  | VIR_ERR_SYSTEM_ERROR
  deriving DecidableEq, Repr

/-- One call of `virReportError`: the code and the formatted message. -/
structure VirError where
  code : VirErrorCode
  message : String
  deriving DecidableEq, Repr

/-- Result of a fallible routine: the errors reported on the way, in order,
and the value, `none` standing for the failure return (`NULL`, `-1`). -/
structure Outcome (α : Type) where
  errors : List VirError
  value : Option α
  deriving DecidableEq, Repr

namespace Outcome

/-- Success without any report. -/
def ok {α : Type} (a : α) : Outcome α := ⟨[], some a⟩

/-- Report an error and take the failure exit. -/
def fail {α : Type} (code : VirErrorCode) (msg : String) : Outcome α :=
  ⟨[⟨code, msg⟩], none⟩

/-- Failure exit without a report of its own (the callee reported). -/
def failQuiet {α : Type} : Outcome α := ⟨[], none⟩

/-- Sequencing: the second routine runs only when the first one succeeded; the
reports of both are kept in order. -/
def bind {α β : Type} (x : Outcome α) (f : α → Outcome β) : Outcome β :=
  match x.value with
  | none => ⟨x.errors, none⟩
  | some a => ⟨x.errors ++ (f a).errors, (f a).value⟩

end Outcome

/-! ## Enumerations defined in the file -/

/-- Phases of a migration job, in the order of `VIR_ENUM_IMPL(qemuMigrationJobPhase, ...)`
(lines 63-74); `QEMU_MIGRATION_PHASE_LAST` closes the enumeration. -/
inductive qemuMigrationJobPhase
  | QEMU_MIGRATION_PHASE_NONE
  | QEMU_MIGRATION_PHASE_PERFORM2
  | QEMU_MIGRATION_PHASE_BEGIN3
  | QEMU_MIGRATION_PHASE_PERFORM3
  | QEMU_MIGRATION_PHASE_PERFORM3_DONE
  | QEMU_MIGRATION_PHASE_CONFIRM3_CANCELLED
  | QEMU_MIGRATION_PHASE_CONFIRM3
  | QEMU_MIGRATION_PHASE_PREPARE
  | QEMU_MIGRATION_PHASE_FINISH2
  | QEMU_MIGRATION_PHASE_FINISH3
  | QEMU_MIGRATION_PHASE_LAST
  deriving DecidableEq, Repr

open qemuMigrationJobPhase in
/-- Integer value of a phase (its position in the enumeration). -/
def qemuMigrationJobPhase.toNat : qemuMigrationJobPhase → Nat
  | QEMU_MIGRATION_PHASE_NONE => 0
  | QEMU_MIGRATION_PHASE_PERFORM2 => 1
  | QEMU_MIGRATION_PHASE_BEGIN3 => 2
  | QEMU_MIGRATION_PHASE_PERFORM3 => 3
  | QEMU_MIGRATION_PHASE_PERFORM3_DONE => 4
  | QEMU_MIGRATION_PHASE_CONFIRM3_CANCELLED => 5
  | QEMU_MIGRATION_PHASE_CONFIRM3 => 6
  | QEMU_MIGRATION_PHASE_PREPARE => 7
  | QEMU_MIGRATION_PHASE_FINISH2 => 8
  | QEMU_MIGRATION_PHASE_FINISH3 => 9
  | QEMU_MIGRATION_PHASE_LAST => 10

open qemuMigrationJobPhase in
/-- Text of a phase: `qemuMigrationJobPhaseTypeToString` (lines 63-74). -/
def qemuMigrationJobPhaseTypeToString : qemuMigrationJobPhase → String
  | QEMU_MIGRATION_PHASE_NONE => "none"
  | QEMU_MIGRATION_PHASE_PERFORM2 => "perform2"
  | QEMU_MIGRATION_PHASE_BEGIN3 => "begin3"
  | QEMU_MIGRATION_PHASE_PERFORM3 => "perform3"
  | QEMU_MIGRATION_PHASE_PERFORM3_DONE => "perform3_done"
  | QEMU_MIGRATION_PHASE_CONFIRM3_CANCELLED => "confirm3_cancelled"
  | QEMU_MIGRATION_PHASE_CONFIRM3 => "confirm3"
  | QEMU_MIGRATION_PHASE_PREPARE => "prepare"
  | QEMU_MIGRATION_PHASE_FINISH2 => "finish2"
  | QEMU_MIGRATION_PHASE_FINISH3 => "finish3"
  | QEMU_MIGRATION_PHASE_LAST => "(null)"

/-- Index of the graphics feature: `enum qemuMigrationCookieFlags` (lines 76-84). -/
def QEMU_MIGRATION_COOKIE_FLAG_GRAPHICS : Nat := 0
/-- Index of the lock state feature. -/
def QEMU_MIGRATION_COOKIE_FLAG_LOCKSTATE : Nat := 1
/-- Index of the persistent configuration feature. -/
def QEMU_MIGRATION_COOKIE_FLAG_PERSISTENT : Nat := 2
/-- Index of the network feature. -/
def QEMU_MIGRATION_COOKIE_FLAG_NETWORK : Nat := 3
/-- Index of the NBD feature. -/
def QEMU_MIGRATION_COOKIE_FLAG_NBD : Nat := 4
/-- Number of cookie features. -/
def QEMU_MIGRATION_COOKIE_FLAG_LAST : Nat := 5

/-- The string table of `VIR_ENUM_IMPL(qemuMigrationCookieFlag, ...)` (lines 87-93). -/
def qemuMigrationCookieFlagNames : List String :=
  ["graphics", "lockstate", "persistent", "network", "nbd"]

/-- Text of feature number `i`: `qemuMigrationCookieFlagTypeToString`. -/
def qemuMigrationCookieFlagTypeToString (i : Nat) : String :=
  qemuMigrationCookieFlagNames.getD i "(null)"

/-- Feature number of a name, `none` for the `-1` of an unknown name:
`qemuMigrationCookieFlagTypeFromString`. -/
def qemuMigrationCookieFlagTypeFromString (s : String) : Option Nat :=
  if qemuMigrationCookieFlagNames.indexOf s < QEMU_MIGRATION_COOKIE_FLAG_LAST then
    some (qemuMigrationCookieFlagNames.indexOf s)
  else none

/-- Feature bit `1 << QEMU_MIGRATION_COOKIE_FLAG_GRAPHICS` (lines 95-101). -/
def QEMU_MIGRATION_COOKIE_GRAPHICS : Nat := 1 <<< QEMU_MIGRATION_COOKIE_FLAG_GRAPHICS
/-- Feature bit of the lock state. -/
def QEMU_MIGRATION_COOKIE_LOCKSTATE : Nat := 1 <<< QEMU_MIGRATION_COOKIE_FLAG_LOCKSTATE
/-- Feature bit of the persistent configuration. -/
def QEMU_MIGRATION_COOKIE_PERSISTENT : Nat := 1 <<< QEMU_MIGRATION_COOKIE_FLAG_PERSISTENT
/-- Feature bit of the per-NIC network data. -/
def QEMU_MIGRATION_COOKIE_NETWORK : Nat := 1 <<< QEMU_MIGRATION_COOKIE_FLAG_NETWORK
/-- Feature bit of the NBD data. -/
def QEMU_MIGRATION_COOKIE_NBD : Nat := 1 <<< QEMU_MIGRATION_COOKIE_FLAG_NBD

/-- The C test `flags & bit`. -/
def hasFlag (flags bit : Nat) : Bool := flags &&& bit != 0

/-! ## Domain objects (the fields the migration code reads) -/

/-- Raw bytes of a UUID (`unsigned char[VIR_UUID_BUFLEN]`); `memcmp(..) == 0`
is equality. -/
structure UUID where
  bytes : List Nat
  deriving DecidableEq, Repr

/-- Graphics types, `enum virDomainGraphicsType` of `domain_conf.h`. -/
inductive virDomainGraphicsType
  | VIR_DOMAIN_GRAPHICS_TYPE_SDL
  | VIR_DOMAIN_GRAPHICS_TYPE_VNC
  | VIR_DOMAIN_GRAPHICS_TYPE_RDP
  | VIR_DOMAIN_GRAPHICS_TYPE_DESKTOP
  | VIR_DOMAIN_GRAPHICS_TYPE_SPICE
  deriving DecidableEq, Repr

/-- Virtual port profile types, `enum virNetDevVPortProfile`; `INVALID` is the
`-1` that `virNetDevVPortTypeFromString` gives for an unknown name. -/
inductive virNetDevVPortProfile
  | VIR_NETDEV_VPORT_PROFILE_NONE
  | VIR_NETDEV_VPORT_PROFILE_8021QBG
  | VIR_NETDEV_VPORT_PROFILE_8021QBH
  | VIR_NETDEV_VPORT_PROFILE_OPENVSWITCH
  | INVALID
  deriving DecidableEq, Repr

/-- A graphics device of the definition (`virDomainGraphicsDef`). -/
structure virDomainGraphicsDef where
  type : virDomainGraphicsType
  /-- Field `data.vnc.port`. -/
  vncPort : Int
  /-- Field `data.spice.port`. -/
  spicePort : Int
  /-- Field `data.spice.tlsPort`. -/
  spiceTlsPort : Int
  /-- Result of `virDomainGraphicsListenGetAddress(def, 0)`. -/
  listenAddress : Option String
  deriving DecidableEq, Repr

/-- Interface types, `enum virDomainNetType` of `domain_conf.h`. -/
inductive virDomainNetType
  | VIR_DOMAIN_NET_TYPE_USER
  | VIR_DOMAIN_NET_TYPE_ETHERNET
  | VIR_DOMAIN_NET_TYPE_SERVER
  | VIR_DOMAIN_NET_TYPE_CLIENT
  | VIR_DOMAIN_NET_TYPE_MCAST
  | VIR_DOMAIN_NET_TYPE_NETWORK
  | VIR_DOMAIN_NET_TYPE_BRIDGE
  | VIR_DOMAIN_NET_TYPE_INTERNAL
  | VIR_DOMAIN_NET_TYPE_DIRECT
  | VIR_DOMAIN_NET_TYPE_HOSTDEV
  deriving DecidableEq, Repr

/-- A network interface of the definition (`virDomainNetDef`). -/
structure virDomainNetDef where
  ifname : String
  /-- The `virtPortType` of `virDomainNetGetActualVirtPortProfile(net)`, `none`
  when the interface has no profile. -/
  actualVirtPortType : Option virNetDevVPortProfile
  /-- Result of `virDomainNetGetActualType(net)`. -/
  actualType : virDomainNetType := virDomainNetType.VIR_DOMAIN_NET_TYPE_USER
  deriving DecidableEq, Repr

/-- Disk types, `enum virDomainDiskType`. -/
inductive virDomainDiskType
  | VIR_DOMAIN_DISK_TYPE_BLOCK
  | VIR_DOMAIN_DISK_TYPE_FILE
  | VIR_DOMAIN_DISK_TYPE_DIR
  | VIR_DOMAIN_DISK_TYPE_NETWORK
  | VIR_DOMAIN_DISK_TYPE_VOLUME
  deriving DecidableEq, Repr

/-- Network disk protocols, `enum virDomainDiskProtocol`. -/
inductive virDomainDiskProtocol
  | VIR_DOMAIN_DISK_PROTOCOL_NBD
  | VIR_DOMAIN_DISK_PROTOCOL_RBD
  | VIR_DOMAIN_DISK_PROTOCOL_SHEEPDOG
  | VIR_DOMAIN_DISK_PROTOCOL_GLUSTER
  | VIR_DOMAIN_DISK_PROTOCOL_ISCSI
  deriving DecidableEq, Repr

/-- Disk cache modes, `enum virDomainDiskCache`. -/
inductive virDomainDiskCache
  | VIR_DOMAIN_DISK_CACHE_DEFAULT
  | VIR_DOMAIN_DISK_CACHE_DISABLE
  | VIR_DOMAIN_DISK_CACHE_WRITETHRU
  | VIR_DOMAIN_DISK_CACHE_WRITEBACK
  | VIR_DOMAIN_DISK_CACHE_DIRECTSYNC
  | VIR_DOMAIN_DISK_CACHE_UNSAFE
  deriving DecidableEq, Repr

/-- A disk of the definition (`virDomainDiskDef`). -/
structure virDomainDiskDef where
  type : virDomainDiskType
  src : Option String
  shared : Bool
  readonly : Bool
  cachemode : virDomainDiskCache
  protocol : virDomainDiskProtocol
  /-- Field `info.alias`. -/
  infoAlias : Option String
  deriving DecidableEq, Repr

/-- Host device modes, `enum virDomainHostdevMode`. -/
inductive virDomainHostdevMode
  | VIR_DOMAIN_HOSTDEV_MODE_SUBSYS
  | VIR_DOMAIN_HOSTDEV_MODE_CAPABILITIES
  deriving DecidableEq, Repr

/-- Host device subsystem types, `enum virDomainHostdevSubsysType`. -/
inductive virDomainHostdevSubsysType
  | VIR_DOMAIN_HOSTDEV_SUBSYS_TYPE_USB
  | VIR_DOMAIN_HOSTDEV_SUBSYS_TYPE_PCI
  | VIR_DOMAIN_HOSTDEV_SUBSYS_TYPE_SCSI
  deriving DecidableEq, Repr

/-- An assigned host device (`virDomainHostdevDef`). -/
structure virDomainHostdevDef where
  mode : virDomainHostdevMode
  /-- Field `source.subsys.type`. -/
  subsysType : virDomainHostdevSubsysType
  deriving DecidableEq, Repr

/-- A domain definition (`virDomainDef`). -/
structure virDomainDef where
  name : String
  uuid : UUID
  graphics : List virDomainGraphicsDef
  nets : List virDomainNetDef
  disks : List virDomainDiskDef
  hostdevs : List virDomainHostdevDef
  deriving DecidableEq, Repr

/-- Domain states, `virDomainState` of the public header. -/
inductive virDomainState
  | VIR_DOMAIN_NOSTATE
  | VIR_DOMAIN_RUNNING
  | VIR_DOMAIN_BLOCKED
  | VIR_DOMAIN_PAUSED
  | VIR_DOMAIN_SHUTDOWN
  | VIR_DOMAIN_SHUTOFF
  | VIR_DOMAIN_CRASHED
  | VIR_DOMAIN_PMSUSPENDED
  deriving DecidableEq, Repr

/-- Paused reason "paused on user request", `VIR_DOMAIN_PAUSED_USER` of the public
header. -/
def VIR_DOMAIN_PAUSED_USER : Nat := 1

/-- Paused reason "I/O error", `VIR_DOMAIN_PAUSED_IOERROR` of the public header. -/
def VIR_DOMAIN_PAUSED_IOERROR : Nat := 5

/-- Asynchronous job kinds, `enum qemuDomainAsyncJob` of `qemu_domain.h`. -/
inductive qemuDomainAsyncJob
  | QEMU_ASYNC_JOB_NONE
  | QEMU_ASYNC_JOB_MIGRATION_OUT
  | QEMU_ASYNC_JOB_MIGRATION_IN
  | QEMU_ASYNC_JOB_SAVE
  | QEMU_ASYNC_JOB_DUMP
  | QEMU_ASYNC_JOB_SNAPSHOT
  deriving DecidableEq, Repr

/-- Job types, `virDomainJobType` of the public header. -/
inductive virDomainJobType
  | VIR_DOMAIN_JOB_NONE
  | VIR_DOMAIN_JOB_BOUNDED
  | VIR_DOMAIN_JOB_UNBOUNDED
  | VIR_DOMAIN_JOB_COMPLETED
  | VIR_DOMAIN_JOB_FAILED
  | VIR_DOMAIN_JOB_CANCELLED
  deriving DecidableEq, Repr

/-- Job information, `virDomainJobInfo` of the public header; the counters are
`unsigned long long`. -/
structure virDomainJobInfo where
  type : virDomainJobType := virDomainJobType.VIR_DOMAIN_JOB_NONE
  timeElapsed : Nat := 0
  dataTotal : Nat := 0
  dataProcessed : Nat := 0
  dataRemaining : Nat := 0
  memTotal : Nat := 0
  memProcessed : Nat := 0
  memRemaining : Nat := 0
  fileTotal : Nat := 0
  fileProcessed : Nat := 0
  fileRemaining : Nat := 0
  deriving DecidableEq, Repr

/-- Migration states reported by the hypervisor, the `status` values of
`qemuMonitorMigrationStatus` in `qemu_monitor.h`. -/
inductive qemuMonitorMigrationStatusValue
  | QEMU_MONITOR_MIGRATION_STATUS_INACTIVE
  | QEMU_MONITOR_MIGRATION_STATUS_ACTIVE
  | QEMU_MONITOR_MIGRATION_STATUS_COMPLETED
  | QEMU_MONITOR_MIGRATION_STATUS_ERROR
  | QEMU_MONITOR_MIGRATION_STATUS_CANCELLED
  | QEMU_MONITOR_MIGRATION_STATUS_LAST
  deriving DecidableEq, Repr

/-- Answer of the hypervisor to a migration status query: the fields of
`qemuMonitorMigrationStatus` that the migration code reads (`unsigned long long`
counters). -/
structure qemuMonitorMigrationStatus where
  status : qemuMonitorMigrationStatusValue :=
    qemuMonitorMigrationStatusValue.QEMU_MONITOR_MIGRATION_STATUS_INACTIVE
  ram_transferred : Nat := 0
  ram_remaining : Nat := 0
  ram_total : Nat := 0
  disk_transferred : Nat := 0
  disk_remaining : Nat := 0
  disk_total : Nat := 0
  deriving DecidableEq, Repr

/-- The part of `struct qemuDomainJobObj` the migration code uses. -/
structure qemuDomainJobObj where
  asyncJob : qemuDomainAsyncJob
  phase : qemuMigrationJobPhase
  /-- Field `asyncAbort`: the abort request of a concurrent caller. -/
  asyncAbort : Bool := false
  /-- Field `start`: when the job started, in milliseconds. -/
  start : Nat := 0
  status : qemuMonitorMigrationStatus := {}
  info : virDomainJobInfo := {}
  deriving DecidableEq, Repr

/-- The part of `qemuDomainObjPrivate` the migration code uses. -/
structure qemuDomainObjPrivate where
  job : qemuDomainJobObj
  origname : Option String
  lockState : Option String
  /-- An `unsigned short`. -/
  nbdPort : Nat
  /-- Result of `virQEMUCapsGet(priv->qemuCaps, QEMU_CAPS_NBD_SERVER)`. -/
  capsNbdServer : Bool
  /-- Result of `virQEMUCapsGet(priv->qemuCaps, QEMU_CAPS_MIGRATE_QEMU_FD)`. -/
  capsMigrateQemuFd : Bool := false
  /-- Result of `virQEMUCapsGet(priv->qemuCaps, QEMU_CAPS_SEAMLESS_MIGRATION)`. -/
  capsSeamlessMigration : Bool := false
  deriving DecidableEq, Repr

/-- A domain object (`virDomainObj`) with its private data and the results of
the queries made on it. -/
structure virDomainObj where
  defn : virDomainDef
  newDef : Option virDomainDef
  privateData : qemuDomainObjPrivate
  /-- State returned by `virDomainObjGetState`. -/
  state : virDomainState
  /-- Reason returned by `virDomainObjGetState`. -/
  reason : Nat
  /-- Result of `qemuProcessAutoDestroyActive(driver, vm)`. -/
  autoDestroyActive : Bool
  /-- Result of `virDomainSnapshotObjListNum(vm->snapshots, NULL, 0)`. -/
  nsnapshots : Int
  /-- Result of `virDomainHasDiskMirror(vm)`. -/
  hasDiskMirror : Bool
  deriving DecidableEq, Repr

/-! ## The migration cookie -/

/-- Graphics data of a cookie: `struct _qemuMigrationCookieGraphics` (lines 105-111). -/
structure qemuMigrationCookieGraphics where
  type : virDomainGraphicsType
  port : Int
  tlsPort : Int
  listen : String
  tlsSubject : Option String
  deriving DecidableEq, Repr

/-- Data of one NIC: `struct _qemuMigrationCookieNetData` (lines 115-123). -/
structure qemuMigrationCookieNetData where
  vporttype : virNetDevVPortProfile
  portdata : Option String
  deriving DecidableEq, Repr

/-- Network data of a cookie: `struct _qemuMigrationCookieNetwork` (lines 127-132);
`nnets` is the length of `net`. -/
structure qemuMigrationCookieNetwork where
  net : List qemuMigrationCookieNetData
  deriving DecidableEq, Repr

/-- NBD data of a cookie: `struct _qemuMigrationCookieNBD` (lines 136-138). -/
structure qemuMigrationCookieNBD where
  port : Int
  deriving DecidableEq, Repr

/-- The cookie: `struct _qemuMigrationCookie` (lines 142-171). -/
structure qemuMigrationCookie where
  flags : Nat
  flagsMandatory : Nat
  localHostuuid : UUID
  remoteHostuuid : UUID
  localHostname : String
  remoteHostname : Option String
  uuid : UUID
  name : String
  lockState : Option String
  lockDriver : Option String
  graphics : Option qemuMigrationCookieGraphics
  persistent : Option virDomainDef
  network : Option qemuMigrationCookieNetwork
  nbd : Option qemuMigrationCookieNBD
  deriving DecidableEq, Repr

/-! ## The parsed cookie document

The cookie text is parsed by the XML library; the parser of the cookie only
sees the answers of the XPath queries it makes on the document, which are the
fields below. `virXPathString` answers `NULL` (`none`) for a missing node and
for an empty string. -/

/-- Answers of the queries made under `./graphics` (lines 678-708). -/
structure GraphicsQuery where
  /-- Query `string(./graphics/@type)`. -/
  type : Option String
  /-- Query `virXPathInt("string(./graphics/@port)")`, `none` when it is negative. -/
  port : Option Int
  /-- Query `virXPathInt("string(./graphics/@tlsPort)")`, `none` when it is negative. -/
  tlsPort : Option Int
  /-- Query `string(./graphics/@listen)`. -/
  listen : Option String
  /-- Query `string(./graphics/cert[@info='subject']/@value)`. -/
  tlsSubject : Option String
  deriving DecidableEq, Repr

/-- Answers of the queries made on one `./network/interface` node (lines 741-752). -/
structure InterfaceQuery where
  /-- Query `string(./portdata[1])`. -/
  portdata : Option String
  /-- Attribute `vporttype`. -/
  vporttype : Option String
  deriving DecidableEq, Repr

/-- Answers of the queries made under `./lockstate` (lines 889-897). -/
structure LockstateQuery where
  /-- Query `string(./lockstate[1]/@driver)`. -/
  driver : Option String
  /-- Query `string(./lockstate[1]/leases[1])`. -/
  leases : Option String
  deriving DecidableEq, Repr

/-- Answers of the queries of `qemuMigrationCookieXMLParse` on a document. -/
structure CookieDoc where
  /-- Query `string(./name[1])`. -/
  name : Option String
  /-- Query `string(./uuid[1])`. -/
  uuid : Option String
  /-- Query `string(./hostname[1])`. -/
  hostname : Option String
  /-- Query `string(./hostuuid[1])`. -/
  hostuuid : Option String
  /-- Node set `./feature`: the `name` attribute of each node; `none` when
  `virXPathNodeSet` is negative. -/
  features : Option (List (Option String))
  /-- Present when `count(./graphics) > 0`. -/
  graphics : Option GraphicsQuery
  /-- Present when `count(./lockstate) > 0`. -/
  lockstate : Option LockstateQuery
  /-- Node set `./domain`: for each node the result of `virDomainDefParseNode`. -/
  domain : List (Option virDomainDef)
  /-- Present when `count(./network) > 0`: the node set `./network/interface`,
  `none` when `virXPathNodeSet` is negative. -/
  network : Option (Option (List InterfaceQuery))
  /-- Present when `boolean(./nbd)`: the query `string(./nbd/@port)`. -/
  nbd : Option (Option String)
  deriving DecidableEq, Repr

/-! ## Environment: the driver, the host and the library routines -/

/-- The fields of `virURI` that the migration code reads. -/
structure virURI where
  server : Option String
  /-- An `int`, 0 when the text names no port. -/
  port : Nat
  deriving DecidableEq, Repr

/-- The driver configuration, the host identity and the routines of other
modules that the cookie codec and the gates call. -/
structure Env where
  /-- Whether `virQEMUDriverGetCapabilities(driver, false)` gives capabilities. -/
  caps : Bool
  /-- Result of `virGetHostname()`. -/
  hostname : Option String
  /-- Result of `virGetHostUUID`, `none` when it is negative. -/
  hostUUID : Option UUID
  /-- Result of `virLockManagerPluginGetName(driver->lockManager)`. -/
  lockManagerName : String
  /-- Result of `virLockManagerPluginUsesState(driver->lockManager)`. -/
  lockManagerUsesState : Bool
  /-- Result of `virDomainLockProcessInquire`: `none` when it is negative, else
  the state it stored (which may be `NULL`). -/
  lockProcessInquire : virDomainObj → Option (Option String)
  /-- Configuration value `cfg->vncListen`. -/
  vncListen : String
  /-- Configuration value `cfg->spiceListen`. -/
  spiceListen : String
  /-- Configuration value `cfg->vncTLS`. -/
  vncTLS : Bool
  /-- Configuration value `cfg->spiceTLS`. -/
  spiceTLS : Bool
  /-- Whether the build has `WITH_GNUTLS`. -/
  withGnutls : Bool
  /-- Result of `qemuDomainExtractTLSSubject(cfg->vncTLSx509certdir)`. -/
  vncTLSSubject : Option String
  /-- Result of `qemuDomainExtractTLSSubject(cfg->spiceTLSx509certdir)`. -/
  spiceTLSSubject : Option String
  /-- Result of `virNetDevOpenvswitchGetMigrateData` for an interface name,
  `none` when it is not zero. -/
  ovsGetMigrateData : String → Option (Option String)
  /-- The XML library: `virXMLParseStringCtxt` on the cookie text, followed by
  the queries; `none` when the text is not a document. -/
  virXMLParseStringCtxt : String → Option CookieDoc
  /-- Routine `virUUIDParse`, `none` when it is negative. -/
  virUUIDParse : String → Option UUID
  /-- Routine `virUUIDFormat`. -/
  virUUIDFormat : UUID → String
  /-- Routine `virStrToLong_i(s, NULL, 10, &v)`, `none` when it is negative. -/
  virStrToLong_i : String → Option Int
  /-- Escaping done by `virBufferEscapeString`. -/
  virBufferEscape : String → String
  /-- Table `virDomainGraphicsTypeToString`. -/
  virDomainGraphicsTypeToString : virDomainGraphicsType → String
  /-- Table `virDomainGraphicsTypeFromString`, `none` when it is negative. -/
  virDomainGraphicsTypeFromString : String → Option virDomainGraphicsType
  /-- Table `virNetDevVPortTypeToString`. -/
  virNetDevVPortTypeToString : virNetDevVPortProfile → String
  /-- Table `virNetDevVPortTypeFromString` (`INVALID` for an unknown name). -/
  virNetDevVPortTypeFromString : String → virNetDevVPortProfile
  /-- Routine `qemuDomainDefFormatBuf` with the inactive, secure and migratable
  flags: the text appended to the buffer, `none` when it is negative. -/
  qemuDomainDefFormatBuf : virDomainDef → Option String
  /-- Whether `virStorageFileIsSharedFS(path)` answers: 1, 0 or a negative value. -/
  virStorageFileIsSharedFS : String → Int
  /-- Whether `virStorageFileIsClusterFS(path)` answers: 1, 0 or a negative value. -/
  virStorageFileIsClusterFS : String → Int
  /-- Routine `virDomainDefParseString` on the XML given by the caller. -/
  virDomainDefParseString : String → Option virDomainDef
  /-- Routine `virDomainDefCheckABIStability(src, dst)`. -/
  virDomainDefCheckABIStability : virDomainDef → virDomainDef → Bool
  /-- Routine `qemuDomainDefFormatLive(driver, def, false, true)`. -/
  qemuDomainDefFormatLive : virDomainDef → Option String
  /-- Result of `virTimeMillisNow`, `none` when it is negative. -/
  virTimeMillisNow : Option Nat
  /-- The macro `QEMU_DRIVE_HOST_PREFIX` of `qemu_command.h`. -/
  QEMU_DRIVE_HOST_PREFIX : String
  /-- Table `qemuDomainAsyncJobTypeToString` of `qemu_domain.c`. -/
  qemuDomainAsyncJobTypeToString : qemuDomainAsyncJob → String
  /-- The macro `QEMUD_MIGRATION_FIRST_PORT` of `qemu_conf.h`. -/
  QEMUD_MIGRATION_FIRST_PORT : Nat
  /-- The macro `QEMUD_MIGRATION_NUM_PORTS` of `qemu_conf.h`. -/
  QEMUD_MIGRATION_NUM_PORTS : Nat
  /-- Routine `virURIParse` of `viruri.c`, with the errors it reports. -/
  virURIParse : String → Outcome virURI
  /-- The macro `QEMU_MIGRATION_FLAGS` of `qemu_migration.h`: the flags that the
  driver supports. -/
  QEMU_MIGRATION_FLAGS : Nat

/-- The NUL character. -/
def NUL : Char := Char.ofNat 0

/-- The C string held in a buffer: the characters before the first NUL. -/
def cString (buf : List Char) : String := String.mk (buf.takeWhile (fun c => c != NUL))

/-- Length of a C string given by its characters: `strlen`. -/
def strlen (s : String) : Nat := (s.data.takeWhile (fun c => c != NUL)).length

/-- The all-zero UUID of a freshly allocated cookie. -/
def zeroUUID : UUID := ⟨List.replicate 16 0⟩

open VirErrorCode in
/-- Cookie creation: `qemuMigrationCookieNew` (lines 380-411). -/
def qemuMigrationCookieNew (env : Env) (dom : virDomainObj) : Outcome qemuMigrationCookie :=
  let name := match dom.privateData.origname with
    | some origname => origname
    | none => dom.defn.name
  match env.hostname with
  | none => Outcome.failQuiet
  | some localHostname =>
    match env.hostUUID with
    | none => Outcome.fail VIR_ERR_INTERNAL_ERROR "Unable to obtain host UUID"
    | some localHostuuid =>
      Outcome.ok
        { flags := 0, flagsMandatory := 0,
          localHostuuid := localHostuuid, remoteHostuuid := zeroUUID,
          localHostname := localHostname, remoteHostname := none,
          uuid := dom.defn.uuid, name := name,
          lockState := none, lockDriver := none, graphics := none,
          persistent := none, network := none, nbd := none }

/-! ## Parsing a cookie (`qemuMigrationCookieXMLParse` and its helpers) -/

open VirErrorCode virDomainGraphicsType in
/-- Graphics parser: `qemuMigrationCookieGraphicsXMLParse` (lines 669-715). -/
def qemuMigrationCookieGraphicsXMLParse (env : Env) (q : GraphicsQuery) :
    Outcome qemuMigrationCookieGraphics :=
  match q.type with
  | none => Outcome.fail VIR_ERR_INTERNAL_ERROR "missing type attribute in migration data"
  | some tmp =>
    match env.virDomainGraphicsTypeFromString tmp with
    | none => Outcome.fail VIR_ERR_INTERNAL_ERROR ("unknown graphics type " ++ tmp)
    | some type =>
      match q.port with
      | none => Outcome.fail VIR_ERR_INTERNAL_ERROR "missing port attribute in migration data"
      | some port =>
        if type = VIR_DOMAIN_GRAPHICS_TYPE_SPICE ∧ q.tlsPort = none then
          Outcome.fail VIR_ERR_INTERNAL_ERROR "missing tlsPort attribute in migration data"
        else
          match q.listen with
          | none =>
            Outcome.fail VIR_ERR_INTERNAL_ERROR "missing listen attribute in migration data"
          | some listen =>
            Outcome.ok
              { type := type, port := port,
                tlsPort := if type = VIR_DOMAIN_GRAPHICS_TYPE_SPICE then q.tlsPort.getD 0 else 0,
                listen := listen, tlsSubject := q.tlsSubject }

open VirErrorCode in
/-- The loop over the interface nodes of `qemuMigrationCookieNetworkXMLParse`
(lines 741-752). -/
def qemuMigrationCookieNetworkXMLParse_loop (env : Env) :
    List InterfaceQuery → Outcome (List qemuMigrationCookieNetData)
  | [] => Outcome.ok []
  | q :: rest =>
    match q.vporttype with
    | none => Outcome.fail VIR_ERR_INTERNAL_ERROR "missing vporttype attribute in migration data"
    | some vporttype =>
      (qemuMigrationCookieNetworkXMLParse_loop env rest).bind fun tl =>
        Outcome.ok
          ({ vporttype := env.virNetDevVPortTypeFromString vporttype,
             portdata := q.portdata } :: tl)

open VirErrorCode in
/-- Network parser: `qemuMigrationCookieNetworkXMLParse` (lines 718-765). -/
def qemuMigrationCookieNetworkXMLParse (env : Env) (interfaces : Option (List InterfaceQuery)) :
    Outcome qemuMigrationCookieNetwork :=
  match interfaces with
  | none => Outcome.fail VIR_ERR_INTERNAL_ERROR "missing interface information"
  | some nodes =>
    (qemuMigrationCookieNetworkXMLParse_loop env nodes).bind fun net => Outcome.ok { net := net }

open VirErrorCode in
/-- Name check of `qemuMigrationCookieXMLParse` (lines 790-802). -/
def qemuMigrationCookieXMLParse_name (mig : qemuMigrationCookie) (doc : CookieDoc) :
    Outcome qemuMigrationCookie :=
  match doc.name with
  | none => Outcome.fail VIR_ERR_INTERNAL_ERROR "missing name element in migration data"
  | some tmp =>
    if tmp ≠ mig.name then
      Outcome.fail VIR_ERR_INTERNAL_ERROR
        ("Incoming cookie data had unexpected name " ++ tmp ++ " vs " ++ mig.name)
    else Outcome.ok mig

open VirErrorCode in
/-- UUID check of `qemuMigrationCookieXMLParse` (lines 804-817): a difference is
reported and the parser goes on to the next check. -/
def qemuMigrationCookieXMLParse_uuid (env : Env) (mig : qemuMigrationCookie) (doc : CookieDoc) :
    Outcome qemuMigrationCookie :=
  match doc.uuid with
  | none => Outcome.fail VIR_ERR_INTERNAL_ERROR "missing uuid element in migration data"
  | some tmp =>
    if tmp ≠ env.virUUIDFormat mig.uuid then
      ⟨[⟨VIR_ERR_INTERNAL_ERROR,
          "Incoming cookie data had unexpected UUID " ++ tmp ++ " vs " ++
            env.virUUIDFormat mig.uuid⟩], some mig⟩
    else Outcome.ok mig

open VirErrorCode in
/-- Host name check of `qemuMigrationCookieXMLParse` (lines 819-830). -/
def qemuMigrationCookieXMLParse_hostname (mig : qemuMigrationCookie) (doc : CookieDoc) :
    Outcome qemuMigrationCookie :=
  match doc.hostname with
  | none => Outcome.fail VIR_ERR_INTERNAL_ERROR "missing hostname element in migration data"
  | some remoteHostname =>
    if remoteHostname = mig.localHostname then
      Outcome.fail VIR_ERR_INTERNAL_ERROR
        ("Attempt to migrate guest to the same host " ++ remoteHostname)
    else Outcome.ok { mig with remoteHostname := some remoteHostname }

open VirErrorCode in
/-- Host UUID check of `qemuMigrationCookieXMLParse` (lines 832-848). -/
def qemuMigrationCookieXMLParse_hostuuid (env : Env) (mig : qemuMigrationCookie)
    (doc : CookieDoc) : Outcome qemuMigrationCookie :=
  match doc.hostuuid with
  | none => Outcome.fail VIR_ERR_INTERNAL_ERROR "missing hostuuid element in migration data"
  | some tmp =>
    match env.virUUIDParse tmp with
    | none => Outcome.fail VIR_ERR_INTERNAL_ERROR "malformed hostuuid element in migration data"
    | some remoteHostuuid =>
      if remoteHostuuid = mig.localHostuuid then
        Outcome.fail VIR_ERR_INTERNAL_ERROR ("Attempt to migrate guest to the same host " ++ tmp)
      else Outcome.ok { mig with remoteHostuuid := remoteHostuuid }

open VirErrorCode in
/-- The loop over the `./feature` nodes of `qemuMigrationCookieXMLParse`
(lines 855-879): a feature missing from `flags` is reported and the loop
goes on to the next node. -/
def qemuMigrationCookieXMLParse_featureLoop (flags : Nat) : List (Option String) → Outcome Unit
  | [] => Outcome.ok ()
  | none :: _ => Outcome.fail VIR_ERR_INTERNAL_ERROR "missing feature name"
  | some str :: rest =>
    match qemuMigrationCookieFlagTypeFromString str with
    | none => Outcome.fail VIR_ERR_INTERNAL_ERROR ("Unknown migration cookie feature " ++ str)
    | some val =>
      let reported : List VirError :=
        if flags &&& (1 <<< val) = 0 then
          [⟨VIR_ERR_INTERNAL_ERROR, "Unsupported migration cookie feature " ++ str⟩]
        else []
      ⟨reported ++ (qemuMigrationCookieXMLParse_featureLoop flags rest).errors,
        (qemuMigrationCookieXMLParse_featureLoop flags rest).value⟩

/-- Mandatory feature check of `qemuMigrationCookieXMLParse` (lines 850-880). -/
def qemuMigrationCookieXMLParse_features (mig : qemuMigrationCookie) (doc : CookieDoc)
    (flags : Nat) : Outcome qemuMigrationCookie :=
  match doc.features with
  | none => Outcome.failQuiet
  | some nodes => (qemuMigrationCookieXMLParse_featureLoop flags nodes).bind fun _ => Outcome.ok mig

/-- Graphics element of `qemuMigrationCookieXMLParse` (lines 882-885). -/
def qemuMigrationCookieXMLParse_graphics (env : Env) (mig : qemuMigrationCookie)
    (doc : CookieDoc) (flags : Nat) : Outcome qemuMigrationCookie :=
  match hasFlag flags QEMU_MIGRATION_COOKIE_GRAPHICS, doc.graphics with
  | true, some q =>
    (qemuMigrationCookieGraphicsXMLParse env q).bind fun grap =>
      Outcome.ok { mig with graphics := some grap }
  | _, _ => Outcome.ok mig

open VirErrorCode in
/-- Lock state element of `qemuMigrationCookieXMLParse` (lines 887-898). -/
def qemuMigrationCookieXMLParse_lockstate (mig : qemuMigrationCookie) (doc : CookieDoc)
    (flags : Nat) : Outcome qemuMigrationCookie :=
  match hasFlag flags QEMU_MIGRATION_COOKIE_LOCKSTATE, doc.lockstate with
  | true, some q =>
    match q.driver with
    | none =>
      Outcome.fail VIR_ERR_INTERNAL_ERROR "Missing lock driver name in migration cookie"
    | some lockDriver =>
      Outcome.ok
        { mig with
          lockDriver := some lockDriver,
          lockState := if q.leases = some "" then none else q.leases }
  | _, _ => Outcome.ok mig

open VirErrorCode in
/-- Persistent definition of `qemuMigrationCookieXMLParse` (lines 900-918). -/
def qemuMigrationCookieXMLParse_persistent (mig : qemuMigrationCookie) (doc : CookieDoc)
    (flags : Nat) : Outcome qemuMigrationCookie :=
  match hasFlag flags QEMU_MIGRATION_COOKIE_PERSISTENT, doc.domain with
  | true, node :: rest =>
    if (node :: rest).length > 1 then
      Outcome.fail VIR_ERR_INTERNAL_ERROR
        ("Too many domain elements in migration cookie: " ++ toString (node :: rest).length)
    else
      match node with
      | none => Outcome.failQuiet
      | some persistent => Outcome.ok { mig with persistent := some persistent }
  | _, _ => Outcome.ok mig

/-- Network element of `qemuMigrationCookieXMLParse` (lines 920-923). -/
def qemuMigrationCookieXMLParse_network (env : Env) (mig : qemuMigrationCookie)
    (doc : CookieDoc) (flags : Nat) : Outcome qemuMigrationCookie :=
  match hasFlag flags QEMU_MIGRATION_COOKIE_NETWORK, doc.network with
  | true, some interfaces =>
    (qemuMigrationCookieNetworkXMLParse env interfaces).bind fun network =>
      Outcome.ok { mig with network := some network }
  | _, _ => Outcome.ok mig

open VirErrorCode in
/-- NBD element of `qemuMigrationCookieXMLParse` (lines 925-941). -/
def qemuMigrationCookieXMLParse_nbd (env : Env) (mig : qemuMigrationCookie)
    (doc : CookieDoc) (flags : Nat) : Outcome qemuMigrationCookie :=
  match hasFlag flags QEMU_MIGRATION_COOKIE_NBD, doc.nbd with
  | true, some none => Outcome.ok { mig with nbd := some { port := 0 } }
  | true, some (some port) =>
    match env.virStrToLong_i port with
    | none => Outcome.fail VIR_ERR_INTERNAL_ERROR ("Malformed nbd port '" ++ port ++ "'")
    | some v => Outcome.ok { mig with nbd := some { port := v } }
  | _, _ => Outcome.ok mig

/-- Cookie parser: `qemuMigrationCookieXMLParse` (lines 768-951). -/
def qemuMigrationCookieXMLParse (env : Env) (mig : qemuMigrationCookie) (doc : CookieDoc)
    (flags : Nat) : Outcome qemuMigrationCookie :=
  if env.caps = false then Outcome.failQuiet
  else
    (qemuMigrationCookieXMLParse_name mig doc).bind fun mig =>
    (qemuMigrationCookieXMLParse_uuid env mig doc).bind fun mig =>
    (qemuMigrationCookieXMLParse_hostname mig doc).bind fun mig =>
    (qemuMigrationCookieXMLParse_hostuuid env mig doc).bind fun mig =>
    (qemuMigrationCookieXMLParse_features mig doc flags).bind fun mig =>
    (qemuMigrationCookieXMLParse_graphics env mig doc flags).bind fun mig =>
    (qemuMigrationCookieXMLParse_lockstate mig doc flags).bind fun mig =>
    (qemuMigrationCookieXMLParse_persistent mig doc flags).bind fun mig =>
    (qemuMigrationCookieXMLParse_network env mig doc flags).bind fun mig =>
    qemuMigrationCookieXMLParse_nbd env mig doc flags

/-- Parsing from text: `qemuMigrationCookieXMLParseStr` (lines 954-976); the XML
library reports when the text is not a document. -/
def qemuMigrationCookieXMLParseStr (env : Env) (mig : qemuMigrationCookie) (xml : String)
    (flags : Nat) : Outcome qemuMigrationCookie :=
  match env.virXMLParseStringCtxt xml with
  | none => Outcome.failQuiet
  | some doc => qemuMigrationCookieXMLParse env mig doc flags

open VirErrorCode in
/-- Lock driver check at the end of `qemuMigrationEatCookie` (lines 1053-1069). -/
def qemuMigrationEatCookie_lockCheck (env : Env) (mig : qemuMigrationCookie) :
    Outcome qemuMigrationCookie :=
  if hasFlag mig.flags QEMU_MIGRATION_COOKIE_LOCKSTATE then
    match mig.lockDriver with
    | none =>
      if env.lockManagerUsesState then
        Outcome.fail VIR_ERR_INTERNAL_ERROR
          ("Missing " ++ env.lockManagerName ++ " lock state for migration cookie")
      else Outcome.ok mig
    | some lockDriver =>
      if lockDriver ≠ env.lockManagerName then
        Outcome.fail VIR_ERR_INTERNAL_ERROR
          ("Source host lock driver " ++ lockDriver ++ " different from target " ++
            env.lockManagerName)
      else Outcome.ok mig
  else Outcome.ok mig

/-- The test `cookiein && cookieinlen` with its buffer: the incoming buffer
when the pointer is not `NULL` and the length (the length of the list) is not
zero. -/
def cookiePresent : Option (List Char) → Option (List Char)
  | some (c :: cs) => some (c :: cs)
  | _ => none

open VirErrorCode in
/-- Cookie intake: `qemuMigrationEatCookie` (lines 1024-1076). The incoming
buffer `cookiein` is given with its `cookieinlen` characters. -/
def qemuMigrationEatCookie (env : Env) (dom : virDomainObj) (cookiein : Option (List Char))
    (flags : Nat) : Outcome qemuMigrationCookie :=
  match cookiePresent cookiein with
  | some buf =>
    if buf.getLast? ≠ some NUL then
      Outcome.fail VIR_ERR_INTERNAL_ERROR "Migration cookie was not NULL terminated"
    else
      (qemuMigrationCookieNew env dom).bind fun mig =>
      (qemuMigrationCookieXMLParseStr env mig (cString buf) flags).bind fun mig =>
      qemuMigrationEatCookie_lockCheck env mig
  | none =>
    (qemuMigrationCookieNew env dom).bind fun mig =>
    qemuMigrationEatCookie_lockCheck env mig

/-! ## Building a cookie (the accumulators, the formatter and `qemuMigrationBakeCookie`) -/

/-- Result of a routine that changes the cookie it is given: the errors it
reported, its return value (`0` or `-1`) and the cookie as it leaves it. -/
structure CookieStep where
  errors : List VirError
  ret : Int
  mig : qemuMigrationCookie
  deriving DecidableEq, Repr

open virDomainGraphicsType in
/-- Graphics data of a device: `qemuMigrationCookieGraphicsAlloc` (lines 277-326);
the certificate reader reports its own errors. -/
def qemuMigrationCookieGraphicsAlloc (env : Env) (defn : virDomainGraphicsDef) :
    Outcome qemuMigrationCookieGraphics :=
  if defn.type = VIR_DOMAIN_GRAPHICS_TYPE_VNC then
    let listenAddr := defn.listenAddress.getD env.vncListen
    if env.withGnutls && env.vncTLS && env.vncTLSSubject.isNone then Outcome.failQuiet
    else
      Outcome.ok
        { type := defn.type, port := defn.vncPort, tlsPort := 0, listen := listenAddr,
          tlsSubject := if env.withGnutls && env.vncTLS then env.vncTLSSubject else none }
  else
    let listenAddr := defn.listenAddress.getD env.spiceListen
    if env.withGnutls && env.spiceTLS && env.spiceTLSSubject.isNone then Outcome.failQuiet
    else
      Outcome.ok
        { type := defn.type, port := defn.spicePort,
          tlsPort := if env.spiceTLS then defn.spiceTlsPort else -1,
          listen := listenAddr,
          tlsSubject := if env.withGnutls && env.spiceTLS then env.spiceTLSSubject else none }

open VirErrorCode virNetDevVPortProfile in
/-- The loop over the interfaces of `qemuMigrationCookieNetworkAlloc` (lines 344-372). -/
def qemuMigrationCookieNetworkAlloc_loop (env : Env) :
    List virDomainNetDef → Outcome (List qemuMigrationCookieNetData)
  | [] => Outcome.ok []
  | netptr :: rest =>
    let head : Outcome qemuMigrationCookieNetData :=
      match netptr.actualVirtPortType with
      | none => Outcome.ok { vporttype := VIR_NETDEV_VPORT_PROFILE_NONE, portdata := none }
      | some VIR_NETDEV_VPORT_PROFILE_OPENVSWITCH =>
        match env.ovsGetMigrateData netptr.ifname with
        | none =>
          Outcome.fail VIR_ERR_INTERNAL_ERROR
            ("Unable to run command to get OVS port data for interface " ++ netptr.ifname)
        | some portdata =>
          Outcome.ok { vporttype := VIR_NETDEV_VPORT_PROFILE_OPENVSWITCH, portdata := portdata }
      | some virtPortType => Outcome.ok { vporttype := virtPortType, portdata := none }
    head.bind fun h =>
      (qemuMigrationCookieNetworkAlloc_loop env rest).bind fun tl => Outcome.ok (h :: tl)

/-- Network data of a definition: `qemuMigrationCookieNetworkAlloc` (lines 329-378). -/
def qemuMigrationCookieNetworkAlloc (env : Env) (defn : virDomainDef) :
    Outcome qemuMigrationCookieNetwork :=
  (qemuMigrationCookieNetworkAlloc_loop env defn.nets).bind fun net => Outcome.ok { net := net }

open VirErrorCode virDomainGraphicsType in
/-- Graphics accumulator: `qemuMigrationCookieAddGraphics` (lines 414-438). -/
def qemuMigrationCookieAddGraphics (env : Env) (mig : qemuMigrationCookie) (dom : virDomainObj) :
    CookieStep :=
  if hasFlag mig.flags QEMU_MIGRATION_COOKIE_GRAPHICS then
    ⟨[⟨VIR_ERR_INTERNAL_ERROR, "Migration graphics data already present"⟩], -1, mig⟩
  else
    match dom.defn.graphics.find? (fun g => g.type = VIR_DOMAIN_GRAPHICS_TYPE_SPICE) with
    | none => ⟨[], 0, mig⟩
    | some g =>
      match (qemuMigrationCookieGraphicsAlloc env g).value with
      | none => ⟨(qemuMigrationCookieGraphicsAlloc env g).errors, -1, { mig with graphics := none }⟩
      | some grap =>
        ⟨[], 0, { mig with graphics := some grap,
                            flags := mig.flags ||| QEMU_MIGRATION_COOKIE_GRAPHICS }⟩

open VirErrorCode virDomainState in
/-- Lock state accumulator: `qemuMigrationCookieAddLockstate` (lines 441-471); the
lock manager reports its own errors. -/
def qemuMigrationCookieAddLockstate (env : Env) (mig : qemuMigrationCookie) (dom : virDomainObj) :
    CookieStep :=
  if hasFlag mig.flags QEMU_MIGRATION_COOKIE_LOCKSTATE then
    ⟨[⟨VIR_ERR_INTERNAL_ERROR, "Migration lockstate data already present"⟩], -1, mig⟩
  else
    let inquired : Option (Option String) :=
      if dom.state = VIR_DOMAIN_PAUSED then some dom.privateData.lockState
      else env.lockProcessInquire dom
    match inquired with
    | none => ⟨[], -1, mig⟩
    | some lockState =>
      ⟨[], 0,
        { mig with
          lockState := lockState,
          lockDriver := some env.lockManagerName,
          flags := mig.flags ||| QEMU_MIGRATION_COOKIE_LOCKSTATE,
          flagsMandatory := mig.flagsMandatory ||| QEMU_MIGRATION_COOKIE_LOCKSTATE }⟩

open VirErrorCode in
/-- Persistent configuration accumulator: `qemuMigrationCookieAddPersistent`
(lines 474-491). -/
def qemuMigrationCookieAddPersistent (mig : qemuMigrationCookie) (dom : virDomainObj) :
    CookieStep :=
  if hasFlag mig.flags QEMU_MIGRATION_COOKIE_PERSISTENT then
    ⟨[⟨VIR_ERR_INTERNAL_ERROR, "Migration persistent data already present"⟩], -1, mig⟩
  else
    match dom.newDef with
    | none => ⟨[], 0, mig⟩
    | some newDef =>
      ⟨[], 0,
        { mig with
          persistent := some newDef,
          flags := mig.flags ||| QEMU_MIGRATION_COOKIE_PERSISTENT,
          flagsMandatory := mig.flagsMandatory ||| QEMU_MIGRATION_COOKIE_PERSISTENT }⟩

open VirErrorCode in
/-- Network accumulator: `qemuMigrationCookieAddNetwork` (lines 494-513). -/
def qemuMigrationCookieAddNetwork (env : Env) (mig : qemuMigrationCookie) (dom : virDomainObj) :
    CookieStep :=
  if hasFlag mig.flags QEMU_MIGRATION_COOKIE_NETWORK then
    ⟨[⟨VIR_ERR_INTERNAL_ERROR, "Network migration data already present"⟩], -1, mig⟩
  else if dom.defn.nets.length > 0 then
    match (qemuMigrationCookieNetworkAlloc env dom.defn).value with
    | none =>
      ⟨(qemuMigrationCookieNetworkAlloc env dom.defn).errors, -1, { mig with network := none }⟩
    | some network =>
      ⟨[], 0, { mig with network := some network,
                          flags := mig.flags ||| QEMU_MIGRATION_COOKIE_NETWORK }⟩
  else ⟨[], 0, mig⟩

/-- NBD accumulator: `qemuMigrationCookieAddNBD` (lines 516-532). -/
def qemuMigrationCookieAddNBD (mig : qemuMigrationCookie) (vm : virDomainObj) : CookieStep :=
  ⟨[], 0,
    { mig with
      nbd := some { port := (vm.privateData.nbdPort : Int) },
      flags := mig.flags ||| QEMU_MIGRATION_COOKIE_NBD }⟩

open virDomainGraphicsType in
/-- Graphics element: `qemuMigrationCookieGraphicsXMLFormat` (lines 535-550). -/
def qemuMigrationCookieGraphicsXMLFormat (env : Env) (grap : qemuMigrationCookieGraphics) :
    String :=
  "  <graphics type='" ++ env.virDomainGraphicsTypeToString grap.type ++
    "' port='" ++ toString grap.port ++ "' listen='" ++ grap.listen ++ "'" ++
  (if grap.type = VIR_DOMAIN_GRAPHICS_TYPE_SPICE then
    " tlsPort='" ++ toString grap.tlsPort ++ "'" else "") ++
  (match grap.tlsSubject with
   | some tlsSubject =>
     ">\n" ++ "    <cert info='subject' value='" ++ env.virBufferEscape tlsSubject ++ "'/>\n" ++
       "  </graphics>\n"
   | none => "/>\n")

/-- One `interface` element of `qemuMigrationCookieNetworkXMLFormat` (lines 567-576). -/
def qemuMigrationCookieNetworkXMLFormat_interface (env : Env) (i : Nat)
    (net : qemuMigrationCookieNetData) : String :=
  "    <interface index='" ++ toString i ++ "' vporttype='" ++
    env.virNetDevVPortTypeToString net.vporttype ++ "'" ++
  (match net.portdata with
   | some portdata =>
     ">\n" ++ "      <portdata>" ++ env.virBufferEscape portdata ++ "</portdata>\n" ++
       "    </interface>\n"
   | none => "/>\n")

open virNetDevVPortProfile in
/-- Network element: `qemuMigrationCookieNetworkXMLFormat` (lines 553-581); only the
interfaces whose `vporttype` is set are written, each with its index. -/
def qemuMigrationCookieNetworkXMLFormat (env : Env) (optr : qemuMigrationCookieNetwork) :
    String :=
  let written := optr.net.enum.filter (fun p => p.2.vporttype != VIR_NETDEV_VPORT_PROFILE_NONE)
  if written.isEmpty then ""
  else
    "  <network>\n" ++
      String.join (written.map fun p => qemuMigrationCookieNetworkXMLFormat_interface env p.1 p.2)
      ++ "  </network>\n"

/-- The `feature` elements written by `qemuMigrationCookieXMLFormat` (lines 602-606). -/
def qemuMigrationCookieXMLFormat_features (mig : qemuMigrationCookie) : String :=
  String.join
    (((List.range QEMU_MIGRATION_COOKIE_FLAG_LAST).filter
        (fun i => mig.flagsMandatory &&& (1 <<< i) != 0)).map
      fun i => "  <feature name='" ++ qemuMigrationCookieFlagTypeToString i ++ "'/>\n")

/-- The four identity elements written first by `qemuMigrationCookieXMLFormat`
(lines 596-600). -/
def qemuMigrationCookieXMLFormat_identity (env : Env) (mig : qemuMigrationCookie) : String :=
  "<qemu-migration>\n" ++
  "  <name>" ++ env.virBufferEscape mig.name ++ "</name>\n" ++
  "  <uuid>" ++ env.virUUIDFormat mig.uuid ++ "</uuid>\n" ++
  "  <hostname>" ++ env.virBufferEscape mig.localHostname ++ "</hostname>\n" ++
  "  <hostuuid>" ++ env.virUUIDFormat mig.localHostuuid ++ "</hostuuid>\n"

/-- The `graphics` element as `qemuMigrationCookieXMLFormat` writes it (lines 608-610). -/
def qemuMigrationCookieXMLFormat_graphics (env : Env) (mig : qemuMigrationCookie) : String :=
  match hasFlag mig.flags QEMU_MIGRATION_COOKIE_GRAPHICS, mig.graphics with
  | true, some grap => qemuMigrationCookieGraphicsXMLFormat env grap
  | _, _ => ""

/-- The `lockstate` element as `qemuMigrationCookieXMLFormat` writes it (lines 612-619);
a `NULL` driver is printed by `%s` as `(null)`. -/
def qemuMigrationCookieXMLFormat_lockstate (mig : qemuMigrationCookie) : String :=
  match hasFlag mig.flags QEMU_MIGRATION_COOKIE_LOCKSTATE, mig.lockState with
  | true, some lockState =>
    "  <lockstate driver='" ++ mig.lockDriver.getD "(null)" ++ "'>\n" ++
    "    <leases>" ++ lockState ++ "</leases>\n" ++
    "  </lockstate>\n"
  | _, _ => ""

/-- The `network` element as `qemuMigrationCookieXMLFormat` writes it (lines 634-635). -/
def qemuMigrationCookieXMLFormat_network (env : Env) (mig : qemuMigrationCookie) : String :=
  match hasFlag mig.flags QEMU_MIGRATION_COOKIE_NETWORK, mig.network with
  | true, some network => qemuMigrationCookieNetworkXMLFormat env network
  | _, _ => ""

/-- The `nbd` element as `qemuMigrationCookieXMLFormat` writes it (lines 637-642). -/
def qemuMigrationCookieXMLFormat_nbd (mig : qemuMigrationCookie) : String :=
  match hasFlag mig.flags QEMU_MIGRATION_COOKIE_NBD, mig.nbd with
  | true, some nbd =>
    "  <nbd" ++ (if nbd.port ≠ 0 then " port='" ++ toString nbd.port ++ "'" else "") ++ "/>\n"
  | _, _ => ""

/-- Cookie formatter: `qemuMigrationCookieXMLFormat` (lines 584-646); `none` is the
`-1` returned when the persistent definition cannot be formatted. -/
def qemuMigrationCookieXMLFormat (env : Env) (mig : qemuMigrationCookie) : Option String :=
  let persistent : Option String :=
    match hasFlag mig.flags QEMU_MIGRATION_COOKIE_PERSISTENT, mig.persistent with
    | true, some defn => env.qemuDomainDefFormatBuf defn
    | _, _ => some ""
  match persistent with
  | none => none
  | some domainText =>
    some
      (qemuMigrationCookieXMLFormat_identity env mig ++
       qemuMigrationCookieXMLFormat_features mig ++
       qemuMigrationCookieXMLFormat_graphics env mig ++
       qemuMigrationCookieXMLFormat_lockstate mig ++
       domainText ++
       qemuMigrationCookieXMLFormat_network env mig ++
       qemuMigrationCookieXMLFormat_nbd mig ++
       "</qemu-migration>\n")

/-- Formatting to a string: `qemuMigrationCookieXMLFormatStr` (lines 649-666). -/
def qemuMigrationCookieXMLFormatStr (env : Env) (mig : qemuMigrationCookie) : Option String :=
  qemuMigrationCookieXMLFormat env mig

/-- The output arguments `char **cookieout` and `int *cookieoutlen` of the
caller, with the values they point to. -/
structure CookieOut where
  cookieout : Option String
  cookieoutlen : Int
  deriving DecidableEq, Repr

/-- Result of `qemuMigrationBakeCookie`: the errors reported, the return value,
the cookie as it is left, and the caller's output (absent when the caller
passed `NULL` for either pointer). -/
structure BakeResult where
  errors : List VirError
  ret : Int
  mig : qemuMigrationCookie
  out : Option CookieOut
  deriving DecidableEq, Repr

/-- Run the accumulator `f` on the cookie left by `s`, unless `s` failed. -/
def CookieStep.andThen (s : CookieStep) (f : qemuMigrationCookie → CookieStep) : CookieStep :=
  if s.ret < 0 then s else ⟨s.errors ++ (f s.mig).errors, (f s.mig).ret, (f s.mig).mig⟩

/-- An accumulator guarded by its feature bit, `flags & BIT && Add(mig) < 0`. -/
def CookieStep.guarded (cond : Bool) (f : qemuMigrationCookie → CookieStep)
    (mig : qemuMigrationCookie) : CookieStep :=
  if cond then f mig else ⟨[], 0, mig⟩

/-- The accumulator calls of `qemuMigrationBakeCookie` in their order (lines 992-1011). -/
def qemuMigrationBakeCookie_accumulate (env : Env) (mig : qemuMigrationCookie)
    (dom : virDomainObj) (flags : Nat) : CookieStep :=
  (CookieStep.guarded (hasFlag flags QEMU_MIGRATION_COOKIE_GRAPHICS)
      (fun m => qemuMigrationCookieAddGraphics env m dom) mig).andThen fun mig =>
  (CookieStep.guarded (hasFlag flags QEMU_MIGRATION_COOKIE_LOCKSTATE)
      (fun m => qemuMigrationCookieAddLockstate env m dom) mig).andThen fun mig =>
  (CookieStep.guarded (hasFlag flags QEMU_MIGRATION_COOKIE_PERSISTENT)
      (fun m => qemuMigrationCookieAddPersistent m dom) mig).andThen fun mig =>
  (CookieStep.guarded (hasFlag flags QEMU_MIGRATION_COOKIE_NETWORK)
      (fun m => qemuMigrationCookieAddNetwork env m dom) mig).andThen fun mig =>
  CookieStep.guarded (hasFlag flags QEMU_MIGRATION_COOKIE_NBD)
      (fun m => qemuMigrationCookieAddNBD m dom) mig

/-- Cookie output: `qemuMigrationBakeCookie` (lines 979-1021). -/
def qemuMigrationBakeCookie (env : Env) (mig : qemuMigrationCookie) (dom : virDomainObj)
    (out : Option CookieOut) (flags : Nat) : BakeResult :=
  match out with
  | none => ⟨[], 0, mig, none⟩
  | some o =>
    let acc := qemuMigrationBakeCookie_accumulate env mig dom flags
    if acc.ret < 0 then ⟨acc.errors, -1, acc.mig, some { o with cookieoutlen := 0 }⟩
    else
      match qemuMigrationCookieXMLFormatStr env acc.mig with
      | none => ⟨acc.errors, -1, acc.mig, some { cookieout := none, cookieoutlen := 0 }⟩
      | some text =>
        ⟨acc.errors, 0, acc.mig,
          some { cookieout := some text, cookieoutlen := (strlen text : Int) + 1 }⟩

/-- The characters of the buffer `*cookieout` counted by `*cookieoutlen`: the
text is followed in memory by its terminating NUL. -/
def cookieBuffer (o : CookieOut) : Option (List Char) :=
  o.cookieout.map fun text => (text.data ++ [NUL]).take o.cookieoutlen.toNat

/-! ## The policy gate and the safety gate -/

/-- A yes/no decision with the errors reported while taking it. -/
structure Verdict where
  errors : List VirError
  result : Bool
  deriving DecidableEq, Repr

open VirErrorCode virDomainHostdevMode virDomainHostdevSubsysType in
/-- The host device rule of `qemuMigrationIsAllowed` (lines 1447-1465). -/
def qemuMigrationIsAllowed_hostdevs (defn : virDomainDef) : Verdict :=
  if defn.hostdevs.any (fun hostdev =>
      hostdev.mode != VIR_DOMAIN_HOSTDEV_MODE_SUBSYS ||
      hostdev.subsysType != VIR_DOMAIN_HOSTDEV_SUBSYS_TYPE_USB) then
    ⟨[⟨VIR_ERR_OPERATION_INVALID, "domain has assigned non-USB host devices"⟩], false⟩
  else ⟨[], true⟩

open VirErrorCode virDomainState in
/-- Policy gate: `qemuMigrationIsAllowed` (lines 1398-1466). The argument `defn` is
read only when `vm` is `NULL`. -/
def qemuMigrationIsAllowed (vm : Option virDomainObj) (defn : virDomainDef)
    (remote abort_on_error : Bool) : Verdict :=
  match vm with
  | some vm =>
    if vm.autoDestroyActive then
      ⟨[⟨VIR_ERR_OPERATION_INVALID, "domain is marked for auto destroy"⟩], false⟩
    else if remote && decide (vm.nsnapshots < 0) then ⟨[], false⟩
    else if remote && decide (vm.nsnapshots > 0) then
      ⟨[⟨VIR_ERR_OPERATION_INVALID,
          "cannot migrate domain with " ++ toString vm.nsnapshots ++ " snapshots"⟩], false⟩
    else if remote && abort_on_error && decide (vm.state = VIR_DOMAIN_PAUSED) &&
        decide (vm.reason = VIR_DOMAIN_PAUSED_IOERROR) then
      ⟨[⟨VIR_ERR_OPERATION_INVALID, "cannot migrate domain with I/O error"⟩], false⟩
    else if vm.hasDiskMirror then
      ⟨[⟨VIR_ERR_OPERATION_INVALID, "domain has an active block job"⟩], false⟩
    else qemuMigrationIsAllowed_hostdevs vm.defn
  | none => qemuMigrationIsAllowed_hostdevs defn

open VirErrorCode in
/-- The report made by `qemuMigrationIsSafe` for an unsafe disk (lines 1498-1501). -/
def qemuMigrationIsSafe_unsafe : Verdict :=
  ⟨[⟨VIR_ERR_MIGRATE_UNSAFE,
      "Migration may lead to data corruption if disks use cache != none"⟩], false⟩

open virDomainDiskType virDomainDiskProtocol virDomainDiskCache in
/-- The loop over the disks of `qemuMigrationIsSafe` (lines 1473-1503). -/
def qemuMigrationIsSafe_loop (env : Env) : List virDomainDiskDef → Verdict
  | [] => ⟨[], true⟩
  | disk :: rest =>
    match disk.src with
    | some src =>
      if !disk.shared && !disk.readonly &&
          disk.cachemode != VIR_DOMAIN_DISK_CACHE_DISABLE then
        if disk.type = VIR_DOMAIN_DISK_TYPE_FILE then
          if env.virStorageFileIsSharedFS src < 0 then ⟨[], false⟩
          else if env.virStorageFileIsSharedFS src = 0 then qemuMigrationIsSafe_loop env rest
          else if env.virStorageFileIsClusterFS src < 0 then ⟨[], false⟩
          else if env.virStorageFileIsClusterFS src = 1 then qemuMigrationIsSafe_loop env rest
          else qemuMigrationIsSafe_unsafe
        else if disk.type = VIR_DOMAIN_DISK_TYPE_NETWORK ∧
            disk.protocol = VIR_DOMAIN_DISK_PROTOCOL_RBD then
          qemuMigrationIsSafe_loop env rest
        else qemuMigrationIsSafe_unsafe
      else qemuMigrationIsSafe_loop env rest
    | none => qemuMigrationIsSafe_loop env rest

/-- Safety gate: `qemuMigrationIsSafe` (lines 1468-1506). -/
def qemuMigrationIsSafe (env : Env) (defn : virDomainDef) : Verdict :=
  qemuMigrationIsSafe_loop env defn.disks

/-! ## The phase of a migration job -/

/-- Modelled from the spec: `qemuDomainObjSetJobPhase` of `qemu_domain.c` is not
part of the file; every transition is recorded on the job, so it stores the
phase. -/
def qemuDomainObjSetJobPhase (vm : virDomainObj) (phase : qemuMigrationJobPhase) :
    virDomainObj :=
  { vm with privateData := { vm.privateData with job := { vm.privateData.job with phase := phase } } }

/-- Phase change: `qemuMigrationJobSetPhase` (lines 4697-4712); a step backwards is
logged with `VIR_ERROR` and refused. -/
def qemuMigrationJobSetPhase (vm : virDomainObj) (phase : qemuMigrationJobPhase) :
    virDomainObj :=
  if phase.toNat < vm.privateData.job.phase.toNat then vm
  else qemuDomainObjSetJobPhase vm phase

/-- Phase change holding a reference: `qemuMigrationJobStartPhase` (lines 4714-4721);
the reference count is not part of the model. -/
def qemuMigrationJobStartPhase (vm : virDomainObj) (phase : qemuMigrationJobPhase) :
    virDomainObj :=
  qemuMigrationJobSetPhase vm phase

/-- A call of one of the two phase setters. -/
inductive PhaseCall
  | setPhase (phase : qemuMigrationJobPhase)
  | startPhase (phase : qemuMigrationJobPhase)
  deriving DecidableEq, Repr

/-- Effect of one call on the domain. -/
def PhaseCall.run (vm : virDomainObj) : PhaseCall → virDomainObj
  | .setPhase phase => qemuMigrationJobSetPhase vm phase
  | .startPhase phase => qemuMigrationJobStartPhase vm phase

/-- The phases observed while a sequence of calls runs: the phase before the
first call and the phase after each call. -/
def phaseTrace (vm : virDomainObj) : List PhaseCall → List qemuMigrationJobPhase
  | [] => [vm.privateData.job.phase]
  | c :: cs => vm.privateData.job.phase :: phaseTrace (c.run vm) cs

/-! ## The Begin and Prepare steps -/

/-- Public migration flag `VIR_MIGRATE_LIVE` (`virDomainMigrateFlags`). -/
def VIR_MIGRATE_LIVE : Nat := 1 <<< 0
/-- Public migration flag `VIR_MIGRATE_PEER2PEER`. -/
def VIR_MIGRATE_PEER2PEER : Nat := 1 <<< 1
/-- Public migration flag `VIR_MIGRATE_TUNNELLED`. -/
def VIR_MIGRATE_TUNNELLED : Nat := 1 <<< 2
/-- Public migration flag `VIR_MIGRATE_PERSIST_DEST`. -/
def VIR_MIGRATE_PERSIST_DEST : Nat := 1 <<< 3
/-- Public migration flag `VIR_MIGRATE_UNDEFINE_SOURCE`. -/
def VIR_MIGRATE_UNDEFINE_SOURCE : Nat := 1 <<< 4
/-- Public migration flag `VIR_MIGRATE_PAUSED`. -/
def VIR_MIGRATE_PAUSED : Nat := 1 <<< 5
/-- Public migration flag `VIR_MIGRATE_NON_SHARED_DISK`. -/
def VIR_MIGRATE_NON_SHARED_DISK : Nat := 1 <<< 6
/-- Public migration flag `VIR_MIGRATE_NON_SHARED_INC`. -/
def VIR_MIGRATE_NON_SHARED_INC : Nat := 1 <<< 7
/-- Public migration flag `VIR_MIGRATE_CHANGE_PROTECTION`. -/
def VIR_MIGRATE_CHANGE_PROTECTION : Nat := 1 <<< 8
/-- Public migration flag `VIR_MIGRATE_UNSAFE`. -/
def VIR_MIGRATE_UNSAFE : Nat := 1 <<< 9
/-- Public migration flag `VIR_MIGRATE_OFFLINE`. -/
def VIR_MIGRATE_OFFLINE : Nat := 1 <<< 10
/-- Public migration flag `VIR_MIGRATE_COMPRESSED`. -/
def VIR_MIGRATE_COMPRESSED : Nat := 1 <<< 11
/-- Public migration flag `VIR_MIGRATE_ABORT_ON_ERROR`. -/
def VIR_MIGRATE_ABORT_ON_ERROR : Nat := 1 <<< 12

open VirErrorCode in
/-- The checks made under `flags & VIR_MIGRATE_OFFLINE` in `qemuMigrationBeginPhase`
(lines 2011-2031) and in `qemuMigrationPrepareAny` (lines 2183-2203): the error
reported for an invalid combination, `none` when the flags pass. The argument
`tunnel` is `flags & VIR_MIGRATE_TUNNELLED` in Begin and `!!st` in Prepare. -/
def offlineFlagsCheck (flags : Nat) (tunnel : Bool) : Option VirError :=
  if hasFlag flags VIR_MIGRATE_OFFLINE then
    if hasFlag flags (VIR_MIGRATE_NON_SHARED_DISK ||| VIR_MIGRATE_NON_SHARED_INC) then
      some ⟨VIR_ERR_OPERATION_INVALID, "offline migration cannot handle non-shared storage"⟩
    else if !hasFlag flags VIR_MIGRATE_PERSIST_DEST then
      some ⟨VIR_ERR_OPERATION_INVALID,
        "offline migration must be specified with the persistent flag set"⟩
    else if tunnel then
      some ⟨VIR_ERR_OPERATION_INVALID, "tunnelled offline migration does not make sense"⟩
    else none
  else none

/-- Result of `qemuMigrationBeginPhase`: the errors reported, the returned XML
(`none` for `NULL`), the domain as it is left and the caller's cookie output. -/
structure BeginResult where
  errors : List VirError
  rv : Option String
  vm : virDomainObj
  out : Option CookieOut
  deriving DecidableEq, Repr

/-- The last part of `qemuMigrationBeginPhase` (lines 2033-2045): the XML returned
to the caller. -/
def qemuMigrationBeginPhase_xml (env : Env) (vm : virDomainObj) (xmlin : Option String) :
    Option String :=
  match xmlin with
  | some xml =>
    match env.virDomainDefParseString xml with
    | none => none
    | some defn =>
      if !env.virDomainDefCheckABIStability vm.defn defn then none
      else env.qemuDomainDefFormatLive defn
  | none => env.qemuDomainDefFormatLive vm.defn

open qemuDomainAsyncJob qemuMigrationJobPhase in
/-- The phase change at the start of `qemuMigrationBeginPhase` (lines 1979-1984):
made only inside an outgoing migration job. -/
def qemuMigrationBeginPhase_setPhase (vm : virDomainObj) : virDomainObj :=
  if vm.privateData.job.asyncJob = QEMU_ASYNC_JOB_MIGRATION_OUT then
    qemuMigrationJobSetPhase vm QEMU_MIGRATION_PHASE_BEGIN3
  else vm

/-- The choice of the cookie flags in `qemuMigrationBeginPhase` (lines 1968 and
1992-2001): `priv->nbdPort` is cleared when NBD storage migration is chosen.
Gives the domain and the cookie flags. -/
def qemuMigrationBeginPhase_cookieFlags (vm : virDomainObj) (flags : Nat) : virDomainObj × Nat :=
  if hasFlag flags (VIR_MIGRATE_NON_SHARED_DISK ||| VIR_MIGRATE_NON_SHARED_INC) &&
      vm.privateData.capsNbdServer then
    if hasFlag flags VIR_MIGRATE_TUNNELLED then (vm, QEMU_MIGRATION_COOKIE_LOCKSTATE)
    else
      ({ vm with privateData := { vm.privateData with nbdPort := 0 } },
        QEMU_MIGRATION_COOKIE_LOCKSTATE ||| QEMU_MIGRATION_COOKIE_NBD)
  else (vm, QEMU_MIGRATION_COOKIE_LOCKSTATE)

/-- The Begin step: `qemuMigrationBeginPhase` (lines 1954-2052). -/
def qemuMigrationBeginPhase (env : Env) (vm : virDomainObj) (xmlin : Option String)
    (out : Option CookieOut) (flags : Nat) : BeginResult :=
  let abort_on_error := hasFlag flags VIR_MIGRATE_ABORT_ON_ERROR
  if env.caps = false then ⟨[], none, vm, out⟩
  else
    let vm1 := qemuMigrationBeginPhase_setPhase vm
    let allowed := qemuMigrationIsAllowed (some vm1) vm1.defn true abort_on_error
    if !allowed.result then ⟨allowed.errors, none, vm1, out⟩
    else
      let safe := qemuMigrationIsSafe env vm1.defn
      if !hasFlag flags VIR_MIGRATE_UNSAFE && !safe.result then ⟨safe.errors, none, vm1, out⟩
      else
        let vm2 := (qemuMigrationBeginPhase_cookieFlags vm1 flags).1
        let cookieFlags := (qemuMigrationBeginPhase_cookieFlags vm1 flags).2
        let eaten := qemuMigrationEatCookie env vm2 none 0
        match eaten.value with
        | none => ⟨eaten.errors, none, vm2, out⟩
        | some mig =>
          let baked := qemuMigrationBakeCookie env mig vm2 out cookieFlags
          if baked.ret < 0 then ⟨eaten.errors ++ baked.errors, none, vm2, baked.out⟩
          else
            match offlineFlagsCheck flags (hasFlag flags VIR_MIGRATE_TUNNELLED) with
            | some err => ⟨eaten.errors ++ baked.errors ++ [err], none, vm2, baked.out⟩
            | none =>
              ⟨eaten.errors ++ baked.errors, qemuMigrationBeginPhase_xml env vm2 xmlin, vm2,
                baked.out⟩

/-- What a Prepare call can change on the destination: the domains registered
with the driver (each with its job phase and stored NBD port) and the caller's
cookie output. -/
structure PrepareState where
  domains : List virDomainObj
  out : Option CookieOut
  deriving DecidableEq, Repr

/-- Result of `qemuMigrationPrepareAny`. -/
structure PrepareResult where
  errors : List VirError
  ret : Int
  state : PrepareState
  deriving DecidableEq, Repr

/-- The Prepare step: `qemuMigrationPrepareAny` (lines 2152-2440), up to the policy
gate. The argument `tunnel` is `!!st`. What follows the gate (the hook, the
registration of the domain with `virDomainObjListAdd`, the cookie intake, the
job start, the process start and the cookie output, lines 2211-2440) is the
argument `rest`. -/
def qemuMigrationPrepareAny (env : Env) (state : PrepareState) (defn : virDomainDef)
    (tunnel : Bool) (flags : Nat)
    (rest : PrepareState → virDomainDef → PrepareResult) : PrepareResult :=
  let abort_on_error := hasFlag flags VIR_MIGRATE_ABORT_ON_ERROR
  match env.virTimeMillisNow with
  | none => ⟨[], -1, state⟩
  | some _ =>
    match offlineFlagsCheck flags tunnel with
    | some err => ⟨[err], -1, state⟩
    | none =>
      if env.caps = false then ⟨[], -1, state⟩
      else
        let allowed := qemuMigrationIsAllowed none defn true abort_on_error
        if !allowed.result then ⟨allowed.errors, -1, state⟩
        else rest state defn

/-! ## The hypervisor monitor and the progress of the migration -/

/-- A command sent to the hypervisor through the monitor. -/
inductive MonitorCmd
  /-- Command `qemuMonitorGetMigrationStatus`. -/
  | getMigrationStatus
  /-- Command `qemuMonitorMigrateCancel`. -/
  | migrateCancel
  /-- Command `qemuMonitorDriveMirror(mon, device, target, NULL, speed, flags)`. -/
  | driveMirror (device target : String) (speed : Nat) (flags : Nat)
  /-- Command `qemuMonitorBlockJob(mon, device, NULL, 0, &info, BLOCK_JOB_INFO, true)`. -/
  | blockJobInfo (device : String)
  /-- Command `qemuMonitorBlockJob(mon, device, NULL, 0, NULL, BLOCK_JOB_ABORT, true)`. -/
  | blockJobAbort (device : String)
  /-- Command `qemuMonitorNBDServerStart(mon, host, port)`. -/
  | nbdServerStart (host : String) (port : Nat)
  /-- Command `qemuMonitorNBDServerAdd(mon, device, writable)`. -/
  | nbdServerAdd (device : String) (writable : Bool)
  /-- Command `qemuMonitorNBDServerStop(mon)`. -/
  | nbdServerStop
  /-- Command `qemuMonitorMigrateToHost(mon, flags, hostname, port)`. -/
  | migrateToHost (flags : Nat) (hostname : Option String) (port : Nat)
  /-- Command `qemuMonitorGetSpiceMigrationStatus(mon, &spice_migrated)`. -/
  | getSpiceMigrationStatus
  deriving DecidableEq, Repr

/-- Addition of `unsigned long long` values. -/
def ullAdd (a b : Nat) : Nat := (a + b) % 2 ^ 64

/-- Subtraction of `unsigned long long` values. -/
def ullSub (a b : Nat) : Nat := (a % 2 ^ 64 + 2 ^ 64 - b % 2 ^ 64) % 2 ^ 64

/-- What one call of `qemuMigrationUpdateJobStatus` meets: whether the monitor
can be entered, whether the status query succeeds and what it stores, and the
clock. -/
structure StatusObs where
  /-- Whether `qemuDomainObjEnterMonitorAsync` is not negative. -/
  enterMonitor : Bool
  /-- Whether `qemuMonitorGetMigrationStatus` is not negative. -/
  querySucceeds : Bool
  /-- The status that the query stored. -/
  status : qemuMonitorMigrationStatus
  /-- Result of `virTimeMillisNow`, `none` when it is negative. -/
  timeNow : Option Nat
  deriving DecidableEq, Repr

/-- Result of a routine working on the job of a domain: the errors reported,
the return value, the domain as it is left and the commands sent to the
hypervisor, in order. -/
structure JobStep where
  errors : List VirError
  ret : Int
  vm : virDomainObj
  cmds : List MonitorCmd
  deriving DecidableEq, Repr

/-- The domain with another job information record. -/
def setJobInfo (vm : virDomainObj) (info : virDomainJobInfo) : virDomainObj :=
  { vm with privateData := { vm.privateData with job := { vm.privateData.job with info := info } } }

/-- The domain with another job type in its job information. -/
def setJobType (vm : virDomainObj) (type : virDomainJobType) : virDomainObj :=
  setJobInfo vm { vm.privateData.job.info with type := type }

open VirErrorCode virDomainJobType qemuMonitorMigrationStatusValue in
/-- Status update: `qemuMigrationUpdateJobStatus` (lines 1613-1689). -/
def qemuMigrationUpdateJobStatus (vm : virDomainObj) (job : String) (obs : StatusObs) :
    JobStep :=
  if obs.enterMonitor = false then ⟨[], -1, vm, []⟩
  else
    let vm1 : virDomainObj :=
      { vm with privateData :=
          { vm.privateData with job := { vm.privateData.job with status := obs.status } } }
    match obs.querySucceeds, obs.timeNow with
    | true, some now =>
      let status := vm1.privateData.job.status
      let info := { vm1.privateData.job.info with
                    timeElapsed := ullSub now vm1.privateData.job.start }
      match status.status with
      | QEMU_MONITOR_MIGRATION_STATUS_INACTIVE =>
        ⟨[⟨VIR_ERR_OPERATION_FAILED, job ++ ": " ++ "is not active"⟩], -1,
          setJobInfo vm1 { info with type := VIR_DOMAIN_JOB_NONE }, [.getMigrationStatus]⟩
      | QEMU_MONITOR_MIGRATION_STATUS_ACTIVE =>
        ⟨[], 0,
          setJobInfo vm1
            { info with
              fileTotal := status.disk_total,
              fileRemaining := status.disk_remaining,
              fileProcessed := status.disk_transferred,
              memTotal := status.ram_total,
              memRemaining := status.ram_remaining,
              memProcessed := status.ram_transferred,
              dataTotal := ullAdd status.ram_total status.disk_total,
              dataRemaining := ullAdd status.ram_remaining status.disk_remaining,
              dataProcessed := ullAdd status.ram_transferred status.disk_transferred },
          [.getMigrationStatus]⟩
      | QEMU_MONITOR_MIGRATION_STATUS_COMPLETED =>
        ⟨[], 0, setJobInfo vm1 { info with type := VIR_DOMAIN_JOB_COMPLETED },
          [.getMigrationStatus]⟩
      | QEMU_MONITOR_MIGRATION_STATUS_ERROR =>
        ⟨[⟨VIR_ERR_OPERATION_FAILED, job ++ ": " ++ "unexpectedly failed"⟩], -1,
          setJobInfo vm1 { info with type := VIR_DOMAIN_JOB_FAILED }, [.getMigrationStatus]⟩
      | QEMU_MONITOR_MIGRATION_STATUS_CANCELLED =>
        ⟨[⟨VIR_ERR_OPERATION_ABORTED, job ++ ": " ++ "canceled by client"⟩], -1,
          setJobInfo vm1 { info with type := VIR_DOMAIN_JOB_CANCELLED }, [.getMigrationStatus]⟩
      | QEMU_MONITOR_MIGRATION_STATUS_LAST => ⟨[], -1, setJobInfo vm1 info, [.getMigrationStatus]⟩
    | _, _ => ⟨[], -1, setJobType vm1 VIR_DOMAIN_JOB_FAILED, [.getMigrationStatus]⟩

/-- The domain with another abort request of a concurrent caller
(`priv->job.asyncAbort`). -/
def setAsyncAbort (vm : virDomainObj) (asyncAbort : Bool) : virDomainObj :=
  { vm with privateData :=
      { vm.privateData with job := { vm.privateData.job with asyncAbort := asyncAbort } } }

/-- What one iteration of the loop of `qemuMigrationWaitForCompletion` meets. -/
structure WaitObs where
  /-- State returned by `virDomainObjGetState` at the top of the iteration. -/
  state : virDomainState
  /-- Reason returned by `virDomainObjGetState` at the top of the iteration. -/
  reason : Nat
  /-- What the status update of the iteration meets. -/
  status : StatusObs
  /-- Result of `virConnectIsAlive(dconn)`. -/
  connIsAlive : Int
  /-- Result of `virDomainObjIsActive(vm)` under the label `cancel`. -/
  isActive : Bool
  /-- Whether `qemuDomainObjEnterMonitorAsync` under the label `cancel` is zero. -/
  cancelEnterMonitor : Bool
  deriving DecidableEq, Repr

open qemuDomainAsyncJob in
/-- The name of the job in the messages of `qemuMigrationWaitForCompletion`
(lines 1701-1713). -/
def qemuMigrationWaitForCompletion_job (vm : virDomainObj) : String :=
  match vm.privateData.job.asyncJob with
  | QEMU_ASYNC_JOB_MIGRATION_OUT => "migration job"
  | QEMU_ASYNC_JOB_SAVE => "domain save job"
  | QEMU_ASYNC_JOB_DUMP => "domain core dump job"
  | _ => "job"

open virDomainJobType in
/-- The label `cleanup` of `qemuMigrationWaitForCompletion` (lines 1743-1747). -/
def qemuMigrationWaitForCompletion_cleanup (vm : virDomainObj) : Int :=
  if vm.privateData.job.info.type = VIR_DOMAIN_JOB_COMPLETED then 0 else -1

open VirErrorCode virDomainJobType in
/-- The label `cancel` of `qemuMigrationWaitForCompletion` (lines 1749-1761). -/
def qemuMigrationWaitForCompletion_cancel (vm : virDomainObj) (job : String) (obs : WaitObs) :
    JobStep :=
  ⟨[⟨VIR_ERR_OPERATION_FAILED, job ++ ": " ++ "failed due to I/O error"⟩], -1,
    setJobType vm VIR_DOMAIN_JOB_FAILED,
    if obs.isActive && obs.cancelEnterMonitor then [.migrateCancel] else []⟩

open VirErrorCode virDomainJobType virDomainState in
/-- The loop of `qemuMigrationWaitForCompletion` (lines 1717-1741) with the two
labels it leaves through, run on the observations of its iterations; `none`
when the loop is still polling after the last observation. The argument
`dconn` tells whether a destination connection was given. -/
def qemuMigrationWaitForCompletion_loop (job : String) (dconn abort_on_error : Bool) :
    virDomainObj → List WaitObs → Option JobStep
  | vm, [] =>
    if vm.privateData.job.info.type ≠ VIR_DOMAIN_JOB_UNBOUNDED then
      some ⟨[], qemuMigrationWaitForCompletion_cleanup vm, vm, []⟩
    else none
  | vm, obs :: rest =>
    if vm.privateData.job.info.type ≠ VIR_DOMAIN_JOB_UNBOUNDED then
      some ⟨[], qemuMigrationWaitForCompletion_cleanup vm, vm, []⟩
    else
      let vm1 := { vm with state := obs.state, reason := obs.reason }
      if abort_on_error && decide (vm1.state = VIR_DOMAIN_PAUSED) &&
          decide (vm1.reason = VIR_DOMAIN_PAUSED_IOERROR) then
        some (qemuMigrationWaitForCompletion_cancel vm1 job obs)
      else
        let upd := qemuMigrationUpdateJobStatus vm1 job obs.status
        if upd.ret < 0 then
          some ⟨upd.errors, qemuMigrationWaitForCompletion_cleanup upd.vm, upd.vm, upd.cmds⟩
        else if dconn && decide (obs.connIsAlive ≤ 0) then
          some ⟨upd.errors ++
              [⟨VIR_ERR_OPERATION_FAILED, "Lost connection to destination host"⟩],
            qemuMigrationWaitForCompletion_cleanup upd.vm, upd.vm, upd.cmds⟩
        else
          (qemuMigrationWaitForCompletion_loop job dconn abort_on_error upd.vm rest).map
            fun r => { r with errors := upd.errors ++ r.errors, cmds := upd.cmds ++ r.cmds }

open virDomainJobType in
/-- Waiting for the end of the migration: `qemuMigrationWaitForCompletion`
(lines 1692-1762). -/
def qemuMigrationWaitForCompletion (vm : virDomainObj) (dconn abort_on_error : Bool)
    (observations : List WaitObs) : Option JobStep :=
  qemuMigrationWaitForCompletion_loop (qemuMigrationWaitForCompletion_job vm) dconn
    abort_on_error (setJobType vm VIR_DOMAIN_JOB_UNBOUNDED) observations

/-! ## The storage copy: NBD server and drive mirror -/

/-- The test `disk->shared || disk->readonly || !disk->src` under which the
storage copy skips a disk. -/
def diskSkipped (disk : virDomainDiskDef) : Bool :=
  disk.shared || disk.readonly || disk.src.isNone

/-- The drive alias `QEMU_DRIVE_HOST_PREFIX` followed by `disk->info.alias`
(a `NULL` alias is printed by `%s` as `(null)`). -/
def diskAlias (env : Env) (disk : virDomainDiskDef) : String :=
  env.QEMU_DRIVE_HOST_PREFIX ++ disk.infoAlias.getD "(null)"

/-- What `qemuMigrationStartNBDServer` meets, for the disk of index `i`:
whether the monitor can be entered, what `virPortAllocatorAcquire` answers
(whether it is not negative, and the port it stores), and whether the two
monitor commands succeed. -/
structure NBDServerObs where
  enterMonitor : Nat → Bool
  acquire : Nat → Bool × Nat
  nbdServerStart : String → Nat → Bool
  nbdServerAdd : String → Bool

/-- State of the loop of `qemuMigrationStartNBDServer` when it is left: whether
it ran to its end, the local `port`, the commands sent and the answers of the
calls of `virPortAllocatorAcquire`, in order. -/
structure NBDServerLoop where
  completed : Bool
  port : Nat
  cmds : List MonitorCmd
  acquireCalls : List (Bool × Nat)
  deriving DecidableEq, Repr

/-- The loop over the disks of `qemuMigrationStartNBDServer` (lines 1107-1135),
from the disk of index `i` on, with the local `port`. -/
def qemuMigrationStartNBDServer_loop (env : Env) (obs : NBDServerObs) (host : String) :
    Nat → Nat → List virDomainDiskDef → NBDServerLoop
  | _, port, [] => ⟨true, port, [], []⟩
  | i, port, disk :: rest =>
    if diskSkipped disk then qemuMigrationStartNBDServer_loop env obs host (i + 1) port rest
    else if obs.enterMonitor i = false then ⟨false, port, [], []⟩
    else if port = 0 then
      if (obs.acquire i).1 = false then ⟨false, (obs.acquire i).2, [], [obs.acquire i]⟩
      else if obs.nbdServerStart host (obs.acquire i).2 = false then
        ⟨false, (obs.acquire i).2, [.nbdServerStart host (obs.acquire i).2], [obs.acquire i]⟩
      else if obs.nbdServerAdd (diskAlias env disk) = false then
        ⟨false, (obs.acquire i).2,
          [.nbdServerStart host (obs.acquire i).2, .nbdServerAdd (diskAlias env disk) true],
          [obs.acquire i]⟩
      else
        let r := qemuMigrationStartNBDServer_loop env obs host (i + 1) (obs.acquire i).2 rest
        { r with
          cmds := .nbdServerStart host (obs.acquire i).2 ::
            .nbdServerAdd (diskAlias env disk) true :: r.cmds,
          acquireCalls := obs.acquire i :: r.acquireCalls }
    else if obs.nbdServerAdd (diskAlias env disk) = false then
      ⟨false, port, [.nbdServerAdd (diskAlias env disk) true], []⟩
    else
      let r := qemuMigrationStartNBDServer_loop env obs host (i + 1) port rest
      { r with cmds := .nbdServerAdd (diskAlias env disk) true :: r.cmds }

/-- Result of `qemuMigrationStartNBDServer`: the return value, the domain as it
is left, the commands sent, the answers of the calls of
`virPortAllocatorAcquire` and the ports given to `virPortAllocatorRelease`. -/
structure NBDServerResult where
  ret : Int
  vm : virDomainObj
  cmds : List MonitorCmd
  acquireCalls : List (Bool × Nat)
  released : List Nat
  deriving DecidableEq, Repr

/-- Start of the NBD server: `qemuMigrationStartNBDServer` (lines 1090-1145). -/
def qemuMigrationStartNBDServer (env : Env) (obs : NBDServerObs) (vm : virDomainObj)
    (listenAddr : String) : NBDServerResult :=
  let host := if listenAddr = "[::]" then "::" else listenAddr
  let r := qemuMigrationStartNBDServer_loop env obs host 0 0 vm.defn.disks
  if r.completed then
    ⟨0, { vm with privateData := { vm.privateData with nbdPort := r.port } }, r.cmds,
      r.acquireCalls, []⟩
  else ⟨-1, vm, r.cmds, r.acquireCalls, [r.port]⟩

/-- The loop over the disks of `qemuMigrationCancelDriveMirror` (lines 1362-1382),
from the disk of index `i` on: the commands sent. The argument `enterMonitor`
tells, for the disk of index `i`, whether the monitor can be entered. -/
def qemuMigrationCancelDriveMirror_loop (env : Env) (enterMonitor : Nat → Bool) :
    Nat → List virDomainDiskDef → List MonitorCmd
  | _, [] => []
  | i, disk :: rest =>
    if diskSkipped disk then qemuMigrationCancelDriveMirror_loop env enterMonitor (i + 1) rest
    else if enterMonitor i = false then []
    else
      .blockJobAbort (diskAlias env disk) ::
        qemuMigrationCancelDriveMirror_loop env enterMonitor (i + 1) rest

/-- Cancelling the mirrors: `qemuMigrationCancelDriveMirror` (lines 1351-1387); a
command that fails is only logged. -/
def qemuMigrationCancelDriveMirror (env : Env) (enterMonitor : Nat → Bool)
    (vm : virDomainObj) : List MonitorCmd :=
  qemuMigrationCancelDriveMirror_loop env enterMonitor 0 vm.defn.disks

/-- Flag `QEMU_MONITOR_MIGRATE_BACKGROUND` of `qemu_monitor.h`. -/
def QEMU_MONITOR_MIGRATE_BACKGROUND : Nat := 1 <<< 0
/-- Flag `QEMU_MONITOR_MIGRATE_NON_SHARED_DISK` of `qemu_monitor.h`. -/
def QEMU_MONITOR_MIGRATE_NON_SHARED_DISK : Nat := 1 <<< 1
/-- Flag `QEMU_MONITOR_MIGRATE_NON_SHARED_INC` of `qemu_monitor.h`. -/
def QEMU_MONITOR_MIGRATE_NON_SHARED_INC : Nat := 1 <<< 2
/-- Public flag `VIR_DOMAIN_BLOCK_REBASE_SHALLOW`. -/
def VIR_DOMAIN_BLOCK_REBASE_SHALLOW : Nat := 1 <<< 0
/-- Public flag `VIR_DOMAIN_BLOCK_REBASE_REUSE_EXT`. -/
def VIR_DOMAIN_BLOCK_REBASE_REUSE_EXT : Nat := 1 <<< 1

/-- The operation `flags &= ~mask` on an `unsigned int`. -/
def clearFlags (flags mask : Nat) : Nat := flags &&& ((2 ^ 32 - 1) ^^^ mask)

/-- What one iteration of the wait loop of `qemuMigrationDriveMirror` meets:
whether the monitor can be entered, the abort request read inside the
monitor, whether the block job query succeeds, and the progress it stores. -/
structure MirrorPollObs where
  enterMonitor : Bool
  asyncAbort : Bool
  blockJob : Bool
  cur : Nat
  «end» : Nat
  deriving DecidableEq, Repr

/-- What `qemuMigrationDriveMirror` meets, for the disk of index `i`: whether
the monitor can be entered before the mirror is started, whether the
`drive-mirror` command succeeds, the iterations of the wait loop, and whether
the monitor can be entered when the job is cancelled. -/
structure MirrorObs where
  enterMonitor : Nat → Bool
  driveMirror : Nat → Bool
  polls : Nat → List MirrorPollObs
  abortEnterMonitor : Nat → Bool

/-- How the wait loop of one disk ends. -/
inductive MirrorPollEnd
  /-- The job reached `cur == end`. -/
  | completed (cmds : List MonitorCmd)
  /-- The loop left through the label `error`. -/
  | failed (errors : List VirError) (cmds : List MonitorCmd)
  /-- The loop is still polling after the last observation. -/
  | pending
  deriving DecidableEq, Repr

open VirErrorCode in
/-- The wait loop of `qemuMigrationDriveMirror` for one disk (lines 1241-1281). -/
def qemuMigrationDriveMirror_poll (env : Env) (vm : virDomainObj) (diskAlias : String) :
    List MirrorPollObs → MirrorPollEnd
  | [] => .pending
  | p :: rest =>
    if p.enterMonitor = false then .failed [] []
    else if p.asyncAbort then
      .failed
        [⟨VIR_ERR_OPERATION_ABORTED,
          env.qemuDomainAsyncJobTypeToString vm.privateData.job.asyncJob ++ ": " ++
            "canceled by client"⟩] []
    else if p.blockJob = false then .failed [] [.blockJobInfo diskAlias]
    else if p.cur = p.end then .completed [.blockJobInfo diskAlias]
    else
      match qemuMigrationDriveMirror_poll env vm diskAlias rest with
      | .completed cmds => .completed (.blockJobInfo diskAlias :: cmds)
      | .failed errors cmds => .failed errors (.blockJobInfo diskAlias :: cmds)
      | .pending => .pending

/-- Whether the observations of a wait loop lead the block job to `cur == end`:
up to an iteration that finds the two equal, every iteration enters the
monitor, sees no abort request and has its query answered. -/
def mirrorPollReaches : List MirrorPollObs → Bool
  | [] => false
  | p :: rest =>
    p.enterMonitor && !p.asyncAbort && p.blockJob &&
      (decide (p.cur = p.end) || mirrorPollReaches rest)

/-- Whether every disk that is not skipped, from the disk of index `i` on, has
its mirror started and reaches `cur == end`. -/
def mirrorCompletes (obs : MirrorObs) : Nat → List virDomainDiskDef → Bool
  | _, [] => true
  | i, disk :: rest =>
    (diskSkipped disk ||
      (obs.enterMonitor i && obs.driveMirror i && mirrorPollReaches (obs.polls i))) &&
      mirrorCompletes obs (i + 1) rest

/-- How the loop over the disks of `qemuMigrationDriveMirror` ends. -/
inductive MirrorLoopEnd
  /-- Every disk was copied. -/
  | copied (cmds : List MonitorCmd)
  /-- The loop left through the label `error`, with this value of `lastGood`. -/
  | failed (errors : List VirError) (cmds : List MonitorCmd) (lastGood : Nat)
  /-- A wait loop is still polling after its last observation. -/
  | pending
  deriving DecidableEq, Repr

/-- The loop over the disks of `qemuMigrationDriveMirror` (lines 1212-1282), from
the disk of index `i` on, with the local `lastGood`. -/
def qemuMigrationDriveMirror_loop (env : Env) (obs : MirrorObs) (vm : virDomainObj)
    (hoststr : String) (port : Int) (speed mirror_flags : Nat) :
    Nat → Nat → List virDomainDiskDef → MirrorLoopEnd
  | _, _, [] => .copied []
  | i, lastGood, disk :: rest =>
    if diskSkipped disk then
      qemuMigrationDriveMirror_loop env obs vm hoststr port speed mirror_flags (i + 1) lastGood
        rest
    else
      let nbd_dest :=
        "nbd:" ++ hoststr ++ ":" ++ toString port ++ ":exportname=" ++ diskAlias env disk
      if obs.enterMonitor i = false then .failed [] [] lastGood
      else if obs.driveMirror i = false then
        .failed [] [.driveMirror (diskAlias env disk) nbd_dest speed mirror_flags] lastGood
      else
        match qemuMigrationDriveMirror_poll env vm (diskAlias env disk) (obs.polls i) with
        | .pending => .pending
        | .failed errors cmds =>
          .failed errors
            (.driveMirror (diskAlias env disk) nbd_dest speed mirror_flags :: cmds) i
        | .completed cmds =>
          match qemuMigrationDriveMirror_loop env obs vm hoststr port speed mirror_flags
              (i + 1) i rest with
          | .pending => .pending
          | .failed errors cmds2 lastGood2 =>
            .failed errors
              (.driveMirror (diskAlias env disk) nbd_dest speed mirror_flags :: cmds ++ cmds2)
              lastGood2
          | .copied cmds2 =>
            .copied
              (.driveMirror (diskAlias env disk) nbd_dest speed mirror_flags :: cmds ++ cmds2)

/-- The loop under the label `error` of `qemuMigrationDriveMirror` (lines 1299-1320),
entered with this value of `lastGood`: the commands sent. A command that fails
is only logged. -/
def qemuMigrationDriveMirror_rollback (env : Env) (obs : MirrorObs)
    (disks : List virDomainDiskDef) : Nat → List MonitorCmd
  | 0 => []
  | lastGood + 1 =>
    match disks.get? lastGood with
    | none => qemuMigrationDriveMirror_rollback env obs disks lastGood
    | some disk =>
      if diskSkipped disk then qemuMigrationDriveMirror_rollback env obs disks lastGood
      else if obs.abortEnterMonitor lastGood then
        .blockJobAbort (diskAlias env disk) ::
          qemuMigrationDriveMirror_rollback env obs disks lastGood
      else qemuMigrationDriveMirror_rollback env obs disks lastGood

/-- Result of `qemuMigrationDriveMirror`: the errors reported, the return value,
the cookie as it is left, the word `*migrate_flags` and the commands sent. -/
structure MirrorResult where
  errors : List VirError
  ret : Int
  mig : qemuMigrationCookie
  migrate_flags : Nat
  cmds : List MonitorCmd
  deriving DecidableEq, Repr

/-- Storage copy on the source: `qemuMigrationDriveMirror` (lines 1166-1325); `none`
when a wait loop is still polling after its last observation. -/
def qemuMigrationDriveMirror (env : Env) (obs : MirrorObs) (vm : virDomainObj)
    (mig : qemuMigrationCookie) (host : String) (speed : Nat) (migrate_flags : Nat) :
    Option MirrorResult :=
  if hasFlag migrate_flags
      (QEMU_MONITOR_MIGRATE_NON_SHARED_DISK ||| QEMU_MONITOR_MIGRATE_NON_SHARED_INC) = false then
    some ⟨[], 0, mig, migrate_flags, []⟩
  else
    match mig.nbd with
    | none => some ⟨[], 0, mig, migrate_flags, []⟩
    | some nbd =>
      let port := nbd.port
      let mig1 := { mig with nbd := some { nbd with port := 0 } }
      let hoststr := if host.data.contains ':' then "[" ++ host ++ "]" else host
      let mirror_flags :=
        if hasFlag migrate_flags QEMU_MONITOR_MIGRATE_NON_SHARED_INC then
          VIR_DOMAIN_BLOCK_REBASE_REUSE_EXT ||| VIR_DOMAIN_BLOCK_REBASE_SHALLOW
        else VIR_DOMAIN_BLOCK_REBASE_REUSE_EXT
      match qemuMigrationDriveMirror_loop env obs vm hoststr port speed mirror_flags 0 0
          vm.defn.disks with
      | .pending => none
      | .copied cmds =>
        some ⟨[], 0, mig1,
          clearFlags migrate_flags
            (QEMU_MONITOR_MIGRATE_NON_SHARED_DISK ||| QEMU_MONITOR_MIGRATE_NON_SHARED_INC),
          cmds⟩
      | .failed errors cmds lastGood =>
        some ⟨errors, -1, mig1, migrate_flags,
          cmds ++ qemuMigrationDriveMirror_rollback env obs vm.defn.disks lastGood⟩

/-! ## The tunnel worker and the end of `qemuMigrationRun` -/

/-- What an external routine that may fail did: the errors it reported and
whether it succeeded. -/
structure CallObs where
  errors : List VirError
  ok : Bool
  deriving DecidableEq, Repr

/-- What `qemuMigrationStopTunnel` meets: whether the wake-up byte could be
written, and the error that the worker has captured in `io->err` when it is
joined, for the byte written (`none` when `io->err.code` is `VIR_ERR_OK`). -/
structure TunnelObs where
  wakeupWritten : Bool
  workerErr : Nat → Option VirError

/-- Result of `qemuMigrationStopTunnel`: the errors raised in the calling
thread, the return value, the byte given to `safewrite` and whether the worker
was joined. -/
structure StopTunnelResult where
  errors : List VirError
  rv : Int
  stop : Nat
  joined : Bool
  deriving DecidableEq, Repr

open VirErrorCode in
/-- Stopping the tunnel worker: `qemuMigrationStopTunnel` (lines 2976-3008). -/
def qemuMigrationStopTunnel (obs : TunnelObs) (error : Bool) : StopTunnelResult :=
  let stop : Nat := if error then 1 else 0
  if obs.wakeupWritten = false then
    ⟨[⟨VIR_ERR_SYSTEM_ERROR, "failed to wakeup migration tunnel"⟩], -1, stop, false⟩
  else
    match obs.workerErr stop with
    | some err => if error then ⟨[], 0, stop, true⟩ else ⟨[err], -1, stop, true⟩
    | none => ⟨[], 0, stop, true⟩

/-- What the end of `qemuMigrationRun` meets, from the start of the tunnel on. -/
structure RunFinishObs where
  /-- What `qemuMigrationStartTunnel` did. -/
  startTunnel : CallObs
  /-- The iterations of the wait loop. -/
  wait : List WaitObs
  /-- State returned by `virDomainObjGetState` after the wait (line 3240). -/
  stateAfterWait : virDomainState
  /-- What `qemuMigrationSetOffline` did. -/
  setOffline : CallObs
  /-- Result of `virDomainObjIsActive(vm)` under the label `cancel`. -/
  cancelIsActive : Bool
  /-- Whether the monitor can be entered under the label `cancel`. -/
  cancelEnterMonitor : Bool
  /-- Whether the monitor can be entered for the disk of index `i` in
  `qemuMigrationCancelDriveMirror`. -/
  mirrorEnterMonitor : Nat → Bool
  /-- What `qemuMigrationStopTunnel` meets. -/
  tunnel : TunnelObs

/-- Result of `qemuMigrationRun`: the errors reported in order, the error left
in the thread at the return, the return value, the commands sent to the
hypervisor, the byte written to the tunnel worker (when it was stopped) and
the cookie output of the caller. -/
structure RunResult where
  errors : List VirError
  lastError : Option VirError
  ret : Int
  cmds : List MonitorCmd
  tunnelStop : Option Nat
  out : Option CookieOut
  deriving DecidableEq, Repr

/-- Modelled from the spec: `virSaveLastError` of `virerror.c` is not part of the
file; it gives a copy of the error last reported in the thread (`last`, `none`
when nothing was reported), and the copy is not `NULL`. -/
def virSaveLastError (last : Option VirError) : Option (Option VirError) := some last

/-- Modelled from the spec: the error left in the thread after
`if (orig_err) virSetError(orig_err)`, where `last` is the error last reported
before: the saved error replaces it, so that the first error is the one
surfaced. -/
def virSetError (orig_err : Option (Option VirError)) (last : Option VirError) :
    Option VirError :=
  match orig_err with
  | some saved => saved
  | none => last

/-- The label `cleanup` of `qemuMigrationRun` (lines 3247-3276), entered with the
return value `ret`, the errors reported so far, the saved error `orig_err` and
the commands sent so far; `iothread` tells whether the tunnel worker runs. -/
def qemuMigrationRun_cleanup (env : Env) (obs : RunFinishObs) (vm : virDomainObj)
    (mig : qemuMigrationCookie) (out : Option CookieOut) (flags cookieFlags : Nat)
    (fwdDirect iothread : Bool) (ret : Int) (errors : List VirError)
    (orig_err : Option (Option VirError)) (cmds : List MonitorCmd) : RunResult :=
  let orig_err :=
    if ret < 0 ∧ orig_err = none then virSaveLastError errors.getLast? else orig_err
  let cmds := cmds ++ qemuMigrationCancelDriveMirror env obs.mirrorEnterMonitor vm
  let stopped : Option StopTunnelResult :=
    if !fwdDirect && iothread then some (qemuMigrationStopTunnel obs.tunnel (decide (ret < 0)))
    else none
  let ret : Int :=
    match stopped with
    | some s => if s.rv < 0 then -1 else ret
    | none => ret
  let errors := errors ++ (match stopped with | some s => s.errors | none => [])
  let cookieFlags := cookieFlags ||| QEMU_MIGRATION_COOKIE_NETWORK
  let cookieFlags :=
    if hasFlag flags VIR_MIGRATE_PERSIST_DEST then cookieFlags ||| QEMU_MIGRATION_COOKIE_PERSISTENT
    else cookieFlags
  let baked : Option BakeResult :=
    if ret = 0 then some (qemuMigrationBakeCookie env mig vm out cookieFlags) else none
  let errors := errors ++ (match baked with | some b => b.errors | none => [])
  ⟨errors, virSetError orig_err errors.getLast?, ret, cmds, stopped.map (fun s => s.stop),
    (match baked with | some b => b.out | none => out)⟩

open virDomainState in
/-- The end of `qemuMigrationRun` (lines 3223-3289), after the `migrate` command was
accepted: the start of the tunnel, the wait for completion, the pause of the
guest and the labels `cleanup` and `cancel`; `none` when the wait loop is still
polling after its last observation. The argument `dconn` tells whether a
destination connection was given, `fwdDirect` whether `spec->fwdType` is
`MIGRATION_FWD_DIRECT`. -/
def qemuMigrationRun_finish (env : Env) (obs : RunFinishObs) (vm : virDomainObj)
    (mig : qemuMigrationCookie) (out : Option CookieOut) (flags cookieFlags : Nat)
    (fwdDirect dconn : Bool) : Option RunResult :=
  let abort_on_error := hasFlag flags VIR_MIGRATE_ABORT_ON_ERROR
  if !fwdDirect && !obs.startTunnel.ok then
    some (qemuMigrationRun_cleanup env obs vm mig out flags cookieFlags fwdDirect false (-1)
      obs.startTunnel.errors (virSaveLastError obs.startTunnel.errors.getLast?)
      (if obs.cancelIsActive && obs.cancelEnterMonitor then [.migrateCancel] else []))
  else
    match qemuMigrationWaitForCompletion vm dconn abort_on_error obs.wait with
    | none => none
    | some w =>
      if w.ret < 0 then
        some (qemuMigrationRun_cleanup env obs w.vm mig out flags cookieFlags fwdDirect
          (!fwdDirect) (-1) w.errors none w.cmds)
      else if obs.stateAfterWait = VIR_DOMAIN_RUNNING ∧ obs.setOffline.ok = false then
        some (qemuMigrationRun_cleanup env obs w.vm mig out flags cookieFlags fwdDirect
          (!fwdDirect) (-1) (w.errors ++ obs.setOffline.errors) none w.cmds)
      else
        some (qemuMigrationRun_cleanup env obs w.vm mig out flags cookieFlags fwdDirect
          (!fwdDirect) 0
          (w.errors ++
            (if obs.stateAfterWait = VIR_DOMAIN_RUNNING then obs.setOffline.errors else []))
          none w.cmds)

/-! ## The migration URI: `qemuMigrationPrepareDirect` and `doNativeMigrate` -/

/-- The macro `STRPREFIX(a, b)` of `internal.h`: whether `a` begins with `b`. -/
def STRPREFIX (a b : String) : Bool := b.data.isPrefixOf a.data

/-- The macro `STRSKIP(a, b)` of `internal.h`: `a` after its beginning `b`, `NULL`
when `a` does not begin with `b`. -/
def STRSKIP (a b : String) : Option String :=
  if STRPREFIX a b then some (String.mk (a.data.drop (strlen b))) else none

/-- Result of `qemuMigrationPrepareDirect`: the errors reported, the return
value, the static counter `port` after the call, the URI given back to the
caller and the state of the destination. -/
structure PrepareDirectResult where
  errors : List VirError
  ret : Int
  port : Nat
  uri_out : Option String
  state : PrepareState
  deriving DecidableEq, Repr

/-- The generation of a port in `qemuMigrationPrepareDirect` (lines 2521-2522 and
2578-2580): the port handed out and the static counter afterwards. -/
def qemuMigrationPrepareDirect_port (env : Env) (port : Nat) : Nat × Nat :=
  (env.QEMUD_MIGRATION_FIRST_PORT + port,
    if port + 1 = env.QEMUD_MIGRATION_NUM_PORTS then 0 else port + 1)

/-- The text that `qemuMigrationPrepareDirect` hands to `virURIParse` (lines
2555-2561), where `p` is `uri_in` after `tcp:`. -/
def qemuMigrationPrepareDirect_uri (uri_in p : String) : String :=
  if !STRPREFIX uri_in "tcp://" then "tcp://" ++ p else uri_in

/-- The call of `qemuMigrationPrepareAny` and the label `cleanup` of
`qemuMigrationPrepareDirect` (lines 2594-2602). -/
def qemuMigrationPrepareDirect_any (env : Env) (state : PrepareState) (defn : virDomainDef)
    (flags : Nat) (rest : Nat → PrepareState → virDomainDef → PrepareResult)
    (port this_port : Nat) (uri_out : Option String) : PrepareDirectResult :=
  let r := qemuMigrationPrepareAny env state defn false flags (rest this_port)
  ⟨r.errors, r.ret, port, if r.ret != 0 then none else uri_out, r.state⟩

open VirErrorCode in
/-- The Prepare entry of a direct migration: `qemuMigrationPrepareDirect` (lines
2480-2603). The argument `port` is the static counter; `rest` is what
`qemuMigrationPrepareAny` does after its policy gate, given the port. -/
def qemuMigrationPrepareDirect (env : Env) (port : Nat) (state : PrepareState)
    (defn : virDomainDef) (uri_in : Option String) (flags : Nat)
    (rest : Nat → PrepareState → virDomainDef → PrepareResult) : PrepareDirectResult :=
  match uri_in with
  | none =>
    let generated := qemuMigrationPrepareDirect_port env port
    match env.hostname with
    | none => ⟨[], -1, generated.2, none, state⟩
    | some hostname =>
      if STRPREFIX hostname "localhost" then
        ⟨[⟨VIR_ERR_INTERNAL_ERROR,
            "hostname on destination resolved to localhost, but migration requires an FQDN"⟩],
          -1, generated.2, none, state⟩
      else
        qemuMigrationPrepareDirect_any env state defn flags rest generated.2 generated.1
          (some ("tcp:" ++ hostname ++ ":" ++ toString generated.1))
  | some uri_in =>
    match STRSKIP uri_in "tcp:" with
    | none =>
      ⟨[⟨VIR_ERR_INVALID_ARG, "only tcp URIs are supported for KVM/QEMU migrations"⟩],
        -1, port, none, state⟩
    | some p =>
      let parsed := env.virURIParse (qemuMigrationPrepareDirect_uri uri_in p)
      match parsed.value with
      | none =>
        ⟨parsed.errors ++ [⟨VIR_ERR_INVALID_ARG, "unable to parse URI: " ++ uri_in⟩],
          -1, port, none, state⟩
      | some uri =>
        if uri.server = none then
          ⟨parsed.errors ++ [⟨VIR_ERR_INVALID_ARG, "missing host in migration URI: " ++ uri_in⟩],
            -1, port, none, state⟩
        else if uri.port = 0 then
          let generated := qemuMigrationPrepareDirect_port env port
          qemuMigrationPrepareDirect_any env state defn flags rest generated.2 generated.1
            (some (uri_in ++ ":" ++ toString generated.1))
        else
          qemuMigrationPrepareDirect_any env state defn flags rest port uri.port none

/-- Destination kinds, `enum qemuMigrationDestinationType` (lines 2782-2787). -/
inductive qemuMigrationDestinationType
  | MIGRATION_DEST_HOST
  | MIGRATION_DEST_CONNECT_HOST
  | MIGRATION_DEST_UNIX
  | MIGRATION_DEST_FD
  deriving DecidableEq, Repr

/-- Forwarding kinds, `enum qemuMigrationForwardType` (lines 2789-2792). -/
inductive qemuMigrationForwardType
  | MIGRATION_FWD_DIRECT
  | MIGRATION_FWD_STREAM
  deriving DecidableEq, Repr

/-- The fields of `qemuMigrationSpec` that `doNativeMigrate` fills (lines
2794-2821). -/
structure qemuMigrationSpec where
  destType : qemuMigrationDestinationType
  /-- Field `dest.host.name`. -/
  hostName : Option String
  /-- Field `dest.host.port`. -/
  hostPort : Nat
  fwdType : qemuMigrationForwardType
  deriving DecidableEq, Repr

/-- Result of a migration step on the source: the errors reported in order, the
error left in the thread at the return, the return value, the domain
afterwards and the commands sent to the hypervisor. -/
structure MigrateStep where
  errors : List VirError
  lastError : Option VirError
  ret : Int
  vm : virDomainObj
  cmds : List MonitorCmd
  deriving DecidableEq, Repr

/-- The text that `doNativeMigrate` hands to `virURIParse` (lines 3318-3327). -/
def doNativeMigrate_uri (uri : String) : String :=
  if STRPREFIX uri "tcp:" && !STRPREFIX uri "tcp://" then
    "tcp://" ++ String.mk (uri.data.drop (strlen "tcp:"))
  else uri

open qemuMigrationDestinationType qemuMigrationForwardType in
/-- The native migration: `doNativeMigrate` (lines 3294-3349). The argument `run` is
`qemuMigrationRun` on the domain with the destination filled in. -/
def doNativeMigrate (env : Env) (vm : virDomainObj) (uri : String)
    (run : virDomainObj → qemuMigrationSpec → MigrateStep) : MigrateStep :=
  let parsed := env.virURIParse (doNativeMigrate_uri uri)
  match parsed.value with
  | none => ⟨parsed.errors, parsed.errors.getLast?, -1, vm, []⟩
  | some uribits =>
    let step := run vm
      { destType :=
          if vm.privateData.capsMigrateQemuFd then MIGRATION_DEST_CONNECT_HOST
          else MIGRATION_DEST_HOST,
        hostName := uribits.server,
        hostPort := uribits.port,
        fwdType := MIGRATION_FWD_DIRECT }
    { step with errors := parsed.errors ++ step.errors }

/-! ## The Perform step on the source -/

/-- Reasons of the running state, `virDomainRunningReason` of the public header. -/
inductive virDomainRunningReason
  | VIR_DOMAIN_RUNNING_UNKNOWN
  | VIR_DOMAIN_RUNNING_BOOTED
  | VIR_DOMAIN_RUNNING_MIGRATED
  | VIR_DOMAIN_RUNNING_RESTORED
  | VIR_DOMAIN_RUNNING_FROM_SNAPSHOT
  | VIR_DOMAIN_RUNNING_UNPAUSED
  | VIR_DOMAIN_RUNNING_MIGRATION_CANCELED
  | VIR_DOMAIN_RUNNING_SAVE_CANCELED
  | VIR_DOMAIN_RUNNING_WAKEUP
  | VIR_DOMAIN_RUNNING_CRASHED
  deriving DecidableEq, Repr

/-- Reasons of the shut off state, `virDomainShutoffReason` of the public header. -/
inductive virDomainShutoffReason
  | VIR_DOMAIN_SHUTOFF_UNKNOWN
  | VIR_DOMAIN_SHUTOFF_SHUTDOWN
  | VIR_DOMAIN_SHUTOFF_DESTROYED
  | VIR_DOMAIN_SHUTOFF_CRASHED
  | VIR_DOMAIN_SHUTOFF_MIGRATED
  | VIR_DOMAIN_SHUTOFF_SAVED
  | VIR_DOMAIN_SHUTOFF_FAILED
  | VIR_DOMAIN_SHUTOFF_FROM_SNAPSHOT
  deriving DecidableEq, Repr

/-- The events that the migration code makes, named by their detail (the type
of the event is the first part of the name). -/
inductive virDomainEventDetail
  | VIR_DOMAIN_EVENT_DEFINED_ADDED
  | VIR_DOMAIN_EVENT_DEFINED_UPDATED
  | VIR_DOMAIN_EVENT_SUSPENDED_PAUSED
  | VIR_DOMAIN_EVENT_SUSPENDED_MIGRATED
  | VIR_DOMAIN_EVENT_RESUMED_MIGRATED
  | VIR_DOMAIN_EVENT_STOPPED_MIGRATED
  | VIR_DOMAIN_EVENT_STOPPED_FAILED
  deriving DecidableEq, Repr

/-- What the migration code does to the guest process and to its job through
other modules, in the order of the calls. -/
inductive GuestAction
  /-- Call `qemuProcessStartCPUs(driver, vm, conn, reason, asyncJob)`. -/
  | startCPUs (reason : virDomainRunningReason) (asyncJob : qemuDomainAsyncJob)
  /-- Call `qemuProcessStop(driver, vm, reason, flags)`. -/
  | processStop (reason : virDomainShutoffReason)
  /-- Call `qemuMigrationJobFinish(driver, vm)`. -/
  | jobFinish
  /-- Call `qemuMigrationJobContinue(vm)`. -/
  | jobContinue
  /-- Call `virCloseCallbacksUnset(driver->closeCallbacks, vm, qemuMigrationCleanup)`. -/
  | closeCallbacksUnset
  /-- Call `qemuDomainObjDiscardAsyncJob(driver, vm)`. -/
  | discardAsyncJob
  /-- An event made with `virDomainEventNewFromObj`, listed where it is made; it is
  queued before the function returns. -/
  | event (detail : virDomainEventDetail)
  /-- Call `virDomainSaveStatus(driver->xmlopt, cfg->stateDir, vm)`. -/
  | saveStatus
  /-- Call `qemuMigrationCancelDriveMirror(mig, driver, vm)`. -/
  | cancelDriveMirror
  deriving DecidableEq, Repr

/-- What a Perform call meets outside the file. -/
structure PerformObs where
  /-- What `qemuDomainObjBeginAsyncJob` did. -/
  beginAsyncJob : CallObs
  /-- Result of `virDomainObjIsActive(vm)` at the start of the job. -/
  isActive : Bool
  /-- What `qemuProcessStartCPUs` did. -/
  startCPUs : CallObs
  /-- What `virCloseCallbacksSet` did. -/
  closeCallbacksSet : CallObs

/-- Result of a Perform call: the errors reported in order, the error left in
the thread at the return, the return value, the domain afterwards, the
commands sent to the hypervisor and the calls made on the guest. -/
structure PerformResult where
  errors : List VirError
  lastError : Option VirError
  ret : Int
  vm : virDomainObj
  cmds : List MonitorCmd
  actions : List GuestAction
  deriving DecidableEq, Repr

/-- The error last reported in the thread once the errors `errors` were
reported after `last`. -/
def lastErrorAfter (last : Option VirError) (errors : List VirError) : Option VirError :=
  match errors.getLast? with
  | some err => some err
  | none => last

open virDomainJobType in
/-- Job start: `qemuMigrationJobStart` (lines 4673-4695), once
`qemuDomainObjBeginAsyncJob` has succeeded. Modelled from the spec:
`qemuDomainObjBeginAsyncJob` of `qemu_domain.c` is not part of the file; the job
is created when a migration API first acquires the domain, so it stores the
kind of the job. The job mask is not part of the model. -/
def qemuMigrationJobStart (vm : virDomainObj) (job : qemuDomainAsyncJob) : virDomainObj :=
  setJobType
    { vm with privateData :=
        { vm.privateData with job := { vm.privateData.job with asyncJob := job } } }
    VIR_DOMAIN_JOB_UNBOUNDED

open VirErrorCode qemuDomainAsyncJob in
/-- The check `qemuMigrationJobIsActive` (lines 4730-4748). -/
def qemuMigrationJobIsActive (vm : virDomainObj) (job : qemuDomainAsyncJob) : Verdict :=
  if vm.privateData.job.asyncJob ≠ job then
    ⟨[⟨VIR_ERR_OPERATION_INVALID,
        if job = QEMU_ASYNC_JOB_MIGRATION_IN then
          "domain '" ++ vm.defn.name ++ "' is not processing incoming migration"
        else "domain '" ++ vm.defn.name ++ "' is not being migrated"⟩], false⟩
  else ⟨[], true⟩

open virDomainState virDomainRunningReason qemuDomainAsyncJob in
/-- The restart of the CPUs after a failed step, as both Perform functions code
it (lines 4059-4068 and 4141-4150). Modelled from the spec: `qemuProcessStartCPUs`
of `qemu_process.c` is not part of the file; when it succeeds the guest is
running again. -/
def resumeAfterFailure (obs : PerformObs) (r : PerformResult) : PerformResult :=
  { r with
    errors := r.errors ++ obs.startCPUs.errors,
    lastError := lastErrorAfter r.lastError obs.startCPUs.errors,
    vm := if obs.startCPUs.ok then { r.vm with state := VIR_DOMAIN_RUNNING } else r.vm,
    actions := r.actions ++
      [GuestAction.startCPUs VIR_DOMAIN_RUNNING_MIGRATION_CANCELED QEMU_ASYNC_JOB_MIGRATION_OUT] }

open virDomainState in
/-- The label `endjob` of `qemuMigrationPerformJob` (lines 4053-4089), entered with
the result so far and the value of `resume`. -/
def qemuMigrationPerformJob_endjob (obs : PerformObs) (resume : Bool) (r : PerformResult) :
    PerformResult :=
  let orig_err : Option (Option VirError) :=
    if r.ret < 0 then virSaveLastError r.lastError else none
  let r :=
    if resume ∧ r.vm.state = VIR_DOMAIN_PAUSED then resumeAfterFailure obs r else r
  let r := { r with actions := r.actions ++ [GuestAction.jobFinish] }
  { r with lastError := virSetError orig_err r.lastError }

open VirErrorCode virDomainState virDomainShutoffReason qemuDomainAsyncJob
  qemuMigrationJobPhase in
/-- The Perform step that owns its job: `qemuMigrationPerformJob` (lines
3985-4098). The argument `p2p` is `doPeer2PeerMigrate`, which also gives the
protocol it has used (`v3proto`); `run` is `qemuMigrationRun`. The calls of
`qemuProcessStop` and `qemuMigrationJobFinish` are recorded; what they do to the
domain is not part of the model. -/
def qemuMigrationPerformJob (env : Env) (obs : PerformObs) (vm : virDomainObj)
    (uri : String) (flags : Nat) (v3proto : Bool)
    (p2p : virDomainObj → MigrateStep × Bool)
    (run : virDomainObj → qemuMigrationSpec → MigrateStep) : PerformResult :=
  let abort_on_error := hasFlag flags VIR_MIGRATE_ABORT_ON_ERROR
  if obs.beginAsyncJob.ok = false then
    ⟨obs.beginAsyncJob.errors, obs.beginAsyncJob.errors.getLast?, -1, vm, [], []⟩
  else
    let vm := qemuMigrationJobStart vm QEMU_ASYNC_JOB_MIGRATION_OUT
    let errors := obs.beginAsyncJob.errors
    let failed (reported : List VirError) : PerformResult :=
      qemuMigrationPerformJob_endjob obs false
        ⟨errors ++ reported, lastErrorAfter errors.getLast? reported, -1, vm, [], []⟩
    if !obs.isActive && !hasFlag flags VIR_MIGRATE_OFFLINE then
      failed [⟨VIR_ERR_OPERATION_INVALID, "domain is not running"⟩]
    else
      let allowed := qemuMigrationIsAllowed (some vm) vm.defn true abort_on_error
      if !allowed.result then failed allowed.errors
      else
        let safe :=
          if !hasFlag flags VIR_MIGRATE_UNSAFE then qemuMigrationIsSafe env vm.defn
          else ⟨[], true⟩
        if !safe.result then failed (allowed.errors ++ safe.errors)
        else
          let errors := errors ++ allowed.errors ++ safe.errors
          let resume := decide (vm.state = VIR_DOMAIN_RUNNING)
          let migrated : MigrateStep × Bool :=
            if hasFlag flags (VIR_MIGRATE_TUNNELLED ||| VIR_MIGRATE_PEER2PEER) then p2p vm
            else
              (doNativeMigrate env (qemuMigrationJobSetPhase vm QEMU_MIGRATION_PHASE_PERFORM2)
                uri run, v3proto)
          let step := migrated.1
          let r : PerformResult :=
            ⟨errors ++ step.errors, step.lastError, step.ret, step.vm, step.cmds, []⟩
          if step.ret < 0 then qemuMigrationPerformJob_endjob obs resume r
          else
            let r :=
              if !migrated.2 then
                { r with actions := [GuestAction.processStop VIR_DOMAIN_SHUTOFF_MIGRATED] }
              else r
            qemuMigrationPerformJob_endjob obs false r

open virDomainState qemuDomainAsyncJob qemuMigrationJobPhase in
/-- The Perform step of the version 3 protocol: `qemuMigrationPerformPhase` (lines
4103-4184); `run` is `qemuMigrationRun`. -/
def qemuMigrationPerformPhase (env : Env) (obs : PerformObs) (vm : virDomainObj)
    (uri : String) (flags : Nat)
    (run : virDomainObj → qemuMigrationSpec → MigrateStep) : PerformResult :=
  let started : Verdict × virDomainObj :=
    if !hasFlag flags VIR_MIGRATE_CHANGE_PROTECTION then
      if obs.beginAsyncJob.ok = false then (⟨obs.beginAsyncJob.errors, false⟩, vm)
      else
        (⟨obs.beginAsyncJob.errors, true⟩, qemuMigrationJobStart vm QEMU_ASYNC_JOB_MIGRATION_OUT)
    else (qemuMigrationJobIsActive vm QEMU_ASYNC_JOB_MIGRATION_OUT, vm)
  if !started.1.result then
    ⟨started.1.errors, started.1.errors.getLast?, -1, vm, [], []⟩
  else
    let vm := qemuMigrationJobStartPhase started.2 QEMU_MIGRATION_PHASE_PERFORM3
    let resume := decide (vm.state = VIR_DOMAIN_RUNNING)
    let step := doNativeMigrate env vm uri run
    let r : PerformResult :=
      ⟨started.1.errors ++ step.errors, step.lastError, step.ret, step.vm, step.cmds, []⟩
    let r :=
      if step.ret < 0 ∧ resume = true ∧ r.vm.state = VIR_DOMAIN_PAUSED then
        resumeAfterFailure obs r
      else r
    if step.ret < 0 then { r with actions := r.actions ++ [GuestAction.jobFinish] }
    else
      let r :=
        { r with vm := qemuMigrationJobSetPhase r.vm QEMU_MIGRATION_PHASE_PERFORM3_DONE }
      { r with
        errors := r.errors ++ obs.closeCallbacksSet.errors,
        lastError := lastErrorAfter r.lastError obs.closeCallbacksSet.errors,
        actions := r.actions ++ [GuestAction.jobContinue] }

/-! ## The Confirm step and the cleanup after a closed connection -/

open VirErrorCode in
/-- Modelled from the spec: the macro `virCheckFlags(supported, retval)` of
`internal.h` is not part of the file; it refuses a flag word with a bit outside
`supported` with an invalid argument error and makes the function return. -/
def virCheckFlags (flags supported : Nat) (function : String) : Option VirError :=
  if flags &&& supported = flags then none
  else some ⟨VIR_ERR_INVALID_ARG, "unsupported flags in function " ++ function⟩

/-- What one iteration of the poll loop of `qemuMigrationWaitForSpice` meets. -/
structure SpicePollObs where
  /-- What `qemuMonitorGetSpiceMigrationStatus` did: the errors it reported and
  whether it is not negative. -/
  query : CallObs
  /-- The value that the query stored in `spice_migrated`. -/
  spice_migrated : Bool
  deriving DecidableEq, Repr

/-- Result of `qemuMigrationWaitForSpice`: the errors reported, the return value
and the commands sent to the hypervisor, in order. -/
structure SpiceWait where
  errors : List VirError
  ret : Int
  cmds : List MonitorCmd
  deriving DecidableEq, Repr

/-- The poll loop of `qemuMigrationWaitForSpice` (lines 1594-1608), run on the
observations of its iterations; `none` when the loop is still polling after
the last observation. An iteration enters the monitor, asks for the state of
the SPICE migration and leaves the monitor; when the query fails the function
returns -1; otherwise the thread gives up the lock of the domain, sleeps 50
milliseconds and takes the lock again, and the loop goes on while
`spice_migrated` is false. The loop reads nothing of the domain but its
monitor. -/
def qemuMigrationWaitForSpice_loop : List SpicePollObs → Option SpiceWait
  | [] => none
  | poll :: rest =>
    if poll.query.ok = false then some ⟨poll.query.errors, -1, [.getSpiceMigrationStatus]⟩
    else if poll.spice_migrated then some ⟨poll.query.errors, 0, [.getSpiceMigrationStatus]⟩
    else
      (qemuMigrationWaitForSpice_loop rest).map fun r =>
        { r with
          errors := poll.query.errors ++ r.errors,
          cmds := .getSpiceMigrationStatus :: r.cmds }

open virDomainGraphicsType in
/-- Waiting for the SPICE server: `qemuMigrationWaitForSpice` (lines 1573-1611);
`none` when it has not returned after the last observation. -/
def qemuMigrationWaitForSpice (vm : virDomainObj) (polls : List SpicePollObs) :
    Option SpiceWait :=
  let wait_for_spice :=
    vm.privateData.capsSeamlessMigration &&
      vm.defn.graphics.any (fun graphics => decide (graphics.type = VIR_DOMAIN_GRAPHICS_TYPE_SPICE))
  if !wait_for_spice then some ⟨[], 0, []⟩
  else qemuMigrationWaitForSpice_loop polls

/-- What the Confirm step meets outside the file. -/
structure ConfirmObs where
  /-- Whether the monitor can be entered for the disk of index `i` in
  `qemuMigrationCancelDriveMirror`. -/
  mirrorEnterMonitor : Nat → Bool
  /-- What `qemuProcessStartCPUs` did. -/
  startCPUs : CallObs
  /-- Whether `virDomainSaveStatus` is not negative. -/
  saveStatus : Bool
  /-- What the iterations of the poll loop of `qemuMigrationWaitForSpice` meet,
  in order. -/
  spicePolls : List SpicePollObs

open VirErrorCode virDomainState virDomainRunningReason virDomainShutoffReason
  virDomainEventDetail qemuDomainAsyncJob qemuMigrationJobPhase in
/-- The Confirm step on the source: `qemuMigrationConfirmPhase` (lines 2648-2731);
`none` when it has not returned after the last observation of the wait for the
SPICE server. The return value of `qemuMigrationWaitForSpice` is not read. The
calls of `qemuProcessStop`, `qemuProcessStartCPUs` and `virDomainSaveStatus` and
the events are recorded; what `qemuProcessStop` does to the domain, what other
threads do to it while the wait for the SPICE server sleeps without the lock,
and the audit record are not part of the model. -/
def qemuMigrationConfirmPhase (env : Env) (obs : ConfirmObs) (vm : virDomainObj)
    (cookiein : Option (List Char)) (flags : Nat) (retcode : Int) : Option PerformResult :=
  match virCheckFlags flags env.QEMU_MIGRATION_FLAGS "qemuMigrationConfirmPhase" with
  | some err => some ⟨[err], some err, -1, vm, [], []⟩
  | none =>
    let vm := qemuMigrationJobSetPhase vm
      (if retcode = 0 then QEMU_MIGRATION_PHASE_CONFIRM3
       else QEMU_MIGRATION_PHASE_CONFIRM3_CANCELLED)
    let eaten := qemuMigrationEatCookie env vm cookiein 0
    match eaten.value with
    | none => some ⟨eaten.errors, eaten.errors.getLast?, -1, vm, [], []⟩
    | some _ =>
      if hasFlag flags VIR_MIGRATE_OFFLINE then
        some ⟨eaten.errors, eaten.errors.getLast?, 0, vm, [], []⟩
      else if retcode = 0 then
        (qemuMigrationWaitForSpice vm obs.spicePolls).map fun spice =>
          let errors := eaten.errors ++ spice.errors
          ⟨errors, errors.getLast?, 0, vm, spice.cmds,
            [GuestAction.processStop VIR_DOMAIN_SHUTOFF_MIGRATED,
             GuestAction.event VIR_DOMAIN_EVENT_STOPPED_MIGRATED]⟩
      else
        let cmds := qemuMigrationCancelDriveMirror env obs.mirrorEnterMonitor vm
        let resume :=
          GuestAction.startCPUs VIR_DOMAIN_RUNNING_MIGRATED QEMU_ASYNC_JOB_MIGRATION_OUT
        if obs.startCPUs.ok = false then
          let errors := eaten.errors ++ obs.startCPUs.errors
          let errors :=
            if errors.getLast? = none then
              errors ++ [⟨VIR_ERR_INTERNAL_ERROR, "resume operation failed"⟩]
            else errors
          some ⟨errors, errors.getLast?, -1, vm, cmds, [GuestAction.cancelDriveMirror, resume]⟩
        else
          let errors := eaten.errors ++ obs.startCPUs.errors
          let vm := { vm with state := VIR_DOMAIN_RUNNING }
          some ⟨errors, errors.getLast?, if obs.saveStatus then 0 else -1, vm, cmds,
            [GuestAction.cancelDriveMirror, resume,
             GuestAction.event VIR_DOMAIN_EVENT_RESUMED_MIGRATED, GuestAction.saveStatus]⟩

open qemuDomainAsyncJob qemuMigrationJobPhase in
/-- The Confirm entry point: `qemuMigrationConfirm` (lines 2733-2779); `none` when
`qemuMigrationConfirmPhase` has not returned. What happens to the domain object
once the job is finished (lines 2762-2770) is not part of the model. -/
def qemuMigrationConfirm (env : Env) (obs : ConfirmObs) (vm : virDomainObj)
    (cookiein : Option (List Char)) (flags : Nat) (cancelled : Int) : Option PerformResult :=
  let active := qemuMigrationJobIsActive vm QEMU_ASYNC_JOB_MIGRATION_OUT
  if !active.result then some ⟨active.errors, active.errors.getLast?, -1, vm, [], []⟩
  else
    let phase :=
      if cancelled ≠ 0 then QEMU_MIGRATION_PHASE_CONFIRM3_CANCELLED
      else QEMU_MIGRATION_PHASE_CONFIRM3
    let vm := qemuMigrationJobStartPhase vm phase
    (qemuMigrationConfirmPhase env obs vm cookiein flags cancelled).map fun r =>
      { r with
        actions := GuestAction.closeCallbacksUnset :: r.actions ++ [GuestAction.jobFinish] }

/-- Result of `qemuMigrationCleanup`: the errors reported, the domain it returns
and the calls made on its job. -/
structure CleanupResult where
  errors : List VirError
  vm : virDomainObj
  actions : List GuestAction
  deriving DecidableEq, Repr

open qemuDomainAsyncJob qemuMigrationJobPhase in
/-- Modelled from the spec: `qemuDomainObjDiscardAsyncJob` of `qemu_domain.c` is not
part of the file; it discards the job, so that the domain has no asynchronous
job and no phase any more. -/
def qemuDomainObjDiscardAsyncJob (vm : virDomainObj) : virDomainObj :=
  { vm with privateData :=
      { vm.privateData with
        job := { vm.privateData.job with
                 asyncJob := QEMU_ASYNC_JOB_NONE, phase := QEMU_MIGRATION_PHASE_NONE } } }

open qemuDomainAsyncJob qemuMigrationJobPhase in
/-- The callback run when the connection that started an outgoing migration is
closed: `qemuMigrationCleanup` (lines 1896-1950). -/
def qemuMigrationCleanup (vm : virDomainObj) : CleanupResult :=
  let active := qemuMigrationJobIsActive vm QEMU_ASYNC_JOB_MIGRATION_OUT
  if !active.result then ⟨active.errors, vm, []⟩
  else
    match vm.privateData.job.phase with
    | QEMU_MIGRATION_PHASE_BEGIN3 =>
      ⟨[], qemuDomainObjDiscardAsyncJob vm, [GuestAction.discardAsyncJob]⟩
    | QEMU_MIGRATION_PHASE_PERFORM3_DONE =>
      ⟨[], qemuDomainObjDiscardAsyncJob vm, [GuestAction.discardAsyncJob]⟩
    | QEMU_MIGRATION_PHASE_PERFORM3 => ⟨[], vm, []⟩
    | QEMU_MIGRATION_PHASE_CONFIRM3 => ⟨[], vm, []⟩
    | QEMU_MIGRATION_PHASE_CONFIRM3_CANCELLED => ⟨[], vm, []⟩
    | QEMU_MIGRATION_PHASE_PREPARE => ⟨[], vm, []⟩
    | QEMU_MIGRATION_PHASE_FINISH2 => ⟨[], vm, []⟩
    | QEMU_MIGRATION_PHASE_FINISH3 => ⟨[], vm, []⟩
    | QEMU_MIGRATION_PHASE_PERFORM2 => ⟨[], vm, []⟩
    | QEMU_MIGRATION_PHASE_NONE => ⟨[], vm, []⟩
    | QEMU_MIGRATION_PHASE_LAST => ⟨[], vm, []⟩

/-! ## The Finish step on the destination -/

/-- The calls made on the port profile of the interface of index `i` (the
routines name the interface by `net->ifname`). -/
inductive VPortCall
  /-- Call `virNetDevVPortProfileAssociate` with the operation `MIGRATE_IN_FINISH`. -/
  | associate (i : Nat)
  /-- Call `virNetDevMacVLanVPortProfileRegisterCallback`. -/
  | registerCallback (i : Nat)
  /-- Call `virNetDevVPortProfileDisassociate` with the operation `MIGRATE_IN_FINISH`. -/
  | disassociate (i : Nat)
  deriving DecidableEq, Repr

/-- What `qemuMigrationVPAssociatePortProfiles` meets, for the interface of index
`i`: whether `virNetDevVPortProfileAssociate` is not negative and whether
`virNetDevMacVLanVPortProfileRegisterCallback` is zero. -/
structure VPortObs where
  associate : Nat → Bool
  registerCallback : Nat → Bool

/-- State of the loop of `qemuMigrationVPAssociatePortProfiles` when it is left:
whether it left through `err_exit`, the local `last_good_net`, the errors
reported and the calls made. -/
structure VPortLoop where
  failed : Bool
  last_good_net : Int
  errors : List VirError
  calls : List VPortCall
  deriving DecidableEq, Repr

open VirErrorCode virDomainNetType in
/-- The loop over the interfaces of `qemuMigrationVPAssociatePortProfiles` (lines
4252-4275), from the interface of index `i` on, with the local `last_good_net`. -/
def qemuMigrationVPAssociatePortProfiles_loop (obs : VPortObs) :
    Nat → Int → List virDomainNetDef → VPortLoop
  | _, last_good_net, [] => ⟨false, last_good_net, [], []⟩
  | i, last_good_net, net :: rest =>
    if net.actualType = VIR_DOMAIN_NET_TYPE_DIRECT then
      if obs.associate i = false then
        ⟨true, last_good_net,
          [⟨VIR_ERR_OPERATION_FAILED, "Port profile Associate failed for " ++ net.ifname⟩],
          [.associate i]⟩
      else if obs.registerCallback i = false then
        ⟨true, last_good_net, [], [.associate i, .registerCallback i]⟩
      else
        let r := qemuMigrationVPAssociatePortProfiles_loop obs (i + 1) i rest
        { r with calls := .associate i :: .registerCallback i :: r.calls }
    else qemuMigrationVPAssociatePortProfiles_loop obs (i + 1) i rest

open virDomainNetType in
/-- The loop under the label `err_exit` of `qemuMigrationVPAssociatePortProfiles`
(lines 4279-4290): `for (i = 0; last_good_net != -1 && i < last_good_net; i++)`. -/
def qemuMigrationVPAssociatePortProfiles_rollback (nets : List virDomainNetDef)
    (last_good_net : Int) : List VPortCall :=
  if last_good_net = -1 then []
  else
    ((nets.enum.take last_good_net.toNat).filter
        (fun p => p.2.actualType = VIR_DOMAIN_NET_TYPE_DIRECT)).map
      fun p => VPortCall.disassociate p.1

/-- Result of `qemuMigrationVPAssociatePortProfiles`. -/
structure VPortResult where
  errors : List VirError
  ret : Int
  calls : List VPortCall
  deriving DecidableEq, Repr

/-- Association of the port profiles: `qemuMigrationVPAssociatePortProfiles` (lines
4246-4294). -/
def qemuMigrationVPAssociatePortProfiles (obs : VPortObs) (defn : virDomainDef) :
    VPortResult :=
  let r := qemuMigrationVPAssociatePortProfiles_loop obs 0 (-1) defn.nets
  if r.failed then
    ⟨r.errors, -1,
      r.calls ++ qemuMigrationVPAssociatePortProfiles_rollback defn.nets r.last_good_net⟩
  else ⟨r.errors, 0, r.calls⟩

/-- Result of `qemuDomainMigrateOPDRelocate`: the errors reported, the return
value and the calls of `virNetDevOpenvswitchSetMigrateData`, each with the port
data and the name of the interface it is applied to. -/
structure OPDRelocateResult where
  errors : List VirError
  ret : Int
  calls : List (Option String × String)
  deriving DecidableEq, Repr

open VirErrorCode virNetDevVPortProfile in
/-- The loop of `qemuDomainMigrateOPDRelocate` (lines 1862-1883): the record of
index `i` of the cookie is applied to the interface of index `i` of the
definition. The argument `setMigrateData` tells whether
`virNetDevOpenvswitchSetMigrateData(portdata, ifname)` is zero. A record of the
cookie beyond the interfaces of the definition makes the C code read outside
`vm->def->nets`; the model stops there with a failure. -/
def qemuDomainMigrateOPDRelocate_loop (setMigrateData : Option String → String → Bool) :
    List qemuMigrationCookieNetData → List virDomainNetDef → OPDRelocateResult
  | [], _ => ⟨[], 0, []⟩
  | _ :: _, [] => ⟨[], -1, []⟩
  | data :: cookieRest, netptr :: netRest =>
    if data.vporttype = VIR_NETDEV_VPORT_PROFILE_OPENVSWITCH then
      if setMigrateData data.portdata netptr.ifname = false then
        ⟨[⟨VIR_ERR_INTERNAL_ERROR,
            "Unable to run command to set OVS port data for interface " ++ netptr.ifname⟩],
          -1, [(data.portdata, netptr.ifname)]⟩
      else
        let r := qemuDomainMigrateOPDRelocate_loop setMigrateData cookieRest netRest
        { r with calls := (data.portdata, netptr.ifname) :: r.calls }
    else qemuDomainMigrateOPDRelocate_loop setMigrateData cookieRest netRest

/-- Relocation of the port data: `qemuDomainMigrateOPDRelocate` (lines 1853-1887),
called with a cookie that has network data. -/
def qemuDomainMigrateOPDRelocate (setMigrateData : Option String → String → Bool)
    (vm : virDomainObj) (network : qemuMigrationCookieNetwork) : OPDRelocateResult :=
  qemuDomainMigrateOPDRelocate_loop setMigrateData network.net vm.defn.nets

/-- Result of `qemuMigrationStopNBDServer`: the domain as it is left, the
commands sent and the ports given to `virPortAllocatorRelease`. -/
structure StopNBDResult where
  vm : virDomainObj
  cmds : List MonitorCmd
  released : List Nat
  deriving DecidableEq, Repr

/-- Stop of the NBD server: `qemuMigrationStopNBDServer` (lines 1326-1349); a
command that fails is only logged. -/
def qemuMigrationStopNBDServer (enterMonitor : Bool) (vm : virDomainObj)
    (mig : qemuMigrationCookie) : StopNBDResult :=
  match mig.nbd with
  | none => ⟨vm, [], []⟩
  | some _ =>
    if enterMonitor = false then ⟨vm, [], []⟩
    else
      ⟨{ vm with privateData := { vm.privateData with nbdPort := 0 } },
        [MonitorCmd.nbdServerStop], [vm.privateData.nbdPort]⟩

/-- What the Finish step meets outside the file. -/
structure FinishObs where
  /-- Result of `virDomainObjIsActive(vm)` when the cookie has been eaten. -/
  isActive : Bool
  /-- What `qemuMigrationVPAssociatePortProfiles` meets. -/
  vport : VPortObs
  /-- Whether `virNetDevOpenvswitchSetMigrateData(portdata, ifname)` is zero. -/
  setMigrateData : Option String → String → Bool
  /-- Whether the monitor can be entered in `qemuMigrationStopNBDServer`. -/
  nbdEnterMonitor : Bool
  /-- The field `vm->persistent` at entry. -/
  persistent : Bool
  /-- Result of `virDomainObjGetPersistentDef`. -/
  persistentDef : Option virDomainDef
  /-- Whether `virDomainSaveConfig` is not negative. -/
  saveConfig : Bool
  /-- What `qemuProcessStartCPUs` did. -/
  startCPUs : CallObs
  /-- Result of `virDomainObjIsActive(vm)` before the status is saved. -/
  isActiveAtEnd : Bool
  /-- Whether `virDomainSaveStatus` is not negative. -/
  saveStatus : Bool

/-- Result of `qemuMigrationFinish`: the errors reported in order, the error left
in the thread at the return, whether a domain is returned, the domain object
as it is left, the commands sent to the hypervisor, the calls made on the
guest, the calls made on the port profiles, the port data applied to the
interfaces, the ports given back to the allocator and the cookie output. -/
structure FinishResult where
  errors : List VirError
  lastError : Option VirError
  dom : Bool
  vm : virDomainObj
  cmds : List MonitorCmd
  actions : List GuestAction
  vportCalls : List VPortCall
  relocated : List (Option String × String)
  released : List Nat
  out : Option CookieOut
  deriving DecidableEq, Repr

/-- The label `endjob` of `qemuMigrationFinish` followed by `cleanup` (lines
4498-4519): the job is finished and a saved error is set again. -/
def qemuMigrationFinish_endjob (orig_err : Option (Option VirError)) (r : FinishResult) :
    FinishResult :=
  { r with
    actions := r.actions ++ [GuestAction.jobFinish],
    lastError := virSetError orig_err r.errors.getLast? }

open VirErrorCode virDomainState virDomainRunningReason virDomainShutoffReason
  virDomainEventDetail qemuDomainAsyncJob in
/-- The end of the success branch of `qemuMigrationFinish` (lines 4413-4480), from
the start of the CPUs on, entered with the result so far. -/
def qemuMigrationFinish_resume (env : Env) (obs : FinishObs) (mig : qemuMigrationCookie)
    (out : Option CookieOut) (flags : Nat) (v3proto : Bool) (r : FinishResult) :
    FinishResult :=
  let offline := hasFlag flags VIR_MIGRATE_OFFLINE
  let starts := !hasFlag flags VIR_MIGRATE_PAUSED && !offline
  if starts && !obs.startCPUs.ok then
    let errors := r.errors ++ obs.startCPUs.errors
    let errors :=
      if errors.getLast? = none then
        errors ++ [⟨VIR_ERR_INTERNAL_ERROR, "resume operation failed"⟩]
      else errors
    let actions :=
      r.actions ++
        [GuestAction.startCPUs VIR_DOMAIN_RUNNING_MIGRATED QEMU_ASYNC_JOB_MIGRATION_IN] ++
        (if v3proto then
          [GuestAction.processStop VIR_DOMAIN_SHUTOFF_FAILED,
           GuestAction.event VIR_DOMAIN_EVENT_STOPPED_FAILED]
         else [])
    qemuMigrationFinish_endjob (virSaveLastError errors.getLast?)
      { r with errors := errors, actions := actions }
  else
    let r :=
      if starts then
        { r with
          errors := r.errors ++ obs.startCPUs.errors,
          vm := { r.vm with state := VIR_DOMAIN_RUNNING },
          actions := r.actions ++
            [GuestAction.startCPUs VIR_DOMAIN_RUNNING_MIGRATED QEMU_ASYNC_JOB_MIGRATION_IN] }
      else r
    let r := { r with dom := true }
    let r :=
      if offline then r
      else if r.vm.state = VIR_DOMAIN_PAUSED then
        { r with
          vm := { r.vm with state := VIR_DOMAIN_PAUSED, reason := VIR_DOMAIN_PAUSED_USER },
          actions := r.actions ++
            [GuestAction.event VIR_DOMAIN_EVENT_RESUMED_MIGRATED,
             GuestAction.event VIR_DOMAIN_EVENT_SUSPENDED_PAUSED] }
      else
        { r with actions := r.actions ++ [GuestAction.event VIR_DOMAIN_EVENT_RESUMED_MIGRATED] }
    if obs.isActiveAtEnd && !obs.saveStatus then
      qemuMigrationFinish_endjob none { r with actions := r.actions ++ [GuestAction.saveStatus] }
    else
      let r :=
        if obs.isActiveAtEnd then { r with actions := r.actions ++ [GuestAction.saveStatus] }
        else r
      let baked := qemuMigrationBakeCookie env mig r.vm out 0
      qemuMigrationFinish_endjob none
        { r with errors := r.errors ++ baked.errors, out := baked.out }

open VirErrorCode virDomainShutoffReason virDomainEventDetail in
/-- The part of the success branch of `qemuMigrationFinish` that makes the domain
persistent (lines 4366-4411), followed by the start of the CPUs; it is entered
with the result so far. -/
def qemuMigrationFinish_persist (env : Env) (obs : FinishObs) (mig : qemuMigrationCookie)
    (out : Option CookieOut) (flags : Nat) (v3proto : Bool) (r : FinishResult) :
    FinishResult :=
  let offline := hasFlag flags VIR_MIGRATE_OFFLINE
  if hasFlag flags VIR_MIGRATE_PERSIST_DEST then
    let vmdef : Option virDomainDef :=
      match mig.persistent with
      | some persistent => some persistent
      | none => obs.persistentDef
    let r :=
      match mig.persistent with
      | some persistent => { r with vm := { r.vm with newDef := some persistent } }
      | none => r
    if vmdef = none ∨ obs.saveConfig = false then
      let r :=
        if v3proto && !offline then
          { r with actions := [GuestAction.processStop VIR_DOMAIN_SHUTOFF_FAILED] }
        else r
      let r :=
        if vmdef = none then
          { r with errors := r.errors ++ [⟨VIR_ERR_INTERNAL_ERROR, "can't get vmdef"⟩] }
        else r
      qemuMigrationFinish_endjob none r
    else
      qemuMigrationFinish_resume env obs mig out flags v3proto
        { r with
          actions :=
            [GuestAction.event
              (if obs.persistent then VIR_DOMAIN_EVENT_DEFINED_UPDATED
               else VIR_DOMAIN_EVENT_DEFINED_ADDED)] }
  else qemuMigrationFinish_resume env obs mig out flags v3proto r

open VirErrorCode virDomainShutoffReason virDomainEventDetail in
/-- The success branch of `qemuMigrationFinish` (`retcode == 0`, lines 4342-4480),
entered with the cookie and the result so far. -/
def qemuMigrationFinish_success (env : Env) (obs : FinishObs) (mig : qemuMigrationCookie)
    (out : Option CookieOut) (flags : Nat) (v3proto : Bool) (r : FinishResult) :
    FinishResult :=
  let offline := hasFlag flags VIR_MIGRATE_OFFLINE
  if !obs.isActive && !offline then
    qemuMigrationFinish_endjob none
      { r with errors := r.errors ++ [⟨VIR_ERR_INTERNAL_ERROR, "guest unexpectedly quit"⟩] }
  else
    let vp : VPortResult :=
      if offline then ⟨[], 0, []⟩
      else qemuMigrationVPAssociatePortProfiles obs.vport r.vm.defn
    let r := { r with errors := r.errors ++ vp.errors, vportCalls := vp.calls }
    if vp.ret < 0 then
      qemuMigrationFinish_endjob none
        { r with
          actions := [GuestAction.processStop VIR_DOMAIN_SHUTOFF_FAILED,
                      GuestAction.event VIR_DOMAIN_EVENT_STOPPED_FAILED] }
    else
      let opd : OPDRelocateResult :=
        match offline, mig.network with
        | false, some network => qemuDomainMigrateOPDRelocate obs.setMigrateData r.vm network
        | _, _ => ⟨[], 0, []⟩
      let stopped := qemuMigrationStopNBDServer obs.nbdEnterMonitor r.vm mig
      qemuMigrationFinish_persist env obs mig out flags v3proto
        { r with
          errors := r.errors ++ opd.errors,
          relocated := opd.calls,
          vm := stopped.vm,
          cmds := stopped.cmds,
          released := stopped.released }

open VirErrorCode virDomainShutoffReason virDomainEventDetail qemuDomainAsyncJob
  qemuMigrationJobPhase in
/-- The Finish step on the destination: `qemuMigrationFinish` (lines 4297-4520). The
field `vm->persistent`, the audit records, the removal of an inactive domain
object and the auto destroy list are not part of the model. -/
def qemuMigrationFinish (env : Env) (obs : FinishObs) (vm : virDomainObj)
    (cookiein : Option (List Char)) (out : Option CookieOut) (flags : Nat) (retcode : Int)
    (v3proto : Bool) : FinishResult :=
  let start : FinishResult := ⟨[], none, false, vm, [], [], [], [], [], out⟩
  if env.caps = false then start
  else
    let active := qemuMigrationJobIsActive vm QEMU_ASYNC_JOB_MIGRATION_IN
    if !active.result then
      { start with errors := active.errors, lastError := active.errors.getLast? }
    else
      let vm := qemuMigrationJobStartPhase vm
        (if v3proto then QEMU_MIGRATION_PHASE_FINISH3 else QEMU_MIGRATION_PHASE_FINISH2)
      let cookie_flags :=
        if hasFlag flags VIR_MIGRATE_PERSIST_DEST then
          QEMU_MIGRATION_COOKIE_NETWORK ||| QEMU_MIGRATION_COOKIE_PERSISTENT
        else QEMU_MIGRATION_COOKIE_NETWORK
      let eaten := qemuMigrationEatCookie env vm cookiein cookie_flags
      let r : FinishResult := { start with errors := eaten.errors, vm := vm }
      match eaten.value with
      | none => qemuMigrationFinish_endjob none r
      | some mig =>
        if retcode = 0 then qemuMigrationFinish_success env obs mig out flags v3proto r
        else
          let r :=
            if !hasFlag flags VIR_MIGRATE_OFFLINE then
              { r with
                actions := [GuestAction.processStop VIR_DOMAIN_SHUTOFF_FAILED,
                            GuestAction.event VIR_DOMAIN_EVENT_STOPPED_FAILED] }
            else r
          let baked := qemuMigrationBakeCookie env mig vm out 0
          qemuMigrationFinish_endjob none
            { r with errors := r.errors ++ baked.errors, out := baked.out }

/-! ## The peer-to-peer driver of the version 3 protocol -/

/-- The ports handed out by `n` consecutive generations of
`qemuMigrationPrepareDirect`, the first one made with the counter `port`. -/
def qemuMigrationPrepareDirect_ports (env : Env) : Nat → Nat → List Nat
  | _, 0 => []
  | port, n + 1 =>
    (qemuMigrationPrepareDirect_port env port).1 ::
      qemuMigrationPrepareDirect_ports env (qemuMigrationPrepareDirect_port env port).2 n

open qemuMigrationJobPhase in
/-- The edges of the four state graphs of the specification: the version 3
source, the version 2 source, the version 2 destination and the version 3
destination. -/
def specPhaseGraphEdges : List (qemuMigrationJobPhase × qemuMigrationJobPhase) :=
  [(QEMU_MIGRATION_PHASE_NONE, QEMU_MIGRATION_PHASE_BEGIN3),
   (QEMU_MIGRATION_PHASE_BEGIN3, QEMU_MIGRATION_PHASE_PERFORM3),
   (QEMU_MIGRATION_PHASE_PERFORM3, QEMU_MIGRATION_PHASE_PERFORM3_DONE),
   (QEMU_MIGRATION_PHASE_PERFORM3_DONE, QEMU_MIGRATION_PHASE_CONFIRM3),
   (QEMU_MIGRATION_PHASE_PERFORM3_DONE, QEMU_MIGRATION_PHASE_CONFIRM3_CANCELLED),
   (QEMU_MIGRATION_PHASE_NONE, QEMU_MIGRATION_PHASE_PERFORM2),
   (QEMU_MIGRATION_PHASE_NONE, QEMU_MIGRATION_PHASE_PREPARE),
   (QEMU_MIGRATION_PHASE_PREPARE, QEMU_MIGRATION_PHASE_FINISH2),
   (QEMU_MIGRATION_PHASE_PREPARE, QEMU_MIGRATION_PHASE_FINISH3)]

/-- The domain with another phase of its job. -/
def setJobPhase (vm : virDomainObj) (phase : qemuMigrationJobPhase) : virDomainObj :=
  { vm with privateData := { vm.privateData with job := { vm.privateData.job with phase := phase } } }

/-- The invariant of the feature words of a cookie: every mandatory feature is
an advertised feature (`flagsMandatory` is a subset of `flags`). -/
def flagsMandatorySubset (mig : qemuMigrationCookie) : Prop :=
  mig.flagsMandatory &&& mig.flags = mig.flagsMandatory

instance (mig : qemuMigrationCookie) : Decidable (flagsMandatorySubset mig) :=
  inferInstanceAs (Decidable (mig.flagsMandatory &&& mig.flags = mig.flagsMandatory))

/-- The arguments of one call of `qemuMigrationBakeCookie` on a cookie. -/
structure BakeCall where
  dom : virDomainObj
  out : Option CookieOut
  flags : Nat

/-- The cookie left by a sequence of calls of `qemuMigrationBakeCookie`. -/
def qemuMigrationBakeCookie_calls (env : Env) (mig : qemuMigrationCookie) :
    List BakeCall → qemuMigrationCookie
  | [] => mig
  | call :: rest =>
    qemuMigrationBakeCookie_calls env
      (qemuMigrationBakeCookie env mig call.dom call.out call.flags).mig rest

/-- The features whose `feature` element the formatter writes for a cookie
(lines 602-606): the indexes below `QEMU_MIGRATION_COOKIE_FLAG_LAST` whose bit is
set in `flagsMandatory`. -/
def qemuMigrationCookieXMLFormat_featureIndexes (mig : qemuMigrationCookie) : List Nat :=
  (List.range QEMU_MIGRATION_COOKIE_FLAG_LAST).filter
    (fun i => mig.flagsMandatory &&& (1 <<< i) != 0)

open virNetDevVPortProfile in
/-- Modelled from the spec: the XML library is not part of the file. These are
the `./network/interface` nodes that it finds in the `network` element written by
`qemuMigrationCookieNetworkXMLFormat`: one node per `interface` element written,
in the order of the document, with the attribute `vporttype` and the text of
its `portdata` child as they were written (`virXPathString` answers `NULL` for a
missing child and for an empty text). The attribute `index` is in the document
too; the parser of the cookie does not ask for it. -/
def networkInterfaceNodes (env : Env) (optr : qemuMigrationCookieNetwork) :
    List InterfaceQuery :=
  (optr.net.filter (fun data => data.vporttype != VIR_NETDEV_VPORT_PROFILE_NONE)).map
    fun data =>
      { portdata := if data.portdata = some "" then none else data.portdata,
        vporttype := some (env.virNetDevVPortTypeToString data.vporttype) }

/-! ## Concrete hosts, guests and documents used in the examples -/

/-- UUID of the example guest. -/
def guestUUID : UUID := ⟨[1, 1, 1, 1, 1, 1, 1, 1, 1, 1, 1, 1, 1, 1, 1, 1]⟩
/-- Another guest UUID. -/
def otherGuestUUID : UUID := ⟨[9, 9, 9, 9, 9, 9, 9, 9, 9, 9, 9, 9, 9, 9, 9, 9]⟩
/-- UUID of the example source host. -/
def srcHostUUID : UUID := ⟨[2, 2, 2, 2, 2, 2, 2, 2, 2, 2, 2, 2, 2, 2, 2, 2]⟩
/-- UUID of the example destination host. -/
def dstHostUUID : UUID := ⟨[3, 3, 3, 3, 3, 3, 3, 3, 3, 3, 3, 3, 3, 3, 3, 3]⟩

/-- UUID text of the examples: one letter per host or guest. -/
def exampleUUIDFormat (u : UUID) : String :=
  if u = guestUUID then "uuid-guest"
  else if u = otherGuestUUID then "uuid-other"
  else if u = srcHostUUID then "uuid-src"
  else if u = dstHostUUID then "uuid-dst"
  else "uuid-unknown"

/-- UUID parser of the examples, the inverse of `exampleUUIDFormat`. -/
def exampleUUIDParse (s : String) : Option UUID :=
  if s = "uuid-guest" then some guestUUID
  else if s = "uuid-other" then some otherGuestUUID
  else if s = "uuid-src" then some srcHostUUID
  else if s = "uuid-dst" then some dstHostUUID
  else none

/-- URI parser of the examples: it reads `SCHEME://HOST` and `SCHEME://HOST:PORT`
and refuses every other text. -/
def exampleURIParse (s : String) : Outcome virURI :=
  let scheme := s.data.takeWhile (fun c => c != ':')
  let rest := s.data.drop scheme.length
  if "://".data.isPrefixOf rest then
    let authority := rest.drop 3
    let host := authority.takeWhile (fun c => c != ':')
    let digits := authority.drop (host.length + 1)
    Outcome.ok
      { server := if host = [] then none else some (String.mk host),
        port := digits.foldl (fun n c => 10 * n + (c.toNat - 48)) 0 }
  else Outcome.fail VirErrorCode.VIR_ERR_INTERNAL_ERROR ("Unable to parse URI " ++ s)

/-- An example host: its name, its UUID, its lock manager and the document
that the XML library finds in each cookie text. -/
def exampleEnv (hostname : String) (hostUUID : UUID) (lockManagerName : String)
    (parse : String → Option CookieDoc) : Env :=
  { caps := true,
    hostname := some hostname,
    hostUUID := some hostUUID,
    lockManagerName := lockManagerName,
    lockManagerUsesState := true,
    lockProcessInquire := fun _ => some (some "lease-1"),
    vncListen := "127.0.0.1",
    spiceListen := "127.0.0.1",
    vncTLS := false,
    spiceTLS := false,
    withGnutls := false,
    vncTLSSubject := none,
    spiceTLSSubject := none,
    ovsGetMigrateData := fun _ => some none,
    virXMLParseStringCtxt := parse,
    virUUIDParse := exampleUUIDParse,
    virUUIDFormat := exampleUUIDFormat,
    virStrToLong_i := fun s => s.toInt?,
    virBufferEscape := fun s => s,
    virDomainGraphicsTypeToString := fun _ => "spice",
    virDomainGraphicsTypeFromString := fun _ => none,
    virNetDevVPortTypeToString := fun _ => "none",
    virNetDevVPortTypeFromString := fun _ => virNetDevVPortProfile.INVALID,
    qemuDomainDefFormatBuf := fun _ => some "",
    virStorageFileIsSharedFS := fun path => if path = "/nfs/disk.img" then 1 else 0,
    virStorageFileIsClusterFS := fun _ => 0,
    virDomainDefParseString := fun _ => none,
    virDomainDefCheckABIStability := fun _ _ => true,
    qemuDomainDefFormatLive := fun _ => some "<domain/>",
    virTimeMillisNow := some 0,
    QEMU_DRIVE_HOST_PREFIX := "drive-",
    qemuDomainAsyncJobTypeToString := fun job =>
      match job with
      | qemuDomainAsyncJob.QEMU_ASYNC_JOB_NONE => "none"
      | qemuDomainAsyncJob.QEMU_ASYNC_JOB_MIGRATION_OUT => "migration out"
      | qemuDomainAsyncJob.QEMU_ASYNC_JOB_MIGRATION_IN => "migration in"
      | qemuDomainAsyncJob.QEMU_ASYNC_JOB_SAVE => "save"
      | qemuDomainAsyncJob.QEMU_ASYNC_JOB_DUMP => "dump"
      | qemuDomainAsyncJob.QEMU_ASYNC_JOB_SNAPSHOT => "snapshot",
    QEMUD_MIGRATION_FIRST_PORT := 49152,
    QEMUD_MIGRATION_NUM_PORTS := 64,
    virURIParse := exampleURIParse,
    QEMU_MIGRATION_FLAGS := 8191 }

/-- The definition of the example guest: no device at all. -/
def guestDef : virDomainDef :=
  { name := "guest", uuid := guestUUID, graphics := [], nets := [], disks := [], hostdevs := [] }

open qemuDomainAsyncJob qemuMigrationJobPhase virDomainState in
/-- The example guest, running, with no job. -/
def guestObj : virDomainObj :=
  { defn := guestDef, newDef := none,
    privateData :=
      { job := { asyncJob := QEMU_ASYNC_JOB_NONE, phase := QEMU_MIGRATION_PHASE_NONE },
        origname := none, lockState := none, nbdPort := 0, capsNbdServer := true },
    state := VIR_DOMAIN_RUNNING, reason := 0, autoDestroyActive := false,
    nsnapshots := 0, hasDiskMirror := false }

/-- A cookie document of the example guest sent by the source host, with no
feature and no optional element. -/
def plainDoc : CookieDoc :=
  { name := some "guest", uuid := some "uuid-guest", hostname := some "src",
    hostuuid := some "uuid-src", features := some [], graphics := none, lockstate := none,
    domain := [], network := none, nbd := none }

/-- The text standing for a cookie in the examples, and its buffer. -/
def exampleText : String := "<qemu-migration/>"
/-- The buffer holding `exampleText` and its terminating NUL. -/
def exampleBuffer : List Char := exampleText.data ++ [NUL]

/-- The destination host of the examples: the XML library finds `doc` in
`exampleText`. -/
def dstEnv (doc : CookieDoc) : Env :=
  exampleEnv "dst" dstHostUUID "sanlock" (fun xml => if xml = exampleText then some doc else none)

/-- The source host of the examples; it parses no cookie. -/
def srcEnv : Env := exampleEnv "src" srcHostUUID "sanlock" (fun _ => none)

/-- A host named like the source host of `plainDoc`, with its UUID: the XML
library finds `plainDoc` in `exampleText`. -/
def loopbackEnv : Env :=
  exampleEnv "src" srcHostUUID "sanlock" (fun xml => if xml = exampleText then some plainDoc else none)

/-- The cookie that `qemuMigrationCookieNew` creates for the example guest on
the source host. -/
def freshCookie : qemuMigrationCookie :=
  { flags := 0, flagsMandatory := 0, localHostuuid := srcHostUUID, remoteHostuuid := zeroUUID,
    localHostname := "src", remoteHostname := none, uuid := guestUUID, name := "guest",
    lockState := none, lockDriver := none, graphics := none, persistent := none,
    network := none, nbd := none }

/-- The text that Begin bakes on the source host for the example guest with
the lock state and NBD features. -/
def bakedText : String :=
  "<qemu-migration>\n  <name>guest</name>\n  <uuid>uuid-guest</uuid>\n" ++
  "  <hostname>src</hostname>\n  <hostuuid>uuid-src</hostuuid>\n" ++
  "  <feature name='lockstate'/>\n" ++
  "  <lockstate driver='sanlock'>\n    <leases>lease-1</leases>\n  </lockstate>\n" ++
  "  <nbd/>\n</qemu-migration>\n"

/-- The answers of the XML library on `bakedText`. -/
def bakedDoc : CookieDoc :=
  { name := some "guest", uuid := some "uuid-guest", hostname := some "src",
    hostuuid := some "uuid-src", features := some [some "lockstate"], graphics := none,
    lockstate := some { driver := some "sanlock", leases := some "lease-1" },
    domain := [], network := none, nbd := some none }

/-- The destination host receiving `bakedText`. -/
def bakedDstEnv : Env :=
  exampleEnv "dst" dstHostUUID "sanlock" (fun xml => if xml = bakedText then some bakedDoc else none)

/-- The cookie that the destination host obtains from `bakedText`. -/
def eatenCookie : qemuMigrationCookie :=
  { flags := 0, flagsMandatory := 0, localHostuuid := dstHostUUID, remoteHostuuid := srcHostUUID,
    localHostname := "dst", remoteHostname := some "src", uuid := guestUUID, name := "guest",
    lockState := some "lease-1", lockDriver := some "sanlock", graphics := none,
    persistent := none, network := none, nbd := some { port := 0 } }

/-- The document `plainDoc` with a mandatory feature `persistent`. -/
def persistentFeatureDoc : CookieDoc := { plainDoc with features := some [some "persistent"] }

/-- The document `plainDoc` with the UUID of another guest. -/
def otherUUIDDoc : CookieDoc := { plainDoc with uuid := some "uuid-other" }

/-- The document `plainDoc` with a lock state taken by the lock driver
`virtlockd`. -/
def foreignLockDoc : CookieDoc :=
  { plainDoc with
    features := some [some "lockstate"],
    lockstate := some { driver := some "virtlockd", leases := some "lease-1" } }

open virDomainDiskType virDomainDiskProtocol virDomainDiskCache in
/-- A writable, unshared file disk with write-back caching at `path`. -/
def cachedFileDisk (path : String) : virDomainDiskDef :=
  { type := VIR_DOMAIN_DISK_TYPE_FILE, src := some path, shared := false, readonly := false,
    cachemode := VIR_DOMAIN_DISK_CACHE_WRITEBACK, protocol := VIR_DOMAIN_DISK_PROTOCOL_NBD,
    infoAlias := some "virtio-disk0" }

/-- The example guest with a cached disk on the shared filesystem `/nfs`. -/
def nfsGuestDef : virDomainDef := { guestDef with disks := [cachedFileDisk "/nfs/disk.img"] }

/-- The example guest with a cached disk on a local filesystem. -/
def localGuestDef : virDomainDef := { guestDef with disks := [cachedFileDisk "/var/disk.img"] }

open qemuDomainAsyncJob qemuMigrationJobPhase in
/-- The example guest inside an outgoing migration job that has no phase yet,
with an NBD port left from an earlier migration. -/
def stalePortGuest : virDomainObj :=
  { guestObj with
    privateData :=
      { guestObj.privateData with
        job := { asyncJob := QEMU_ASYNC_JOB_MIGRATION_OUT, phase := QEMU_MIGRATION_PHASE_NONE },
        nbdPort := 49153 } }

open virDomainHostdevMode virDomainHostdevSubsysType in
/-- The example guest with an assigned PCI device, marked for auto destroy. -/
def pciGuestObj : virDomainObj :=
  { guestObj with
    defn := { guestDef with
      hostdevs := [⟨VIR_DOMAIN_HOSTDEV_MODE_SUBSYS, VIR_DOMAIN_HOSTDEV_SUBSYS_TYPE_PCI⟩] },
    autoDestroyActive := true }

open qemuDomainAsyncJob qemuMigrationJobPhase in
/-- The example guest, running, inside an outgoing migration job in the phase
`perform3`. -/
def migratingGuest : virDomainObj :=
  { guestObj with
    privateData :=
      { guestObj.privateData with
        job := { asyncJob := QEMU_ASYNC_JOB_MIGRATION_OUT,
                 phase := QEMU_MIGRATION_PHASE_PERFORM3 } } }

/-- The guest `migratingGuest` after a concurrent caller asked to abort the job. -/
def abortingGuest : virDomainObj :=
  { migratingGuest with
    privateData :=
      { migratingGuest.privateData with
        job := { migratingGuest.privateData.job with asyncAbort := true } } }

open virDomainState in
/-- An iteration in which the guest runs, the status query answers `status`,
and the liveness probe of the destination connection answers `alive`. -/
def pollObs (status : qemuMonitorMigrationStatusValue) (alive : Int) : WaitObs :=
  { state := VIR_DOMAIN_RUNNING, reason := 0,
    status := { enterMonitor := true, querySucceeds := true,
                status := { status := status, ram_transferred := 10, ram_remaining := 90,
                            ram_total := 100 },
                timeNow := some 5 },
    connIsAlive := alive, isActive := true, cancelEnterMonitor := true }

open virDomainState in
/-- An iteration in which the guest is found paused on an I/O error. -/
def ioErrorObs : WaitObs :=
  { pollObs qemuMonitorMigrationStatusValue.QEMU_MONITOR_MIGRATION_STATUS_ACTIVE 1 with
    state := VIR_DOMAIN_PAUSED, reason := VIR_DOMAIN_PAUSED_IOERROR }

/-- A disk that the storage copy handles: it has a source, is not shared and
can be written. -/
def mirroredDisk (path infoAlias : String) : virDomainDiskDef :=
  { cachedFileDisk path with infoAlias := some infoAlias }

/-- A guest with two disks that the storage copy handles. -/
def twoDiskGuest : virDomainObj :=
  { migratingGuest with
    defn := { guestDef with
      disks := [mirroredDisk "/var/a.img" "virtio-disk0",
                mirroredDisk "/var/b.img" "virtio-disk1"] } }

/-- A guest with one disk that the storage copy handles. -/
def oneDiskGuest : virDomainObj :=
  { migratingGuest with
    defn := { guestDef with disks := [mirroredDisk "/var/a.img" "virtio-disk0"] } }

/-- A poll of a block job that has reached its end. -/
def donePoll : MirrorPollObs :=
  { enterMonitor := true, asyncAbort := false, blockJob := true, cur := 10, «end» := 10 }

/-- A poll whose block job query fails. -/
def failedPoll : MirrorPollObs :=
  { enterMonitor := true, asyncAbort := false, blockJob := false, cur := 0, «end» := 0 }

/-- A hypervisor that starts every mirror and completes each of them at the
first poll, but for the disk of index `k`, whose block job query fails. -/
def mirrorFailingAt (k : Nat) : MirrorObs :=
  { enterMonitor := fun _ => true,
    driveMirror := fun _ => true,
    polls := fun i => if i = k then [failedPoll] else [donePoll],
    abortEnterMonitor := fun _ => true }

/-- A hypervisor that starts every mirror and completes each of them at the
first poll. -/
def mirrorAllGood : MirrorObs :=
  { enterMonitor := fun _ => true,
    driveMirror := fun _ => true,
    polls := fun _ => [donePoll],
    abortEnterMonitor := fun _ => true }

/-- A cookie of the destination that carries NBD data. -/
def nbdCookie : qemuMigrationCookie := { freshCookie with nbd := some { port := 49153 } }

/-- A destination whose allocator hands out the port 49153 and whose
hypervisor accepts the NBD commands. -/
def nbdAllGood : NBDServerObs :=
  { enterMonitor := fun _ => true,
    acquire := fun _ => (true, 49153),
    nbdServerStart := fun _ _ => true,
    nbdServerAdd := fun _ => true }

/-- A destination whose allocator answers every call with success and stores
the port 0, and whose hypervisor accepts the NBD commands. -/
def nbdPortZero : NBDServerObs :=
  { enterMonitor := fun _ => true,
    acquire := fun _ => (true, 0),
    nbdServerStart := fun _ _ => true,
    nbdServerAdd := fun _ => true }

/-- A tunnel whose worker has captured an error. -/
def brokenTunnel : TunnelObs :=
  { wakeupWritten := true,
    workerErr := fun _ =>
      some ⟨VirErrorCode.VIR_ERR_SYSTEM_ERROR, "tunnelled migration failed to read from qemu"⟩ }

/-- A migration run that sends the `migrate` command to the host of the
destination and succeeds. -/
def exampleRun (vm : virDomainObj) (spec : qemuMigrationSpec) : MigrateStep :=
  ⟨[], none, 0, vm, [MonitorCmd.migrateToHost 0 spec.hostName spec.hostPort]⟩

/-- The error of a migration run that fails. -/
def migrationError : VirError :=
  ⟨VirErrorCode.VIR_ERR_OPERATION_FAILED, "migration job: unexpectedly failed"⟩

/-- The error of a restart of the CPUs that fails. -/
def resumeError : VirError :=
  ⟨VirErrorCode.VIR_ERR_OPERATION_FAILED, "resume operation failed"⟩

/-- A migration run that fails after the guest was paused. -/
def failingRun (vm : virDomainObj) (_spec : qemuMigrationSpec) : MigrateStep :=
  ⟨[migrationError], some migrationError, -1,
    { vm with state := virDomainState.VIR_DOMAIN_PAUSED }, []⟩

/-- A Perform call where the job starts and the restart of the CPUs fails with
a report. -/
def failedResumeObs : PerformObs :=
  { beginAsyncJob := ⟨[], true⟩,
    isActive := true,
    startCPUs := ⟨[resumeError], false⟩,
    closeCallbacksSet := ⟨[], true⟩ }

/-- The end of a run over a direct connection whose destination is lost while
the hypervisor still reports the migration active. -/
def lostDestinationObs : RunFinishObs :=
  { startTunnel := ⟨[], true⟩,
    wait := [pollObs qemuMonitorMigrationStatusValue.QEMU_MONITOR_MIGRATION_STATUS_ACTIVE 0],
    stateAfterWait := virDomainState.VIR_DOMAIN_RUNNING,
    setOffline := ⟨[], true⟩,
    cancelIsActive := true,
    cancelEnterMonitor := true,
    mirrorEnterMonitor := fun _ => true,
    tunnel := { wakeupWritten := true, workerErr := fun _ => none } }

open virNetDevVPortProfile in
/-- The names of the port profile types, `VIR_ENUM_IMPL(virNetDevVPort, ...)` of
`virnetdevvportprofile.c`. -/
def exampleVPortTypeToString : virNetDevVPortProfile → String
  | VIR_NETDEV_VPORT_PROFILE_NONE => "none"
  | VIR_NETDEV_VPORT_PROFILE_8021QBG => "802.1Qbg"
  | VIR_NETDEV_VPORT_PROFILE_8021QBH => "802.1Qbh"
  | VIR_NETDEV_VPORT_PROFILE_OPENVSWITCH => "openvswitch"
  | INVALID => "(null)"

open virNetDevVPortProfile in
/-- The reverse table of `exampleVPortTypeToString`. -/
def exampleVPortTypeFromString (s : String) : virNetDevVPortProfile :=
  if s = "none" then VIR_NETDEV_VPORT_PROFILE_NONE
  else if s = "802.1Qbg" then VIR_NETDEV_VPORT_PROFILE_8021QBG
  else if s = "802.1Qbh" then VIR_NETDEV_VPORT_PROFILE_8021QBH
  else if s = "openvswitch" then VIR_NETDEV_VPORT_PROFILE_OPENVSWITCH
  else INVALID

/-- The destination host with the tables of the port profile types. -/
def vportEnv : Env :=
  { srcEnv with
    virNetDevVPortTypeToString := exampleVPortTypeToString,
    virNetDevVPortTypeFromString := exampleVPortTypeFromString }

open virNetDevVPortProfile in
/-- The network data of a guest with two interfaces: the first one has no port
profile, the second one is an Open vSwitch port with port data. -/
def mixedNetwork : qemuMigrationCookieNetwork :=
  { net := [{ vporttype := VIR_NETDEV_VPORT_PROFILE_NONE, portdata := none },
            { vporttype := VIR_NETDEV_VPORT_PROFILE_OPENVSWITCH, portdata := some "blob-of-vnet1" }] }

open virNetDevVPortProfile virDomainNetType in
/-- A guest with the two interfaces of `mixedNetwork`: `vnet0` is a bridge
interface without a profile, `vnet1` is an Open vSwitch port. -/
def mixedNetGuest : virDomainObj :=
  { guestObj with
    defn := { guestDef with
      nets := [{ ifname := "vnet0", actualVirtPortType := none,
                 actualType := VIR_DOMAIN_NET_TYPE_BRIDGE },
               { ifname := "vnet1",
                 actualVirtPortType := some VIR_NETDEV_VPORT_PROFILE_OPENVSWITCH,
                 actualType := VIR_DOMAIN_NET_TYPE_BRIDGE }] } }

open virNetDevVPortProfile virDomainNetType in
/-- A definition with three direct interfaces that have a port profile. -/
def directNetsDef : virDomainDef :=
  { guestDef with
    nets := [{ ifname := "macvtap0", actualVirtPortType := some VIR_NETDEV_VPORT_PROFILE_8021QBG,
               actualType := VIR_DOMAIN_NET_TYPE_DIRECT },
             { ifname := "macvtap1", actualVirtPortType := some VIR_NETDEV_VPORT_PROFILE_8021QBG,
               actualType := VIR_DOMAIN_NET_TYPE_DIRECT },
             { ifname := "macvtap2", actualVirtPortType := some VIR_NETDEV_VPORT_PROFILE_8021QBG,
               actualType := VIR_DOMAIN_NET_TYPE_DIRECT }] }

/-- A host on which every association succeeds but the one of the interface of
index `k`. -/
def associateFailingAt (k : Nat) : VPortObs :=
  { associate := fun i => decide (i ≠ k), registerCallback := fun _ => true }

/-- A Confirm step in which every call succeeds. -/
def confirmAllGood : ConfirmObs :=
  { mirrorEnterMonitor := fun _ => true, startCPUs := ⟨[], true⟩, saveStatus := true,
    spicePolls := [] }

/-- A poll of the wait for the SPICE server whose query succeeds and stores
`migrated` in `spice_migrated`. -/
def spicePoll (migrated : Bool) : SpicePollObs := { query := ⟨[], true⟩, spice_migrated := migrated }

/-- A Confirm step in which every call succeeds and the SPICE server reports
the end of its migration at the third poll. -/
def confirmSpiceThird : ConfirmObs :=
  { confirmAllGood with spicePolls := [spicePoll false, spicePoll false, spicePoll true] }

/-- A Confirm step in which every call succeeds and the SPICE server does not
report the end of its migration in any of four polls. -/
def confirmSpicePending : ConfirmObs :=
  { confirmAllGood with
    spicePolls := [spicePoll false, spicePoll false, spicePoll false, spicePoll false] }

/-- A cookie buffer that is not terminated by a NUL. -/
def unterminatedBuffer : List Char := exampleText.data

/-- The guest `migratingGuest` once the migration has been performed. -/
def performedGuest : virDomainObj :=
  setJobPhase { migratingGuest with state := virDomainState.VIR_DOMAIN_PAUSED }
    qemuMigrationJobPhase.QEMU_MIGRATION_PHASE_PERFORM3_DONE

/-- The guest `performedGuest` with a SPICE display, on a hypervisor that has
the seamless migration of SPICE. -/
def spiceGuest : virDomainObj :=
  { performedGuest with
    defn := { performedGuest.defn with
      graphics := [{ type := virDomainGraphicsType.VIR_DOMAIN_GRAPHICS_TYPE_SPICE, vncPort := 0,
                     spicePort := 5900, spiceTlsPort := -1, listenAddress := none }] },
    privateData := { performedGuest.privateData with capsSeamlessMigration := true } }

/-- A guest of the destination in an incoming migration whose Prepare step has
started an NBD server on the port 49153. -/
def incomingGuest : virDomainObj :=
  { guestObj with
    state := virDomainState.VIR_DOMAIN_PAUSED,
    privateData :=
      { guestObj.privateData with
        nbdPort := 49153,
        job := { asyncJob := qemuDomainAsyncJob.QEMU_ASYNC_JOB_MIGRATION_IN,
                 phase := qemuMigrationJobPhase.QEMU_MIGRATION_PHASE_PREPARE } } }

/-- A Finish step in which every call succeeds. -/
def finishAllGood : FinishObs :=
  { isActive := true,
    vport := { associate := fun _ => true, registerCallback := fun _ => true },
    setMigrateData := fun _ _ => true,
    nbdEnterMonitor := true,
    persistent := false,
    persistentDef := none,
    saveConfig := true,
    startCPUs := ⟨[], true⟩,
    isActiveAtEnd := true,
    saveStatus := true }

theorem Outcome.bind_value {α β : Type} (x : Outcome α) (f : α → Outcome β) :
    (x.bind f).value = x.value.bind (fun a => (f a).value) := by
  unfold Outcome.bind
  cases h : x.value <;> simp

theorem cookieNew_value (env : Env) (dom : virDomainObj) (mig : qemuMigrationCookie)
    (h : (qemuMigrationCookieNew env dom).value = some mig) :
    env.hostname = some mig.localHostname ∧ env.hostUUID = some mig.localHostuuid ∧
      mig.flags = 0 ∧ mig.flagsMandatory = 0 ∧ mig.uuid = dom.defn.uuid := by
  unfold qemuMigrationCookieNew at h
  cases hn : env.hostname with
  | none => simp [hn, Outcome.failQuiet] at h
  | some n =>
    cases hu : env.hostUUID with
    | none => simp [hn, hu, Outcome.fail] at h
    | some u =>
      simp [hn, hu, Outcome.ok] at h
      subst h
      simp

theorem parse_name_value (mig m : qemuMigrationCookie) (doc : CookieDoc)
    (h : (qemuMigrationCookieXMLParse_name mig doc).value = some m) : m = mig := by
  unfold qemuMigrationCookieXMLParse_name at h
  split at h
  · simp [Outcome.fail] at h
  · split at h
    · simp [Outcome.fail] at h
    · simp [Outcome.ok] at h; exact h.symm

theorem parse_uuid_value (env : Env) (mig m : qemuMigrationCookie) (doc : CookieDoc)
    (h : (qemuMigrationCookieXMLParse_uuid env mig doc).value = some m) : m = mig := by
  unfold qemuMigrationCookieXMLParse_uuid at h
  split at h
  · simp [Outcome.fail] at h
  · split at h
    · simp at h; exact h.symm
    · simp [Outcome.ok] at h; exact h.symm

theorem parse_hostname_value (mig m : qemuMigrationCookie) (doc : CookieDoc)
    (h : (qemuMigrationCookieXMLParse_hostname mig doc).value = some m) :
    doc.hostname ≠ some mig.localHostname ∧ m.localHostuuid = mig.localHostuuid ∧
      m.flags = mig.flags ∧ m.flagsMandatory = mig.flagsMandatory := by
  unfold qemuMigrationCookieXMLParse_hostname at h
  split at h
  · simp [Outcome.fail] at h
  · rename_i r hr
    split at h
    · simp [Outcome.fail] at h
    · rename_i hne
      simp [Outcome.ok] at h
      subst h
      simp [hr, hne]

theorem parse_hostuuid_value (env : Env) (mig m : qemuMigrationCookie) (doc : CookieDoc)
    (h : (qemuMigrationCookieXMLParse_hostuuid env mig doc).value = some m) :
    (∀ t, doc.hostuuid = some t → env.virUUIDParse t ≠ some mig.localHostuuid) ∧
      m.flags = mig.flags ∧ m.flagsMandatory = mig.flagsMandatory := by
  unfold qemuMigrationCookieXMLParse_hostuuid at h
  split at h
  · simp [Outcome.fail] at h
  · rename_i t ht
    split at h
    · simp [Outcome.fail] at h
    · rename_i u hu
      split at h
      · simp [Outcome.fail] at h
      · rename_i hne
        simp [Outcome.ok] at h
        subst h
        refine ⟨?_, rfl, rfl⟩
        intro t2 ht2
        rw [ht] at ht2
        cases ht2
        rw [hu]
        simpa using hne

/-- A parse that succeeds has passed the two host identity checks. -/
theorem parse_value_host (env : Env) (mig m : qemuMigrationCookie) (doc : CookieDoc)
    (flags : Nat) (h : (qemuMigrationCookieXMLParse env mig doc flags).value = some m) :
    doc.hostname ≠ some mig.localHostname ∧
      ∀ t, doc.hostuuid = some t → env.virUUIDParse t ≠ some mig.localHostuuid := by
  unfold qemuMigrationCookieXMLParse at h
  split at h
  · simp [Outcome.failQuiet] at h
  · simp only [Outcome.bind_value] at h
    obtain ⟨m1, h1, g1⟩ := Option.bind_eq_some.mp h
    obtain ⟨m2, h2, g2⟩ := Option.bind_eq_some.mp g1
    obtain ⟨m3, h3, g3⟩ := Option.bind_eq_some.mp g2
    obtain ⟨m4, h4, g4⟩ := Option.bind_eq_some.mp g3
    have e1 := parse_name_value _ _ _ h1
    have e2 := parse_uuid_value _ _ _ _ h2
    have e3 := parse_hostname_value _ _ _ h3
    have e4 := parse_hostuuid_value _ _ _ _ h4
    rw [e2, e1] at e3
    refine ⟨e3.1, ?_⟩
    intro t ht
    rw [← e3.2.1]
    exact e4.1 t ht

theorem parse_features_flags (mig m : qemuMigrationCookie) (doc : CookieDoc) (flags : Nat)
    (h : (qemuMigrationCookieXMLParse_features mig doc flags).value = some m) : m = mig := by
  unfold qemuMigrationCookieXMLParse_features at h
  split at h
  · simp [Outcome.failQuiet] at h
  · simp only [Outcome.bind_value] at h
    obtain ⟨_, _, h⟩ := Option.bind_eq_some.mp h
    simp [Outcome.ok] at h
    exact h.symm

theorem parse_graphics_flags (env : Env) (mig m : qemuMigrationCookie) (doc : CookieDoc)
    (flags : Nat) (h : (qemuMigrationCookieXMLParse_graphics env mig doc flags).value = some m) :
    m.flags = mig.flags ∧ m.flagsMandatory = mig.flagsMandatory := by
  unfold qemuMigrationCookieXMLParse_graphics at h
  split at h
  · simp only [Outcome.bind_value] at h
    obtain ⟨_, _, h⟩ := Option.bind_eq_some.mp h
    simp [Outcome.ok] at h
    subst h
    simp
  · simp [Outcome.ok] at h
    subst h
    simp

theorem parse_lockstate_flags (mig m : qemuMigrationCookie) (doc : CookieDoc)
    (flags : Nat) (h : (qemuMigrationCookieXMLParse_lockstate mig doc flags).value = some m) :
    m.flags = mig.flags ∧ m.flagsMandatory = mig.flagsMandatory := by
  unfold qemuMigrationCookieXMLParse_lockstate at h
  split at h
  · split at h
    · simp [Outcome.fail] at h
    · simp [Outcome.ok] at h
      subst h
      simp
  · simp [Outcome.ok] at h
    subst h
    simp

theorem parse_persistent_flags (mig m : qemuMigrationCookie) (doc : CookieDoc)
    (flags : Nat) (h : (qemuMigrationCookieXMLParse_persistent mig doc flags).value = some m) :
    m.flags = mig.flags ∧ m.flagsMandatory = mig.flagsMandatory := by
  unfold qemuMigrationCookieXMLParse_persistent at h
  split at h
  · split at h
    · simp [Outcome.fail] at h
    · split at h
      · simp [Outcome.failQuiet] at h
      · simp [Outcome.ok] at h
        subst h
        simp
  · simp [Outcome.ok] at h
    subst h
    simp

theorem parse_network_flags (env : Env) (mig m : qemuMigrationCookie) (doc : CookieDoc)
    (flags : Nat) (h : (qemuMigrationCookieXMLParse_network env mig doc flags).value = some m) :
    m.flags = mig.flags ∧ m.flagsMandatory = mig.flagsMandatory := by
  unfold qemuMigrationCookieXMLParse_network at h
  split at h
  · simp only [Outcome.bind_value] at h
    obtain ⟨_, _, h⟩ := Option.bind_eq_some.mp h
    simp [Outcome.ok] at h
    subst h
    simp
  · simp [Outcome.ok] at h
    subst h
    simp

theorem parse_nbd_flags (env : Env) (mig m : qemuMigrationCookie) (doc : CookieDoc)
    (flags : Nat) (h : (qemuMigrationCookieXMLParse_nbd env mig doc flags).value = some m) :
    m.flags = mig.flags ∧ m.flagsMandatory = mig.flagsMandatory := by
  unfold qemuMigrationCookieXMLParse_nbd at h
  split at h
  · simp [Outcome.ok] at h
    subst h
    simp
  · split at h
    · simp [Outcome.fail] at h
    · simp [Outcome.ok] at h
      subst h
      simp
  · simp [Outcome.ok] at h
    subst h
    simp

theorem lockCheck_value (env : Env) (mig m : qemuMigrationCookie)
    (h : (qemuMigrationEatCookie_lockCheck env mig).value = some m) : m = mig := by
  unfold qemuMigrationEatCookie_lockCheck at h
  split at h
  · split at h
    · split at h
      · simp [Outcome.fail] at h
      · simp [Outcome.ok] at h; exact h.symm
    · split at h
      · simp [Outcome.fail] at h
      · simp [Outcome.ok] at h; exact h.symm
  · simp [Outcome.ok] at h; exact h.symm

theorem lockCheck_of_flags_zero (env : Env) (mig : qemuMigrationCookie) (h : mig.flags = 0) :
    qemuMigrationEatCookie_lockCheck env mig = Outcome.ok mig := by
  unfold qemuMigrationEatCookie_lockCheck
  simp [hasFlag, h]


theorem parse_value_flags (env : Env) (mig m : qemuMigrationCookie) (doc : CookieDoc)
    (flags : Nat) (h : (qemuMigrationCookieXMLParse env mig doc flags).value = some m) :
    m.flags = mig.flags ∧ m.flagsMandatory = mig.flagsMandatory := by
  unfold qemuMigrationCookieXMLParse at h
  split at h
  · simp [Outcome.failQuiet] at h
  · simp only [Outcome.bind_value] at h
    obtain ⟨m1, h1, g1⟩ := Option.bind_eq_some.mp h
    obtain ⟨m2, h2, g2⟩ := Option.bind_eq_some.mp g1
    obtain ⟨m3, h3, g3⟩ := Option.bind_eq_some.mp g2
    obtain ⟨m4, h4, g4⟩ := Option.bind_eq_some.mp g3
    obtain ⟨m5, h5, g5⟩ := Option.bind_eq_some.mp g4
    obtain ⟨m6, h6, g6⟩ := Option.bind_eq_some.mp g5
    obtain ⟨m7, h7, g7⟩ := Option.bind_eq_some.mp g6
    obtain ⟨m8, h8, g8⟩ := Option.bind_eq_some.mp g7
    obtain ⟨m9, h9, g9⟩ := Option.bind_eq_some.mp g8
    have e1 := parse_name_value _ _ _ h1
    have e2 := parse_uuid_value _ _ _ _ h2
    have e3 := parse_hostname_value _ _ _ h3
    have e4 := parse_hostuuid_value _ _ _ _ h4
    have e5 := parse_features_flags _ _ _ _ h5
    have e6 := parse_graphics_flags _ _ _ _ _ h6
    have e7 := parse_lockstate_flags _ _ _ _ h7
    have e8 := parse_persistent_flags _ _ _ _ h8
    have e9 := parse_network_flags _ _ _ _ _ h9
    have e10 := parse_nbd_flags _ _ _ _ _ g9
    constructor
    · rw [e10.1, e9.1, e8.1, e7.1, e6.1, e5, e4.2.1, e3.2.2.1, e2, e1]
    · rw [e10.2, e9.2, e8.2, e7.2, e6.2, e5, e4.2.2, e3.2.2.2, e2, e1]

/-- What a successful cookie intake went through: the cookie was created, the
document (when one was given) was parsed into it, and the lock check let it
pass unchanged. -/
theorem eatCookie_value (env : Env) (dom : virDomainObj) (cookiein : Option (List Char))
    (flags : Nat) (mig : qemuMigrationCookie)
    (h : (qemuMigrationEatCookie env dom cookiein flags).value = some mig) :
    ∃ mig0, (qemuMigrationCookieNew env dom).value = some mig0 ∧
      ((cookiePresent cookiein = none ∧ mig = mig0) ∨
       (∃ buf doc, cookiePresent cookiein = some buf ∧ buf.getLast? = some NUL ∧
          env.virXMLParseStringCtxt (cString buf) = some doc ∧
          (qemuMigrationCookieXMLParse env mig0 doc flags).value = some mig)) := by
  unfold qemuMigrationEatCookie at h
  cases hc : cookiePresent cookiein with
  | some buf =>
    simp only [hc] at h
    split at h
    · simp [Outcome.fail] at h
    · rename_i hnul
      simp only [Outcome.bind_value] at h
      obtain ⟨mig0, h0, g0⟩ := Option.bind_eq_some.mp h
      obtain ⟨mig1, h1, g1⟩ := Option.bind_eq_some.mp g0
      have e := lockCheck_value _ _ _ g1
      subst e
      refine ⟨mig0, h0, Or.inr ?_⟩
      unfold qemuMigrationCookieXMLParseStr at h1
      split at h1
      · simp [Outcome.failQuiet] at h1
      · rename_i doc hdoc
        exact ⟨buf, doc, rfl, by simpa using hnul, hdoc, h1⟩
  | none =>
    simp only [hc] at h
    simp only [Outcome.bind_value] at h
    obtain ⟨mig0, h0, g0⟩ := Option.bind_eq_some.mp h
    have e := lockCheck_value _ _ _ g0
    subst e
    exact ⟨mig, h0, Or.inl ⟨rfl, rfl⟩⟩

/-- The cookie that `qemuMigrationEatCookie` returns has both flag words empty:
neither the creation nor the parser sets a feature bit. -/
theorem eatCookie_flags_zero (env : Env) (dom : virDomainObj) (cookiein : Option (List Char))
    (flags : Nat) (mig : qemuMigrationCookie)
    (h : (qemuMigrationEatCookie env dom cookiein flags).value = some mig) :
    mig.flags = 0 ∧ mig.flagsMandatory = 0 := by
  obtain ⟨mig0, h0, h1⟩ := eatCookie_value env dom cookiein flags mig h
  have hn := cookieNew_value env dom mig0 h0
  rcases h1 with ⟨_, rfl⟩ | ⟨buf, doc, _, _, _, hp⟩
  · exact ⟨hn.2.2.1, hn.2.2.2.1⟩
  · have hf := parse_value_flags env mig0 mig doc flags hp
    exact ⟨hf.1.trans hn.2.2.1, hf.2.trans hn.2.2.2.1⟩

theorem cookiePresent_some (buf : List Char) (h : buf ≠ []) : cookiePresent (some buf) = some buf := by
  cases buf with
  | nil => exact absurd rfl h
  | cons c cs => rfl

/-- Claim C1 (same-host rejection). When the document parsed from a non-empty
cookie buffer carries the local host name in `hostname`, or a `hostuuid` that
parses to the local host UUID, `qemuMigrationEatCookie` returns no cookie,
whatever the requested flags and the other elements are (and also when the
buffer is not NUL-terminated). -/
theorem eatCookie_rejects_same_host (env : Env) (dom : virDomainObj) (buf : List Char)
    (flags : Nat) (doc : CookieDoc) (hne : buf ≠ [])
    (hdoc : env.virXMLParseStringCtxt (cString buf) = some doc)
    (hsame : (∃ h, doc.hostname = some h ∧ env.hostname = some h) ∨
      (∃ t u, doc.hostuuid = some t ∧ env.virUUIDParse t = some u ∧ env.hostUUID = some u)) :
    (qemuMigrationEatCookie env dom (some buf) flags).value = none := by
  cases hv : (qemuMigrationEatCookie env dom (some buf) flags).value with
  | none => rfl
  | some mig =>
    exfalso
    obtain ⟨mig0, h0, h1⟩ := eatCookie_value env dom (some buf) flags mig hv
    have hn := cookieNew_value env dom mig0 h0
    rw [cookiePresent_some buf hne] at h1
    rcases h1 with ⟨hc, _⟩ | ⟨buf2, doc2, hb, _, hd, hp⟩
    · cases hc
    · cases hb
      rw [hdoc] at hd
      cases hd
      have hh := parse_value_host env mig0 mig doc flags hp
      rcases hsame with ⟨hname, hd1, hd2⟩ | ⟨t, u, hd1, hd2, hd3⟩
      · apply hh.1
        rw [hd1]
        rw [hn.1] at hd2
        exact hd2.symm
      · apply hh.2 t hd1
        rw [hd2]
        rw [hn.2.1] at hd3
        exact hd3.symm


/-- Witness of claim C1: a host named `src` receives a cookie whose `hostname`
is `src`, and gets no cookie. -/
theorem eatCookie_rejects_same_host_witness :
    exampleBuffer ≠ [] ∧
    loopbackEnv.virXMLParseStringCtxt (cString exampleBuffer) = some plainDoc ∧
    (qemuMigrationEatCookie loopbackEnv guestObj (some exampleBuffer) 0).value = none :=
  ⟨by decide, by decide,
    eatCookie_rejects_same_host loopbackEnv guestObj exampleBuffer 0 plainDoc (by decide)
      (by decide) (Or.inl ⟨"src", by decide, by decide⟩)⟩

/-! ### The checks that report without rejecting -/

open VirErrorCode in
/-- Claim C2, on the code: the destination eats, with the lock state and NBD
features requested, a cookie naming the mandatory feature `persistent`. The
parser reports the unsupported feature and the cookie is returned all the
same. -/
theorem eatCookie_keeps_unrequested_feature :
    hasFlag (QEMU_MIGRATION_COOKIE_LOCKSTATE ||| QEMU_MIGRATION_COOKIE_NBD)
      QEMU_MIGRATION_COOKIE_PERSISTENT = false ∧
    (qemuMigrationEatCookie (dstEnv persistentFeatureDoc) guestObj (some exampleBuffer)
        (QEMU_MIGRATION_COOKIE_LOCKSTATE ||| QEMU_MIGRATION_COOKIE_NBD)).errors =
      [⟨VIR_ERR_INTERNAL_ERROR, "Unsupported migration cookie feature persistent"⟩] ∧
    (qemuMigrationEatCookie (dstEnv persistentFeatureDoc) guestObj (some exampleBuffer)
        (QEMU_MIGRATION_COOKIE_LOCKSTATE ||| QEMU_MIGRATION_COOKIE_NBD)).value.isSome = true := by
  decide

open VirErrorCode in
/-- Claim C3, on the code: the cookie carries the UUID of another guest and is
valid otherwise. The parser reports the unexpected UUID and the cookie is
returned all the same. -/
theorem eatCookie_keeps_foreign_uuid :
    exampleUUIDFormat guestObj.defn.uuid = "uuid-guest" ∧
    otherUUIDDoc.uuid = some "uuid-other" ∧
    (qemuMigrationEatCookie (dstEnv otherUUIDDoc) guestObj (some exampleBuffer) 0).errors =
      [⟨VIR_ERR_INTERNAL_ERROR,
        "Incoming cookie data had unexpected UUID uuid-other vs uuid-guest"⟩] ∧
    (qemuMigrationEatCookie (dstEnv otherUUIDDoc) guestObj (some exampleBuffer) 0).value.isSome
      = true := by
  decide

/-- Claim C4, on the code: the cookie carries a lock state of the driver
`virtlockd`, the local lock manager is `sanlock`, and the lock state feature
is requested. Nothing is reported and the cookie is returned with the foreign
driver: the check at the end of `qemuMigrationEatCookie` tests the feature bit
in the flags of the cookie, which no step of the intake sets. -/
theorem eatCookie_skips_lock_driver_check :
    (dstEnv foreignLockDoc).lockManagerName = "sanlock" ∧
    (qemuMigrationEatCookie (dstEnv foreignLockDoc) guestObj (some exampleBuffer)
        QEMU_MIGRATION_COOKIE_LOCKSTATE).errors = [] ∧
    ((qemuMigrationEatCookie (dstEnv foreignLockDoc) guestObj (some exampleBuffer)
        QEMU_MIGRATION_COOKIE_LOCKSTATE).value.map fun mig => (mig.flags, mig.lockDriver)) =
      some (0, some "virtlockd") := by
  decide

/-! ### NUL termination -/

theorem take_succ_append_ne_nil (l : List Char) (n : Nat) : (l ++ [NUL]).take (n + 1) ≠ [] := by
  cases l <;> simp

theorem take_strlen_getLast (l : List Char) :
    ((l ++ [NUL]).take ((l.takeWhile (fun c => c != NUL)).length + 1)).getLast? = some NUL := by
  induction l with
  | nil => simp
  | cons c cs ih =>
    by_cases hc : c = NUL
    · subst hc
      simp [List.takeWhile]
    · have : (c != NUL) = true := by simpa using hc
      simp only [List.takeWhile, this, List.length_cons, List.cons_append, List.take_succ_cons]
      rw [List.getLast?_cons, ih]
      rfl

theorem takeWhile_length_le_length (p : Char → Bool) (l : List Char) :
    (l.takeWhile p).length ≤ l.length := by
  induction l with
  | nil => simp
  | cons c cs ih =>
    simp only [List.takeWhile]
    split
    · simp only [List.length_cons]; omega
    · simp

theorem take_strlen_length (l : List Char) :
    ((l ++ [NUL]).take ((l.takeWhile (fun c => c != NUL)).length + 1)).length =
      (l.takeWhile (fun c => c != NUL)).length + 1 := by
  have := takeWhile_length_le_length (fun c => c != NUL) l
  simp only [List.length_take, List.length_append, List.length_singleton]
  omega

open VirErrorCode in
/-- Claim C5 (termination check). A non-empty incoming buffer whose last
character is not NUL makes `qemuMigrationEatCookie` fail with the termination
error alone, whatever the host, the domain and the flags are: no cookie is
created and nothing is parsed. And when `qemuMigrationBakeCookie` succeeds
with an output, the output holds a text, its length is `strlen + 1`, and the
buffer of that length is not empty and ends with NUL, so that it passes the
check. -/
theorem cookie_termination (env : Env) (dom : virDomainObj) (buf : List Char) (flags : Nat)
    (mig : qemuMigrationCookie) (vm : virDomainObj) (o : Option CookieOut) (bakeFlags : Nat)
    (out : CookieOut) :
    (buf ≠ [] → buf.getLast? ≠ some NUL →
      qemuMigrationEatCookie env dom (some buf) flags =
        Outcome.fail VIR_ERR_INTERNAL_ERROR "Migration cookie was not NULL terminated") ∧
    ((qemuMigrationBakeCookie env mig vm o bakeFlags).ret = 0 →
      (qemuMigrationBakeCookie env mig vm o bakeFlags).out = some out →
      ∃ text b, out.cookieout = some text ∧ out.cookieoutlen = (strlen text : Int) + 1 ∧
        cookieBuffer out = some b ∧ b.length = strlen text + 1 ∧ b ≠ [] ∧
        b.getLast? = some NUL) := by
  constructor
  · intro hne hnul
    unfold qemuMigrationEatCookie
    rw [cookiePresent_some buf hne]
    simp [hnul]
  · intro hret hout
    unfold qemuMigrationBakeCookie at hret hout
    cases o with
    | none => simp at hout
    | some o0 =>
      simp only at hret hout
      by_cases hacc : (qemuMigrationBakeCookie_accumulate env mig vm bakeFlags).ret < 0
      · simp [hacc] at hret
      · simp only [hacc, if_false] at hret hout
        cases htext : qemuMigrationCookieXMLFormatStr env
            (qemuMigrationBakeCookie_accumulate env mig vm bakeFlags).mig with
        | none => simp [htext] at hret
        | some text =>
          simp only [htext] at hout
          cases hout
          have hn : ((strlen text : Int) + 1).toNat = strlen text + 1 := by omega
          refine ⟨text, (text.data ++ [NUL]).take (strlen text + 1), rfl, rfl, ?_, ?_, ?_, ?_⟩
          · simp only [cookieBuffer, Option.map_some', hn]
          · exact take_strlen_length text.data
          · exact take_succ_append_ne_nil _ _
          · exact take_strlen_getLast text.data

open VirErrorCode in
set_option maxRecDepth 4000 in
/-- Witness of claim C5: the one-character buffer `x` is refused, and the
cookie baked by the source host for the example guest is `bakedText` with
length 256, ending with NUL. -/
theorem cookie_termination_witness :
    (qemuMigrationEatCookie srcEnv guestObj (some ['x']) 0 =
      Outcome.fail VIR_ERR_INTERNAL_ERROR "Migration cookie was not NULL terminated") ∧
    (qemuMigrationBakeCookie srcEnv freshCookie guestObj (some ⟨none, 0⟩)
        (QEMU_MIGRATION_COOKIE_LOCKSTATE ||| QEMU_MIGRATION_COOKIE_NBD)).out =
      some ⟨some bakedText, 256⟩ ∧
    (∃ text b, (⟨some bakedText, 256⟩ : CookieOut).cookieout = some text ∧
      (⟨some bakedText, 256⟩ : CookieOut).cookieoutlen = (strlen text : Int) + 1 ∧
      cookieBuffer ⟨some bakedText, 256⟩ = some b ∧ b.length = strlen text + 1 ∧ b ≠ [] ∧
      b.getLast? = some NUL) :=
  ⟨(cookie_termination srcEnv guestObj ['x'] 0 freshCookie guestObj (some ⟨none, 0⟩)
      (QEMU_MIGRATION_COOKIE_LOCKSTATE ||| QEMU_MIGRATION_COOKIE_NBD) ⟨some bakedText, 256⟩).1
      (by decide) (by decide),
    by decide,
    (cookie_termination srcEnv guestObj ['x'] 0 freshCookie guestObj (some ⟨none, 0⟩)
      (QEMU_MIGRATION_COOKIE_LOCKSTATE ||| QEMU_MIGRATION_COOKIE_NBD) ⟨some bakedText, 256⟩).2
      (by decide) (by decide)⟩

/-! ### The round trip of a cookie -/

set_option maxRecDepth 4000 in
/-- Claim C6, refuted on the code: the source host bakes a cookie for the
example guest with the lock state and NBD features; its text is `bakedText`
and holds a `lockstate` element. The destination host eats it with the same
mask and obtains `eatenCookie`, whose lock state and NBD data are filled but
whose flags are empty; formatted again, it gives the identity elements only:
neither the `lockstate` nor the `nbd` element of the original is written. -/
theorem round_trip_drops_subrecords :
    (qemuMigrationBakeCookie srcEnv freshCookie guestObj (some ⟨none, 0⟩)
        (QEMU_MIGRATION_COOKIE_LOCKSTATE ||| QEMU_MIGRATION_COOKIE_NBD)).out =
      some ⟨some bakedText, 256⟩ ∧
    qemuMigrationCookieXMLFormat_lockstate
        (qemuMigrationBakeCookie srcEnv freshCookie guestObj (some ⟨none, 0⟩)
          (QEMU_MIGRATION_COOKIE_LOCKSTATE ||| QEMU_MIGRATION_COOKIE_NBD)).mig =
      "  <lockstate driver='sanlock'>\n    <leases>lease-1</leases>\n  </lockstate>\n" ∧
    (qemuMigrationEatCookie bakedDstEnv guestObj (cookieBuffer ⟨some bakedText, 256⟩)
        (QEMU_MIGRATION_COOKIE_LOCKSTATE ||| QEMU_MIGRATION_COOKIE_NBD)).value =
      some eatenCookie ∧
    qemuMigrationCookieXMLFormat bakedDstEnv eatenCookie =
      some ("<qemu-migration>\n  <name>guest</name>\n  <uuid>uuid-guest</uuid>\n" ++
        "  <hostname>dst</hostname>\n  <hostuuid>uuid-dst</hostuuid>\n</qemu-migration>\n") ∧
    qemuMigrationCookieXMLFormat_lockstate eatenCookie = "" ∧
    qemuMigrationCookieXMLFormat_nbd eatenCookie = "" := by
  decide

theorem format_features_zero (mig : qemuMigrationCookie) (h : mig.flagsMandatory = 0) :
    qemuMigrationCookieXMLFormat_features mig = "" := by
  unfold qemuMigrationCookieXMLFormat_features
  simp [h]
  rfl

/-- Claim C6 as amended. Every cookie returned by `qemuMigrationEatCookie`,
whatever was baked into the buffer and whatever mask is requested, has no
feature bit set (so its feature bits are a subset of the mask), and formatting
it again without adding features writes none of the sub-record elements: the
text is the identity elements followed by the closing tag. -/
theorem eaten_cookie_reemits_identity_only (env : Env) (dom : virDomainObj)
    (cookiein : Option (List Char)) (flags : Nat) (mig : qemuMigrationCookie)
    (h : (qemuMigrationEatCookie env dom cookiein flags).value = some mig) :
    mig.flags = 0 ∧ mig.flagsMandatory = 0 ∧
    qemuMigrationCookieXMLFormat_graphics env mig = "" ∧
    qemuMigrationCookieXMLFormat_lockstate mig = "" ∧
    qemuMigrationCookieXMLFormat_network env mig = "" ∧
    qemuMigrationCookieXMLFormat_nbd mig = "" ∧
    qemuMigrationCookieXMLFormat env mig =
      some (qemuMigrationCookieXMLFormat_identity env mig ++ "</qemu-migration>\n") := by
  have hz := eatCookie_flags_zero env dom cookiein flags mig h
  have hg : qemuMigrationCookieXMLFormat_graphics env mig = "" := by
    simp [qemuMigrationCookieXMLFormat_graphics, hasFlag, hz.1]
  have hl : qemuMigrationCookieXMLFormat_lockstate mig = "" := by
    simp [qemuMigrationCookieXMLFormat_lockstate, hasFlag, hz.1]
  have hn : qemuMigrationCookieXMLFormat_network env mig = "" := by
    simp [qemuMigrationCookieXMLFormat_network, hasFlag, hz.1]
  have hb : qemuMigrationCookieXMLFormat_nbd mig = "" := by
    simp [qemuMigrationCookieXMLFormat_nbd, hasFlag, hz.1]
  refine ⟨hz.1, hz.2, hg, hl, hn, hb, ?_⟩
  unfold qemuMigrationCookieXMLFormat
  simp [hasFlag, hz.1, hg, hl, hn, hb, format_features_zero mig hz.2]

set_option maxRecDepth 4000 in
/-- Witness of claim C6 as amended, on the cookie that the destination host
obtains from `bakedText`. -/
theorem eaten_cookie_reemits_identity_only_witness :
    (qemuMigrationEatCookie bakedDstEnv guestObj (cookieBuffer ⟨some bakedText, 256⟩)
        (QEMU_MIGRATION_COOKIE_LOCKSTATE ||| QEMU_MIGRATION_COOKIE_NBD)).value =
      some eatenCookie ∧
    eatenCookie.flags = 0 ∧ eatenCookie.flagsMandatory = 0 ∧
    qemuMigrationCookieXMLFormat_graphics bakedDstEnv eatenCookie = "" ∧
    qemuMigrationCookieXMLFormat_lockstate eatenCookie = "" ∧
    qemuMigrationCookieXMLFormat_network bakedDstEnv eatenCookie = "" ∧
    qemuMigrationCookieXMLFormat_nbd eatenCookie = "" ∧
    qemuMigrationCookieXMLFormat bakedDstEnv eatenCookie =
      some (qemuMigrationCookieXMLFormat_identity bakedDstEnv eatenCookie ++
        "</qemu-migration>\n") :=
  ⟨by decide,
    eaten_cookie_reemits_identity_only bakedDstEnv guestObj
      (cookieBuffer ⟨some bakedText, 256⟩)
      (QEMU_MIGRATION_COOKIE_LOCKSTATE ||| QEMU_MIGRATION_COOKIE_NBD) eatenCookie (by decide)⟩

/-! ### The policy gate -/

open virDomainHostdevMode virDomainHostdevSubsysType in
theorem isAllowed_hostdevs_result (defn : virDomainDef) :
    (qemuMigrationIsAllowed_hostdevs defn).result = true ↔
      ∀ hostdev ∈ defn.hostdevs,
        hostdev.mode = VIR_DOMAIN_HOSTDEV_MODE_SUBSYS ∧
        hostdev.subsysType = VIR_DOMAIN_HOSTDEV_SUBSYS_TYPE_USB := by
  unfold qemuMigrationIsAllowed_hostdevs
  split
  · rename_i h
    simp only [List.any_eq_true] at h
    obtain ⟨x, hx, hx2⟩ := h
    simp only [Bool.false_eq_true, false_iff, not_forall]
    refine ⟨x, hx, ?_⟩
    intro hc
    simp [hc.1, hc.2] at hx2
  · rename_i h
    simp only [true_iff]
    intro x hx
    simp only [List.any_eq_true, not_exists, not_and] at h
    have := h x hx
    simpa using this

open VirErrorCode virDomainState virDomainHostdevMode virDomainHostdevSubsysType in
/-- Claim C7 (policy gate). With a domain object, `qemuMigrationIsAllowed` answers
true exactly when the domain is not marked for auto destroy, and (when
`remote`) has exactly 0 snapshots and is not, with `abort_on_error` set, paused
on an I/O error, and has no active disk mirror, and every host device is a
subsystem device of type USB. With a definition only, it answers true exactly
when the host device condition holds, whatever `remote` and `abort_on_error`
are. The rules are tried in that order: the error reported is the one of the
first rule that is violated. -/
theorem isAllowed_decision (vm : virDomainObj) (defn : virDomainDef) (remote abort_on_error : Bool) :
    ((qemuMigrationIsAllowed (some vm) defn remote abort_on_error).result = true ↔
      vm.autoDestroyActive = false ∧
      (remote = true → vm.nsnapshots = 0 ∧
        ¬ (abort_on_error = true ∧ vm.state = VIR_DOMAIN_PAUSED ∧
            vm.reason = VIR_DOMAIN_PAUSED_IOERROR)) ∧
      vm.hasDiskMirror = false ∧
      ∀ hostdev ∈ vm.defn.hostdevs,
        hostdev.mode = VIR_DOMAIN_HOSTDEV_MODE_SUBSYS ∧
        hostdev.subsysType = VIR_DOMAIN_HOSTDEV_SUBSYS_TYPE_USB) ∧
    ((qemuMigrationIsAllowed none defn remote abort_on_error).result = true ↔
      ∀ hostdev ∈ defn.hostdevs,
        hostdev.mode = VIR_DOMAIN_HOSTDEV_MODE_SUBSYS ∧
        hostdev.subsysType = VIR_DOMAIN_HOSTDEV_SUBSYS_TYPE_USB) ∧
    (vm.autoDestroyActive = true →
      (qemuMigrationIsAllowed (some vm) defn remote abort_on_error).errors =
        [⟨VIR_ERR_OPERATION_INVALID, "domain is marked for auto destroy"⟩]) ∧
    (vm.autoDestroyActive = false → remote = true → vm.nsnapshots > 0 →
      (qemuMigrationIsAllowed (some vm) defn remote abort_on_error).errors =
        [⟨VIR_ERR_OPERATION_INVALID,
          "cannot migrate domain with " ++ toString vm.nsnapshots ++ " snapshots"⟩]) ∧
    (vm.autoDestroyActive = false → remote = true → vm.nsnapshots = 0 →
      abort_on_error = true → vm.state = VIR_DOMAIN_PAUSED →
      vm.reason = VIR_DOMAIN_PAUSED_IOERROR →
      (qemuMigrationIsAllowed (some vm) defn remote abort_on_error).errors =
        [⟨VIR_ERR_OPERATION_INVALID, "cannot migrate domain with I/O error"⟩]) ∧
    (vm.autoDestroyActive = false →
      (remote = true → vm.nsnapshots = 0 ∧
        ¬ (abort_on_error = true ∧ vm.state = VIR_DOMAIN_PAUSED ∧
            vm.reason = VIR_DOMAIN_PAUSED_IOERROR)) →
      vm.hasDiskMirror = true →
      (qemuMigrationIsAllowed (some vm) defn remote abort_on_error).errors =
        [⟨VIR_ERR_OPERATION_INVALID, "domain has an active block job"⟩]) ∧
    (vm.autoDestroyActive = false →
      (remote = true → vm.nsnapshots = 0 ∧
        ¬ (abort_on_error = true ∧ vm.state = VIR_DOMAIN_PAUSED ∧
            vm.reason = VIR_DOMAIN_PAUSED_IOERROR)) →
      vm.hasDiskMirror = false →
      ¬ (∀ hostdev ∈ vm.defn.hostdevs,
        hostdev.mode = VIR_DOMAIN_HOSTDEV_MODE_SUBSYS ∧
        hostdev.subsysType = VIR_DOMAIN_HOSTDEV_SUBSYS_TYPE_USB) →
      (qemuMigrationIsAllowed (some vm) defn remote abort_on_error).errors =
        [⟨VIR_ERR_OPERATION_INVALID, "domain has assigned non-USB host devices"⟩]) := by
  have hd := isAllowed_hostdevs_result vm.defn
  refine ⟨?_, ?_, ?_, ?_, ?_, ?_, ?_⟩
  · unfold qemuMigrationIsAllowed
    simp only
    cases ha : vm.autoDestroyActive
    · cases remote
      · cases hm : vm.hasDiskMirror <;> simp [hd]
      · rcases lt_trichotomy vm.nsnapshots 0 with h | h | h
        · have h2 : vm.nsnapshots ≠ 0 := by omega
          simp [h, h2]
        · cases abort_on_error
          · cases hm : vm.hasDiskMirror <;> simp [h, hd]
          · by_cases hs : vm.state = VIR_DOMAIN_PAUSED
            · by_cases hr : vm.reason = VIR_DOMAIN_PAUSED_IOERROR
              · simp [h, hs, hr]
              · cases hm : vm.hasDiskMirror <;> simp [h, hs, hr, hd]
            · cases hm : vm.hasDiskMirror <;> simp [h, hs, hd]
        · have h2 : vm.nsnapshots ≠ 0 := by omega
          have h3 : ¬ vm.nsnapshots < 0 := by omega
          simp [h, h2, h3]
    · simp
  · exact isAllowed_hostdevs_result defn
  · intro ha
    simp [qemuMigrationIsAllowed, ha]
  · intro ha hr hn
    have h3 : ¬ vm.nsnapshots < 0 := by omega
    simp [qemuMigrationIsAllowed, ha, hr, hn, h3]
  · intro ha hr hn hab hs hre
    simp [qemuMigrationIsAllowed, ha, hr, hn, hab, hs, hre]
  · intro ha hr hm
    unfold qemuMigrationIsAllowed
    cases remote
    · simp [ha, hm]
    · have h1 := (hr rfl).1
      have h2 := (hr rfl).2
      cases abort_on_error
      · simp [ha, h1, hm]
      · by_cases hs : vm.state = VIR_DOMAIN_PAUSED
        · by_cases hre : vm.reason = VIR_DOMAIN_PAUSED_IOERROR
          · exact absurd ⟨rfl, hs, hre⟩ h2
          · simp [ha, h1, hm, hs, hre]
        · simp [ha, h1, hm, hs]
  · intro ha hr hm hh
    have hres : (qemuMigrationIsAllowed_hostdevs vm.defn).result = false := by
      cases h : (qemuMigrationIsAllowed_hostdevs vm.defn).result
      · rfl
      · exact absurd (hd.mp h) hh
    have herr : (qemuMigrationIsAllowed_hostdevs vm.defn).errors =
        [⟨VIR_ERR_OPERATION_INVALID, "domain has assigned non-USB host devices"⟩] := by
      unfold qemuMigrationIsAllowed_hostdevs at hres ⊢
      split
      · rfl
      · rename_i hx
        simp [hx] at hres
    unfold qemuMigrationIsAllowed
    cases remote
    · simp [ha, hm, herr]
    · have h1 := (hr rfl).1
      have h2 := (hr rfl).2
      cases abort_on_error
      · simp [ha, h1, hm, herr]
      · by_cases hs : vm.state = VIR_DOMAIN_PAUSED
        · by_cases hre : vm.reason = VIR_DOMAIN_PAUSED_IOERROR
          · exact absurd ⟨rfl, hs, hre⟩ h2
          · simp [ha, h1, hm, hs, hre, herr]
        · simp [ha, h1, hm, hs, herr]

open VirErrorCode in
/-- Witness of claim C7: the guest marked for auto destroy, which also has a
PCI host device, is refused for the auto destroy mark, the first rule. -/
theorem isAllowed_decision_witness :
    pciGuestObj.autoDestroyActive = true ∧
    (qemuMigrationIsAllowed (some pciGuestObj) guestDef true false).errors =
      [⟨VIR_ERR_OPERATION_INVALID, "domain is marked for auto destroy"⟩] :=
  ⟨by decide, (isAllowed_decision pciGuestObj guestDef true false).2.2.1 (by decide)⟩

/-! ### The safety gate -/

open virDomainDiskType virDomainDiskCache in
/-- Claim C8, refuted on the code. A writable, unshared file disk with
write-back caching on a shared filesystem (which is not a cluster filesystem)
makes `qemuMigrationIsSafe` answer false, and the same disk on a filesystem
that is not shared makes it answer true: the reverse of what the claim
states. -/
theorem isSafe_shared_fs_is_unsafe :
    (cachedFileDisk "/nfs/disk.img").type = VIR_DOMAIN_DISK_TYPE_FILE ∧
    (cachedFileDisk "/nfs/disk.img").cachemode = VIR_DOMAIN_DISK_CACHE_WRITEBACK ∧
    srcEnv.virStorageFileIsSharedFS "/nfs/disk.img" = 1 ∧
    (qemuMigrationIsSafe srcEnv nfsGuestDef).result = false ∧
    srcEnv.virStorageFileIsSharedFS "/var/disk.img" = 0 ∧
    srcEnv.virStorageFileIsClusterFS "/var/disk.img" = 0 ∧
    (qemuMigrationIsSafe srcEnv localGuestDef).result = true := by
  decide

open virDomainDiskType virDomainDiskProtocol virDomainDiskCache in
theorem isSafe_loop_result (env : Env) (disks : List virDomainDiskDef) :
    (qemuMigrationIsSafe_loop env disks).result = true ↔
      ∀ disk ∈ disks, ∀ src, disk.src = some src → disk.shared = false →
        disk.readonly = false → disk.cachemode ≠ VIR_DOMAIN_DISK_CACHE_DISABLE →
        (disk.type = VIR_DOMAIN_DISK_TYPE_FILE ∧
          (env.virStorageFileIsSharedFS src = 0 ∨
            (0 < env.virStorageFileIsSharedFS src ∧ env.virStorageFileIsClusterFS src = 1))) ∨
        (disk.type = VIR_DOMAIN_DISK_TYPE_NETWORK ∧
          disk.protocol = VIR_DOMAIN_DISK_PROTOCOL_RBD) := by
  induction disks with
  | nil => simp [qemuMigrationIsSafe_loop]
  | cons disk rest ih =>
    unfold qemuMigrationIsSafe_loop
    simp only [List.forall_mem_cons]
    rw [← ih]
    cases hsrc : disk.src with
    | none => simp
    | some src =>
      simp only [Option.some.injEq, forall_eq']
      cases hsh : disk.shared
      · cases hro : disk.readonly
        · by_cases hcm : disk.cachemode = VIR_DOMAIN_DISK_CACHE_DISABLE
          · simp [hcm]
          · by_cases hty : disk.type = VIR_DOMAIN_DISK_TYPE_FILE
            · simp only [hty]
              rcases lt_trichotomy (env.virStorageFileIsSharedFS src) 0 with h | h | h
              · have h2 : env.virStorageFileIsSharedFS src ≠ 0 := by omega
                have h3 : ¬ 0 < env.virStorageFileIsSharedFS src := by omega
                simp [hcm, h, h2, h3]
              · simp [hcm, h]
              · have h2 : env.virStorageFileIsSharedFS src ≠ 0 := by omega
                have h3 : ¬ env.virStorageFileIsSharedFS src < 0 := by omega
                by_cases hcl : env.virStorageFileIsClusterFS src = 1
                · simp [hcm, h, h2, h3, hcl]
                · by_cases hcl2 : env.virStorageFileIsClusterFS src < 0
                  · simp [hcm, h, h2, h3, hcl, hcl2]
                  · simp [hcm, h, h2, h3, hcl, hcl2, qemuMigrationIsSafe_unsafe]
            · by_cases hnet : disk.type = VIR_DOMAIN_DISK_TYPE_NETWORK ∧
                  disk.protocol = VIR_DOMAIN_DISK_PROTOCOL_RBD
              · simp [hcm, hty, hnet]
              · simp [hcm, hty, hnet, qemuMigrationIsSafe_unsafe]
        · simp
      · simp

open virDomainDiskType virDomainDiskProtocol virDomainDiskCache in
/-- Claim C8 as amended. `qemuMigrationIsSafe` answers true exactly when every
disk that has a source, is neither shared nor read-only and whose cache mode
is not disabled is either file-backed on a filesystem that is not shared
(the query answers 0), or file-backed on a shared filesystem that is a
cluster filesystem (the second query answers 1), or network-backed with the
RBD protocol. A query that fails makes the disk unsafe. -/
theorem isSafe_decision (env : Env) (defn : virDomainDef) :
    (qemuMigrationIsSafe env defn).result = true ↔
      ∀ disk ∈ defn.disks, ∀ src, disk.src = some src → disk.shared = false →
        disk.readonly = false → disk.cachemode ≠ VIR_DOMAIN_DISK_CACHE_DISABLE →
        (disk.type = VIR_DOMAIN_DISK_TYPE_FILE ∧
          (env.virStorageFileIsSharedFS src = 0 ∨
            (0 < env.virStorageFileIsSharedFS src ∧ env.virStorageFileIsClusterFS src = 1))) ∨
        (disk.type = VIR_DOMAIN_DISK_TYPE_NETWORK ∧
          disk.protocol = VIR_DOMAIN_DISK_PROTOCOL_RBD) :=
  isSafe_loop_result env defn.disks

/-- Witness of claim C8 as amended: the guest whose cached disk is on a local
filesystem is safe, since every disk meets the condition. -/
theorem isSafe_decision_witness : (qemuMigrationIsSafe srcEnv localGuestDef).result = true :=
  (isSafe_decision srcEnv localGuestDef).mpr (by
    intro disk hdisk src hsrc _ _ _
    simp only [localGuestDef, List.mem_singleton] at hdisk
    subst hdisk
    simp only [cachedFileDisk, Option.some.injEq] at hsrc
    subst hsrc
    exact Or.inl ⟨rfl, Or.inl (by decide)⟩)

/-! ### The phase of the job -/

theorem setPhase_phase (vm : virDomainObj) (p : qemuMigrationJobPhase) :
    (qemuMigrationJobSetPhase vm p).privateData.job.phase =
      if p.toNat < vm.privateData.job.phase.toNat then vm.privateData.job.phase else p := by
  unfold qemuMigrationJobSetPhase
  split <;> simp [qemuDomainObjSetJobPhase]

theorem phaseCall_run_le (vm : virDomainObj) (c : PhaseCall) :
    vm.privateData.job.phase.toNat ≤ (c.run vm).privateData.job.phase.toNat := by
  cases c <;>
    simp only [PhaseCall.run, qemuMigrationJobStartPhase, setPhase_phase] <;>
    split <;> omega

theorem phaseTrace_head (vm : virDomainObj) (calls : List PhaseCall) :
    (phaseTrace vm calls).head? = some vm.privateData.job.phase := by
  cases calls <;> simp [phaseTrace]

theorem phaseTrace_chain (calls : List PhaseCall) : ∀ vm : virDomainObj,
    List.Chain' (fun a b : qemuMigrationJobPhase => a.toNat ≤ b.toNat) (phaseTrace vm calls) := by
  induction calls with
  | nil => intro vm; simp [phaseTrace]
  | cons c cs ih =>
    intro vm
    simp only [phaseTrace]
    rw [List.chain'_cons']
    refine ⟨?_, ih (c.run vm)⟩
    intro y hy
    rw [phaseTrace_head] at hy
    simp only [Option.mem_def, Option.some.injEq] at hy
    subst hy
    exact phaseCall_run_le vm c

/-- Claim C9 (phase monotonicity). `qemuMigrationJobSetPhase` leaves the domain
as it is when the new phase is lower than the current one, and otherwise sets
the phase to the new one; hence along every sequence of calls of
`qemuMigrationJobSetPhase` and `qemuMigrationJobStartPhase` the phase never
decreases. -/
theorem setPhase_monotone (vm : virDomainObj) (p : qemuMigrationJobPhase) (calls : List PhaseCall) :
    (p.toNat < vm.privateData.job.phase.toNat → qemuMigrationJobSetPhase vm p = vm) ∧
    (¬ p.toNat < vm.privateData.job.phase.toNat →
      (qemuMigrationJobSetPhase vm p).privateData.job.phase = p) ∧
    List.Chain' (fun a b : qemuMigrationJobPhase => a.toNat ≤ b.toNat) (phaseTrace vm calls) := by
  refine ⟨?_, ?_, phaseTrace_chain calls vm⟩
  · intro h
    simp [qemuMigrationJobSetPhase, h]
  · intro h
    rw [setPhase_phase, if_neg h]

open qemuMigrationJobPhase in
/-- Witness of claim C9: from the phase `begin3`, a step back to `perform2`
changes nothing and a step to `perform3` is taken. -/
theorem setPhase_monotone_witness :
    (QEMU_MIGRATION_PHASE_PERFORM2.toNat < QEMU_MIGRATION_PHASE_BEGIN3.toNat ∧
      qemuMigrationJobSetPhase (qemuDomainObjSetJobPhase guestObj QEMU_MIGRATION_PHASE_BEGIN3)
        QEMU_MIGRATION_PHASE_PERFORM2 =
        qemuDomainObjSetJobPhase guestObj QEMU_MIGRATION_PHASE_BEGIN3) ∧
    (¬ QEMU_MIGRATION_PHASE_PERFORM3.toNat < QEMU_MIGRATION_PHASE_BEGIN3.toNat ∧
      (qemuMigrationJobSetPhase (qemuDomainObjSetJobPhase guestObj QEMU_MIGRATION_PHASE_BEGIN3)
        QEMU_MIGRATION_PHASE_PERFORM3).privateData.job.phase = QEMU_MIGRATION_PHASE_PERFORM3) :=
  ⟨⟨by decide,
     (setPhase_monotone (qemuDomainObjSetJobPhase guestObj QEMU_MIGRATION_PHASE_BEGIN3)
        QEMU_MIGRATION_PHASE_PERFORM2 []).1 (by decide)⟩,
   ⟨by decide,
     (setPhase_monotone (qemuDomainObjSetJobPhase guestObj QEMU_MIGRATION_PHASE_BEGIN3)
        QEMU_MIGRATION_PHASE_PERFORM3 []).2.1 (by decide)⟩⟩


/-! ### The offline flag combinations in Begin and Prepare -/

theorem lor_eq_zero_iff (x y : Nat) : x ||| y = 0 ↔ x = 0 ∧ y = 0 := by
  constructor
  · intro h
    have hb : ∀ i, (x.testBit i || y.testBit i) = false := by
      intro i
      rw [← Nat.testBit_or, h]
      simp
    constructor <;> apply Nat.eq_of_testBit_eq <;> intro i <;>
      have := hb i <;> simp_all
  · rintro ⟨rfl, rfl⟩
    simp

theorem hasFlag_lor (flags a b : Nat) :
    hasFlag flags (a ||| b) = (hasFlag flags a || hasFlag flags b) := by
  unfold hasFlag
  rw [Nat.and_or_distrib_left, Bool.eq_iff_iff]
  simp only [bne_iff_ne, ne_eq, lor_eq_zero_iff, Bool.or_eq_true]
  tauto

/-- An invalid offline combination is answered by an error of code
`VIR_ERR_OPERATION_INVALID`. -/
theorem offlineFlagsCheck_invalid (flags : Nat) (tunnel : Bool)
    (hoff : hasFlag flags VIR_MIGRATE_OFFLINE = true)
    (hbad : hasFlag flags VIR_MIGRATE_NON_SHARED_DISK = true ∨
      hasFlag flags VIR_MIGRATE_NON_SHARED_INC = true ∨
      hasFlag flags VIR_MIGRATE_PERSIST_DEST = false ∨ tunnel = true) :
    (offlineFlagsCheck flags tunnel).map (fun err => err.code) =
      some VirErrorCode.VIR_ERR_OPERATION_INVALID := by
  unfold offlineFlagsCheck
  rw [hasFlag_lor]
  simp only [hoff, if_true]
  cases h1 : hasFlag flags VIR_MIGRATE_NON_SHARED_DISK
  · cases h2 : hasFlag flags VIR_MIGRATE_NON_SHARED_INC
    · cases h3 : hasFlag flags VIR_MIGRATE_PERSIST_DEST
      · simp
      · cases tunnel
        · simp [h1, h2, h3] at hbad
        · simp
    · simp
  · simp


open VirErrorCode qemuMigrationJobPhase in
set_option maxRecDepth 4000 in
/-- Claim C10, refuted on the code for Begin. The guest is inside an outgoing
migration job with no phase yet and a stored NBD port 49153; Begin is called
with `OFFLINE` and `NON_SHARED_DISK`. It fails with the error of the invalid
combination, but by then the phase is `begin3`, the stored NBD port is 0 and
the cookie `bakedText` is in the output of the caller. -/
theorem beginPhase_offline_side_effects :
    hasFlag (VIR_MIGRATE_OFFLINE ||| VIR_MIGRATE_NON_SHARED_DISK) VIR_MIGRATE_OFFLINE = true ∧
    hasFlag (VIR_MIGRATE_OFFLINE ||| VIR_MIGRATE_NON_SHARED_DISK) VIR_MIGRATE_NON_SHARED_DISK
      = true ∧
    stalePortGuest.privateData.job.phase = QEMU_MIGRATION_PHASE_NONE ∧
    stalePortGuest.privateData.nbdPort = 49153 ∧
    (qemuMigrationBeginPhase srcEnv stalePortGuest none (some ⟨none, 0⟩)
        (VIR_MIGRATE_OFFLINE ||| VIR_MIGRATE_NON_SHARED_DISK)).rv = none ∧
    (qemuMigrationBeginPhase srcEnv stalePortGuest none (some ⟨none, 0⟩)
        (VIR_MIGRATE_OFFLINE ||| VIR_MIGRATE_NON_SHARED_DISK)).errors =
      [⟨VIR_ERR_OPERATION_INVALID, "offline migration cannot handle non-shared storage"⟩] ∧
    (qemuMigrationBeginPhase srcEnv stalePortGuest none (some ⟨none, 0⟩)
        (VIR_MIGRATE_OFFLINE ||| VIR_MIGRATE_NON_SHARED_DISK)).vm.privateData.job.phase =
      QEMU_MIGRATION_PHASE_BEGIN3 ∧
    (qemuMigrationBeginPhase srcEnv stalePortGuest none (some ⟨none, 0⟩)
        (VIR_MIGRATE_OFFLINE ||| VIR_MIGRATE_NON_SHARED_DISK)).vm.privateData.nbdPort = 0 ∧
    (qemuMigrationBeginPhase srcEnv stalePortGuest none (some ⟨none, 0⟩)
        (VIR_MIGRATE_OFFLINE ||| VIR_MIGRATE_NON_SHARED_DISK)).out =
      some ⟨some bakedText, 256⟩ := by
  decide

open VirErrorCode in
/-- Claim C10 as amended. With `OFFLINE` set together with `NON_SHARED_DISK` or
`NON_SHARED_INC`, or without `PERSIST_DEST`, or with a tunnel:
Prepare (`qemuMigrationPrepareAny`) fails and leaves the registered domains
and the output of the caller as they were, and when the clock could be read
its only report is an `OperationInvalid` error;
Begin (`qemuMigrationBeginPhase`) fails as well, but it checks the flags last:
when the capabilities, the two gates, the cookie intake and the cookie output
succeed, the last error reported is `OperationInvalid`, the domain is left
with the phase change and the NBD port reset of the earlier steps, and the
output of the caller holds what the cookie output wrote. -/
theorem offline_flags_rejected (env : Env) (vm : virDomainObj) (xmlin : Option String)
    (out : Option CookieOut) (state : PrepareState) (defn : virDomainDef) (tunnel : Bool)
    (rest : PrepareState → virDomainDef → PrepareResult) (flags : Nat)
    (mig : qemuMigrationCookie)
    (hoff : hasFlag flags VIR_MIGRATE_OFFLINE = true) :
    ((hasFlag flags VIR_MIGRATE_NON_SHARED_DISK = true ∨
        hasFlag flags VIR_MIGRATE_NON_SHARED_INC = true ∨
        hasFlag flags VIR_MIGRATE_PERSIST_DEST = false ∨ tunnel = true) →
      (qemuMigrationPrepareAny env state defn tunnel flags rest).ret = -1 ∧
      (qemuMigrationPrepareAny env state defn tunnel flags rest).state = state ∧
      (env.virTimeMillisNow ≠ none →
        (qemuMigrationPrepareAny env state defn tunnel flags rest).errors.map (fun e => e.code) =
          [VIR_ERR_OPERATION_INVALID])) ∧
    ((hasFlag flags VIR_MIGRATE_NON_SHARED_DISK = true ∨
        hasFlag flags VIR_MIGRATE_NON_SHARED_INC = true ∨
        hasFlag flags VIR_MIGRATE_PERSIST_DEST = false ∨
        hasFlag flags VIR_MIGRATE_TUNNELLED = true) →
      (qemuMigrationBeginPhase env vm xmlin out flags).rv = none ∧
      (env.caps = true →
        (qemuMigrationIsAllowed (some (qemuMigrationBeginPhase_setPhase vm))
          (qemuMigrationBeginPhase_setPhase vm).defn true
          (hasFlag flags VIR_MIGRATE_ABORT_ON_ERROR)).result = true →
        (hasFlag flags VIR_MIGRATE_UNSAFE = true ∨
          (qemuMigrationIsSafe env (qemuMigrationBeginPhase_setPhase vm).defn).result = true) →
        (qemuMigrationEatCookie env
          (qemuMigrationBeginPhase_cookieFlags (qemuMigrationBeginPhase_setPhase vm) flags).1
          none 0).value = some mig →
        ¬ (qemuMigrationBakeCookie env mig
          (qemuMigrationBeginPhase_cookieFlags (qemuMigrationBeginPhase_setPhase vm) flags).1
          out
          (qemuMigrationBeginPhase_cookieFlags (qemuMigrationBeginPhase_setPhase vm) flags).2).ret
            < 0 →
        (qemuMigrationBeginPhase env vm xmlin out flags).errors.getLast?.map (fun e => e.code) =
          some VIR_ERR_OPERATION_INVALID ∧
        (qemuMigrationBeginPhase env vm xmlin out flags).vm =
          (qemuMigrationBeginPhase_cookieFlags (qemuMigrationBeginPhase_setPhase vm) flags).1 ∧
        (qemuMigrationBeginPhase env vm xmlin out flags).out =
          (qemuMigrationBakeCookie env mig
            (qemuMigrationBeginPhase_cookieFlags (qemuMigrationBeginPhase_setPhase vm) flags).1
            out
            (qemuMigrationBeginPhase_cookieFlags
              (qemuMigrationBeginPhase_setPhase vm) flags).2).out)) := by
  constructor
  · intro hbad
    have hc := offlineFlagsCheck_invalid flags tunnel hoff hbad
    unfold qemuMigrationPrepareAny
    cases ht : env.virTimeMillisNow with
    | none => simp
    | some t =>
      cases hchk : offlineFlagsCheck flags tunnel with
      | none => simp [hchk] at hc
      | some err =>
        simp only [hchk, Option.map_some', Option.some.injEq] at hc
        simp [hc]
  · intro hbad
    have hc := offlineFlagsCheck_invalid flags (hasFlag flags VIR_MIGRATE_TUNNELLED) hoff hbad
    cases hchk : offlineFlagsCheck flags (hasFlag flags VIR_MIGRATE_TUNNELLED) with
    | none => simp [hchk] at hc
    | some err =>
      simp only [hchk, Option.map_some', Option.some.injEq] at hc
      constructor
      · unfold qemuMigrationBeginPhase
        simp only [hchk]
        repeat' split
        all_goals rfl
      · intro hcaps hallowed hsafe heat hbake
        unfold qemuMigrationBeginPhase
        simp only [hcaps, hallowed, heat, hchk, hbake]
        have hs : (!hasFlag flags VIR_MIGRATE_UNSAFE &&
            !(qemuMigrationIsSafe env (qemuMigrationBeginPhase_setPhase vm).defn).result)
            = false := by
          rcases hsafe with h | h <;> simp [h]
        simp [hs, hc]

open VirErrorCode in
set_option maxRecDepth 4000 in
/-- Witness of claim C10 as amended: `OFFLINE` without `PERSIST_DEST`, in Prepare
on a destination with no domain and in Begin on the example guest. -/
theorem offline_flags_rejected_witness :
    hasFlag VIR_MIGRATE_OFFLINE VIR_MIGRATE_OFFLINE = true ∧
    hasFlag VIR_MIGRATE_OFFLINE VIR_MIGRATE_PERSIST_DEST = false ∧
    (qemuMigrationPrepareAny srcEnv ⟨[], some ⟨none, 0⟩⟩ guestDef false VIR_MIGRATE_OFFLINE
        (fun st _ => ⟨[], 0, st⟩)).ret = -1 ∧
    (qemuMigrationPrepareAny srcEnv ⟨[], some ⟨none, 0⟩⟩ guestDef false VIR_MIGRATE_OFFLINE
        (fun st _ => ⟨[], 0, st⟩)).state = ⟨[], some ⟨none, 0⟩⟩ ∧
    (qemuMigrationBeginPhase srcEnv stalePortGuest none (some ⟨none, 0⟩)
        VIR_MIGRATE_OFFLINE).rv = none :=
  ⟨by decide, by decide,
    ((offline_flags_rejected srcEnv stalePortGuest none (some ⟨none, 0⟩)
        ⟨[], some ⟨none, 0⟩⟩ guestDef false (fun st _ => ⟨[], 0, st⟩) VIR_MIGRATE_OFFLINE
        freshCookie (by decide)).1 (Or.inr (Or.inr (Or.inl (by decide))))).1,
    ((offline_flags_rejected srcEnv stalePortGuest none (some ⟨none, 0⟩)
        ⟨[], some ⟨none, 0⟩⟩ guestDef false (fun st _ => ⟨[], 0, st⟩) VIR_MIGRATE_OFFLINE
        freshCookie (by decide)).1 (Or.inr (Or.inr (Or.inl (by decide))))).2.1,
    ((offline_flags_rejected srcEnv stalePortGuest none (some ⟨none, 0⟩)
        ⟨[], some ⟨none, 0⟩⟩ guestDef false (fun st _ => ⟨[], 0, st⟩) VIR_MIGRATE_OFFLINE
        freshCookie (by decide)).2 (Or.inr (Or.inr (Or.inl (by decide))))).1⟩

/-! ### The status of the migration and the wait for its completion -/

/-- The commands of `qemuMigrationCancelDriveMirror` never hold `migrate_cancel`. -/
theorem cancelDriveMirror_loop_no_cancel (env : Env) (enterMonitor : Nat → Bool)
    (disks : List virDomainDiskDef) : ∀ i : Nat,
    MonitorCmd.migrateCancel ∉ qemuMigrationCancelDriveMirror_loop env enterMonitor i disks := by
  induction disks with
  | nil => intro i; simp [qemuMigrationCancelDriveMirror_loop]
  | cons disk rest ih =>
    intro i
    unfold qemuMigrationCancelDriveMirror_loop
    split
    · exact ih (i + 1)
    · split
      · simp
      · simp [ih (i + 1)]

open VirErrorCode virDomainJobType virDomainState qemuMonitorMigrationStatusValue in
/-- Claim C11 (divergence of the code): when the liveness probe of the
destination connection answers "not alive" in an iteration of the wait loop
whose status query reports the migration still active, the end of
`qemuMigrationRun` returns -1 and surfaces "Lost connection to destination
host", but no `migrate_cancel` is among the commands sent to the hypervisor:
the wait leaves through `cleanup`, and so does the run. -/
theorem run_lost_destination_sends_no_cancel (env : Env) (obs : RunFinishObs)
    (vm : virDomainObj) (mig : qemuMigrationCookie) (out : Option CookieOut)
    (flags cookieFlags : Nat) (fwdDirect : Bool) (o : WaitObs) (rest : List WaitObs)
    (now : Nat)
    (htunnel : fwdDirect = true ∨ obs.startTunnel.ok = true)
    (hwait : obs.wait = o :: rest)
    (hio : hasFlag flags VIR_MIGRATE_ABORT_ON_ERROR = false ∨ o.state ≠ VIR_DOMAIN_PAUSED ∨
      o.reason ≠ VIR_DOMAIN_PAUSED_IOERROR)
    (hmon : o.status.enterMonitor = true) (hquery : o.status.querySucceeds = true)
    (htime : o.status.timeNow = some now)
    (hactive : o.status.status.status = QEMU_MONITOR_MIGRATION_STATUS_ACTIVE)
    (hdead : o.connIsAlive ≤ 0) :
    ∃ r, qemuMigrationRun_finish env obs vm mig out flags cookieFlags fwdDirect true = some r ∧
      r.ret = -1 ∧
      r.lastError = some ⟨VIR_ERR_OPERATION_FAILED, "Lost connection to destination host"⟩ ∧
      MonitorCmd.migrateCancel ∉ r.cmds := by
  have hstart : (!fwdDirect && !obs.startTunnel.ok) = false := by
    rcases htunnel with h | h <;> simp [h]
  have hnoabort : (hasFlag flags VIR_MIGRATE_ABORT_ON_ERROR &&
      decide (o.state = VIR_DOMAIN_PAUSED) &&
      decide (o.reason = VIR_DOMAIN_PAUSED_IOERROR)) = false := by
    rcases hio with h | h | h <;> simp [h]
  simp only [qemuMigrationRun_finish, hstart, hwait, qemuMigrationWaitForCompletion,
    qemuMigrationWaitForCompletion_loop, setJobType, setJobInfo, hnoabort]
  simp [qemuMigrationUpdateJobStatus, hmon, hquery, htime, hactive, hdead, setJobInfo,
    qemuMigrationWaitForCompletion_cleanup, qemuMigrationRun_cleanup, virSaveLastError,
    virSetError, qemuMigrationCancelDriveMirror, cancelDriveMirror_loop_no_cancel]
  cases fwdDirect <;> simp

open VirErrorCode virDomainJobType virDomainState qemuMonitorMigrationStatusValue in
/-- The divergence of claim C11 on the example guest: the destination is lost
while the migration is active, over a direct connection. -/
theorem run_lost_destination_sends_no_cancel_witness :
    ∃ r, qemuMigrationRun_finish srcEnv lostDestinationObs migratingGuest freshCookie none 0 0
        true true = some r ∧
      r.ret = -1 ∧
      r.lastError = some ⟨VIR_ERR_OPERATION_FAILED, "Lost connection to destination host"⟩ ∧
      MonitorCmd.migrateCancel ∉ r.cmds :=
  run_lost_destination_sends_no_cancel srcEnv lostDestinationObs migratingGuest freshCookie none
    0 0 true (pollObs QEMU_MONITOR_MIGRATION_STATUS_ACTIVE 0) [] 5 (Or.inl rfl) rfl
    (Or.inl (by decide)) rfl rfl rfl rfl (by decide)

/-- The status update does not read the abort request of a concurrent caller
and leaves it as it is. -/
theorem updateJobStatus_asyncAbort (vm : virDomainObj) (job : String) (obs : StatusObs)
    (b : Bool) :
    qemuMigrationUpdateJobStatus (setAsyncAbort vm b) job obs =
      { qemuMigrationUpdateJobStatus vm job obs with
        vm := setAsyncAbort (qemuMigrationUpdateJobStatus vm job obs).vm b } := by
  unfold qemuMigrationUpdateJobStatus
  cases obs.enterMonitor
  · simp
  · cases obs.querySucceeds
    · simp [setAsyncAbort, setJobType, setJobInfo]
    · cases obs.timeNow with
      | none => simp [setAsyncAbort, setJobType, setJobInfo]
      | some now =>
        cases hs : obs.status.status <;> simp [setAsyncAbort, setJobInfo, hs]

/-- The wait loop does not read the abort request of a concurrent caller: with
another value of the flag it takes the same steps. -/
theorem waitLoop_asyncAbort (job : String) (dconn abort_on_error : Bool) (b : Bool)
    (observations : List WaitObs) : ∀ vm : virDomainObj,
    qemuMigrationWaitForCompletion_loop job dconn abort_on_error (setAsyncAbort vm b)
        observations =
      (qemuMigrationWaitForCompletion_loop job dconn abort_on_error vm observations).map
        fun r => { r with vm := setAsyncAbort r.vm b } := by
  induction observations with
  | nil =>
    intro vm
    simp only [qemuMigrationWaitForCompletion_loop]
    by_cases h : vm.privateData.job.info.type = virDomainJobType.VIR_DOMAIN_JOB_UNBOUNDED
    · simp [h, setAsyncAbort]
    · simp [h, setAsyncAbort, qemuMigrationWaitForCompletion_cleanup]
  | cons obs rest ih =>
    intro vm
    simp only [qemuMigrationWaitForCompletion_loop]
    by_cases h : vm.privateData.job.info.type = virDomainJobType.VIR_DOMAIN_JOB_UNBOUNDED
    · have h2 : (setAsyncAbort vm b).privateData.job.info.type =
          virDomainJobType.VIR_DOMAIN_JOB_UNBOUNDED := h
      have hvm : ({ setAsyncAbort vm b with state := obs.state, reason := obs.reason } :
          virDomainObj) =
          setAsyncAbort { vm with state := obs.state, reason := obs.reason } b := rfl
      simp only [h, h2, ne_eq, not_true_eq_false, if_false, hvm]
      split
      · simp [qemuMigrationWaitForCompletion_cancel, setJobType, setJobInfo, setAsyncAbort]
      · rw [updateJobStatus_asyncAbort]
        simp only
        split
        · simp [qemuMigrationWaitForCompletion_cleanup, setAsyncAbort]
        · split
          · simp [qemuMigrationWaitForCompletion_cleanup, setAsyncAbort]
          · rw [ih]
            simp only [Option.map_map]
            rfl
    · have h2 : ¬ (setAsyncAbort vm b).privateData.job.info.type =
          virDomainJobType.VIR_DOMAIN_JOB_UNBOUNDED := h
      simp [h, h2, setAsyncAbort, qemuMigrationWaitForCompletion_cleanup]

open VirErrorCode virDomainJobType virDomainState qemuMonitorMigrationStatusValue in
/-- Claim C12 (counterexample): with the abort request of a concurrent caller
set, the wait loop keeps polling while the hypervisor reports the migration
active, and when the hypervisor then reports it completed the wait returns 0:
no `migrate_cancel` is sent and no error is reported. -/
theorem waitForCompletion_ignores_async_abort :
    abortingGuest.privateData.job.asyncAbort = true ∧
    qemuMigrationWaitForCompletion abortingGuest false false
        [pollObs QEMU_MONITOR_MIGRATION_STATUS_ACTIVE 1] = none ∧
    (qemuMigrationWaitForCompletion abortingGuest false false
        [pollObs QEMU_MONITOR_MIGRATION_STATUS_ACTIVE 1,
         pollObs QEMU_MONITOR_MIGRATION_STATUS_COMPLETED 1]).map
        (fun r => (r.ret, r.errors, r.cmds)) =
      some (0, [], [MonitorCmd.getMigrationStatus, MonitorCmd.getMigrationStatus]) := by
  decide

open VirErrorCode virDomainJobType virDomainState qemuMonitorMigrationStatusValue in
/-- Claim C12 (amended): the wait loop of `qemuMigrationWaitForCompletion` never
examines the abort request: for every domain and every sequence of
observations, with another value of the flag it takes the same steps, with
the same errors, commands and return value, and leaves the flag as it was
given. It leaves on a cancellation only through the hypervisor: in an
iteration entered with the job type UNBOUNDED that the I/O error check does not
end (`abort_on_error` is clear, or the guest is not paused on an I/O error), and
whose status query is answered (the monitor is entered, the query and the
clock succeed) with the status CANCELLED, the loop returns in that iteration
with -1, the OperationAborted error and the job type CANCELLED, having sent
the status query only. -/
theorem waitForCompletion_cancellation (job : String) (dconn abort_on_error : Bool)
    (vm : virDomainObj) :
    (∀ (b : Bool) (observations : List WaitObs),
      qemuMigrationWaitForCompletion_loop job dconn abort_on_error (setAsyncAbort vm b)
          observations =
        (qemuMigrationWaitForCompletion_loop job dconn abort_on_error vm observations).map
          fun r => { r with vm := setAsyncAbort r.vm b }) ∧
    (∀ (obs : WaitObs) (rest : List WaitObs) (now : Nat),
      vm.privateData.job.info.type = VIR_DOMAIN_JOB_UNBOUNDED →
      ¬ (abort_on_error = true ∧ obs.state = VIR_DOMAIN_PAUSED ∧
          obs.reason = VIR_DOMAIN_PAUSED_IOERROR) →
      obs.status.enterMonitor = true → obs.status.querySucceeds = true →
      obs.status.timeNow = some now →
      obs.status.status.status = QEMU_MONITOR_MIGRATION_STATUS_CANCELLED →
      ∃ r, qemuMigrationWaitForCompletion_loop job dconn abort_on_error vm (obs :: rest) =
          some r ∧
        r.ret = -1 ∧
        r.errors = [⟨VIR_ERR_OPERATION_ABORTED, job ++ ": " ++ "canceled by client"⟩] ∧
        r.cmds = [MonitorCmd.getMigrationStatus] ∧
        MonitorCmd.migrateCancel ∉ r.cmds ∧
        r.vm.privateData.job.info.type = VIR_DOMAIN_JOB_CANCELLED) := by
  refine ⟨fun b observations => waitLoop_asyncAbort job dconn abort_on_error b observations vm,
    ?_⟩
  intro obs rest now htop hio hmon hquery htime hcancelled
  have hcond : (abort_on_error && decide (obs.state = VIR_DOMAIN_PAUSED) &&
      decide (obs.reason = VIR_DOMAIN_PAUSED_IOERROR)) = false := by
    cases hb : (abort_on_error && decide (obs.state = VIR_DOMAIN_PAUSED) &&
      decide (obs.reason = VIR_DOMAIN_PAUSED_IOERROR)) with
    | false => rfl
    | true =>
      simp only [Bool.and_eq_true, decide_eq_true_eq] at hb
      exact absurd ⟨hb.1.1, hb.1.2, hb.2⟩ hio
  simp [qemuMigrationWaitForCompletion_loop, htop, hcond, qemuMigrationUpdateJobStatus, hmon,
    hquery, htime, hcancelled, setJobInfo, qemuMigrationWaitForCompletion_cleanup]

open VirErrorCode virDomainJobType virDomainState qemuMonitorMigrationStatusValue in
/-- The amended claim C12 on the example guest, whose abort request is set: the
steps do not depend on the flag, and an iteration whose status query reports
CANCELLED ends the wait with the OperationAborted error. -/
theorem waitForCompletion_cancellation_witness :
    (∀ (b : Bool) (observations : List WaitObs),
      qemuMigrationWaitForCompletion_loop "migration job" false false
          (setAsyncAbort (setJobType abortingGuest VIR_DOMAIN_JOB_UNBOUNDED) b) observations =
        (qemuMigrationWaitForCompletion_loop "migration job" false false
          (setJobType abortingGuest VIR_DOMAIN_JOB_UNBOUNDED) observations).map
          fun r => { r with vm := setAsyncAbort r.vm b }) ∧
    ∃ r, qemuMigrationWaitForCompletion_loop "migration job" false false
        (setJobType abortingGuest VIR_DOMAIN_JOB_UNBOUNDED)
        (pollObs QEMU_MONITOR_MIGRATION_STATUS_CANCELLED 1 :: []) = some r ∧
      r.ret = -1 ∧
      r.errors = [⟨VIR_ERR_OPERATION_ABORTED, "migration job" ++ ": " ++ "canceled by client"⟩] ∧
      r.cmds = [MonitorCmd.getMigrationStatus] ∧
      MonitorCmd.migrateCancel ∉ r.cmds ∧
      r.vm.privateData.job.info.type = VIR_DOMAIN_JOB_CANCELLED :=
  ⟨(waitForCompletion_cancellation "migration job" false false
      (setJobType abortingGuest VIR_DOMAIN_JOB_UNBOUNDED)).1,
    (waitForCompletion_cancellation "migration job" false false
      (setJobType abortingGuest VIR_DOMAIN_JOB_UNBOUNDED)).2
      (pollObs QEMU_MONITOR_MIGRATION_STATUS_CANCELLED 1) [] 5 rfl (by decide) rfl rfl rfl rfl⟩

open VirErrorCode virDomainJobType virDomainState qemuMonitorMigrationStatusValue in
/-- Claim C13 (counterexample): the guest is found paused on an I/O error with
`abort_on_error` set; the wait sends `migrate_cancel`, reports the I/O error and
returns -1, but the job is left with the type FAILED, not CANCELLED. -/
theorem waitForCompletion_io_error_leaves_failed :
    (qemuMigrationWaitForCompletion migratingGuest false true [ioErrorObs]).map
        (fun r => (r.ret, r.errors, r.cmds, r.vm.privateData.job.info.type)) =
      some (-1, [⟨VIR_ERR_OPERATION_FAILED, "migration job: failed due to I/O error"⟩],
        [MonitorCmd.migrateCancel], VIR_DOMAIN_JOB_FAILED) := by
  decide

open VirErrorCode virDomainJobType virDomainState in
/-- Claim C13 (amended): with `abort_on_error` set, when the guest is found paused
with the reason I/O error at the top of an iteration of the wait loop, the
wait ends in that iteration: it sends `migrate_cancel` when the domain is still
active and the monitor can be entered, and nothing else (no status query), it
reports the OperationFailed error naming the I/O error, returns -1 and leaves
the job with the type FAILED. -/
theorem waitForCompletion_io_error_abort (job : String) (dconn : Bool) (vm : virDomainObj)
    (obs : WaitObs) (rest : List WaitObs)
    (htop : vm.privateData.job.info.type = VIR_DOMAIN_JOB_UNBOUNDED)
    (hpaused : obs.state = VIR_DOMAIN_PAUSED)
    (hreason : obs.reason = VIR_DOMAIN_PAUSED_IOERROR) :
    qemuMigrationWaitForCompletion_loop job dconn true vm (obs :: rest) =
      some
        { errors := [⟨VIR_ERR_OPERATION_FAILED, job ++ ": " ++ "failed due to I/O error"⟩],
          ret := -1,
          vm := setJobType { vm with state := obs.state, reason := obs.reason }
            VIR_DOMAIN_JOB_FAILED,
          cmds := if obs.isActive && obs.cancelEnterMonitor then [MonitorCmd.migrateCancel]
                  else [] } := by
  simp [qemuMigrationWaitForCompletion_loop, htop, hpaused, hreason,
    qemuMigrationWaitForCompletion_cancel]

open VirErrorCode virDomainJobType virDomainState in
/-- The amended claim C13 on the example guest. -/
theorem waitForCompletion_io_error_abort_witness :
    qemuMigrationWaitForCompletion_loop "migration job" false true
        (setJobType migratingGuest VIR_DOMAIN_JOB_UNBOUNDED) (ioErrorObs :: []) =
      some
        { errors :=
            [⟨VIR_ERR_OPERATION_FAILED, "migration job" ++ ": " ++ "failed due to I/O error"⟩],
          ret := -1,
          vm := setJobType
            { setJobType migratingGuest VIR_DOMAIN_JOB_UNBOUNDED with
              state := ioErrorObs.state, reason := ioErrorObs.reason }
            VIR_DOMAIN_JOB_FAILED,
          cmds := if ioErrorObs.isActive && ioErrorObs.cancelEnterMonitor then
                    [MonitorCmd.migrateCancel]
                  else [] } :=
  waitForCompletion_io_error_abort "migration job" false
    (setJobType migratingGuest VIR_DOMAIN_JOB_UNBOUNDED) ioErrorObs [] rfl rfl rfl

open VirErrorCode virDomainJobType qemuMonitorMigrationStatusValue in
/-- Claim C14 (counterexample): when the hypervisor reports the status INACTIVE,
the status update leaves the job with the type NONE, not FAILED, and fails. -/
theorem updateJobStatus_inactive_gives_none :
    (qemuMigrationUpdateJobStatus migratingGuest "migration job"
        (pollObs QEMU_MONITOR_MIGRATION_STATUS_INACTIVE 1).status).vm.privateData.job.info.type =
      VIR_DOMAIN_JOB_NONE ∧
    (qemuMigrationUpdateJobStatus migratingGuest "migration job"
        (pollObs QEMU_MONITOR_MIGRATION_STATUS_INACTIVE 1).status).ret = -1 := by
  decide

open VirErrorCode virDomainJobType qemuMonitorMigrationStatusValue in
/-- Claim C14 (amended): after a successful status query (the monitor is entered,
the query and the clock answer), `qemuMigrationUpdateJobStatus` maps the status
of the hypervisor as follows: INACTIVE gives the job type NONE and failure
(OperationFailed, "is not active"); ACTIVE leaves the job type as it was
(UNBOUNDED inside the wait loop), copies the byte counters (the data counters
being the sums of the memory and disk counters), stores the elapsed time and
returns success; COMPLETED gives COMPLETED and success; ERROR gives FAILED and
failure (OperationFailed); CANCELLED gives CANCELLED and failure
(OperationAborted). In every case, whatever the status, the elapsed time
stored in the job is the clock minus the start of the job. -/
theorem updateJobStatus_mapping (vm : virDomainObj) (job : String) (obs : StatusObs)
    (now : Nat)
    (hmon : obs.enterMonitor = true) (hquery : obs.querySucceeds = true)
    (htime : obs.timeNow = some now) :
    (obs.status.status = QEMU_MONITOR_MIGRATION_STATUS_INACTIVE →
      (qemuMigrationUpdateJobStatus vm job obs).vm.privateData.job.info.type =
        VIR_DOMAIN_JOB_NONE ∧
      (qemuMigrationUpdateJobStatus vm job obs).ret = -1 ∧
      (qemuMigrationUpdateJobStatus vm job obs).errors =
        [⟨VIR_ERR_OPERATION_FAILED, job ++ ": " ++ "is not active"⟩]) ∧
    (obs.status.status = QEMU_MONITOR_MIGRATION_STATUS_ACTIVE →
      (qemuMigrationUpdateJobStatus vm job obs).vm.privateData.job.info =
        { type := vm.privateData.job.info.type,
          timeElapsed := ullSub now vm.privateData.job.start,
          dataTotal := ullAdd obs.status.ram_total obs.status.disk_total,
          dataProcessed := ullAdd obs.status.ram_transferred obs.status.disk_transferred,
          dataRemaining := ullAdd obs.status.ram_remaining obs.status.disk_remaining,
          memTotal := obs.status.ram_total,
          memProcessed := obs.status.ram_transferred,
          memRemaining := obs.status.ram_remaining,
          fileTotal := obs.status.disk_total,
          fileProcessed := obs.status.disk_transferred,
          fileRemaining := obs.status.disk_remaining } ∧
      (qemuMigrationUpdateJobStatus vm job obs).ret = 0 ∧
      (qemuMigrationUpdateJobStatus vm job obs).errors = []) ∧
    (obs.status.status = QEMU_MONITOR_MIGRATION_STATUS_COMPLETED →
      (qemuMigrationUpdateJobStatus vm job obs).vm.privateData.job.info.type =
        VIR_DOMAIN_JOB_COMPLETED ∧
      (qemuMigrationUpdateJobStatus vm job obs).ret = 0 ∧
      (qemuMigrationUpdateJobStatus vm job obs).errors = []) ∧
    (obs.status.status = QEMU_MONITOR_MIGRATION_STATUS_ERROR →
      (qemuMigrationUpdateJobStatus vm job obs).vm.privateData.job.info.type =
        VIR_DOMAIN_JOB_FAILED ∧
      (qemuMigrationUpdateJobStatus vm job obs).ret = -1 ∧
      (qemuMigrationUpdateJobStatus vm job obs).errors =
        [⟨VIR_ERR_OPERATION_FAILED, job ++ ": " ++ "unexpectedly failed"⟩]) ∧
    (obs.status.status = QEMU_MONITOR_MIGRATION_STATUS_CANCELLED →
      (qemuMigrationUpdateJobStatus vm job obs).vm.privateData.job.info.type =
        VIR_DOMAIN_JOB_CANCELLED ∧
      (qemuMigrationUpdateJobStatus vm job obs).ret = -1 ∧
      (qemuMigrationUpdateJobStatus vm job obs).errors =
        [⟨VIR_ERR_OPERATION_ABORTED, job ++ ": " ++ "canceled by client"⟩]) ∧
    (qemuMigrationUpdateJobStatus vm job obs).vm.privateData.job.info.timeElapsed =
      ullSub now vm.privateData.job.start := by
  refine ⟨?_, ?_, ?_, ?_, ?_, ?_⟩
  · intro hs
    simp [qemuMigrationUpdateJobStatus, hmon, hquery, htime, hs, setJobInfo]
  · intro hs
    simp [qemuMigrationUpdateJobStatus, hmon, hquery, htime, hs, setJobInfo]
  · intro hs
    simp [qemuMigrationUpdateJobStatus, hmon, hquery, htime, hs, setJobInfo]
  · intro hs
    simp [qemuMigrationUpdateJobStatus, hmon, hquery, htime, hs, setJobInfo]
  · intro hs
    simp [qemuMigrationUpdateJobStatus, hmon, hquery, htime, hs, setJobInfo]
  · cases hs : obs.status.status <;>
      simp [qemuMigrationUpdateJobStatus, hmon, hquery, htime, hs, setJobInfo]

open VirErrorCode virDomainJobType qemuMonitorMigrationStatusValue in
/-- The amended claim C14 on the example guest, for a status query that reports
the migration active at the time 5: the counters are copied, the update
succeeds and the elapsed time is the clock minus the start of the job. -/
theorem updateJobStatus_mapping_witness :
    (qemuMigrationUpdateJobStatus migratingGuest "migration job"
        (pollObs QEMU_MONITOR_MIGRATION_STATUS_ACTIVE 1).status).ret = 0 ∧
    (qemuMigrationUpdateJobStatus migratingGuest "migration job"
        (pollObs QEMU_MONITOR_MIGRATION_STATUS_ACTIVE 1).status).vm.privateData.job.info.memProcessed =
      10 ∧
    (qemuMigrationUpdateJobStatus migratingGuest "migration job"
        (pollObs QEMU_MONITOR_MIGRATION_STATUS_ACTIVE 1).status).vm.privateData.job.info.timeElapsed =
      ullSub 5 migratingGuest.privateData.job.start :=
  have h := updateJobStatus_mapping migratingGuest "migration job"
    (pollObs QEMU_MONITOR_MIGRATION_STATUS_ACTIVE 1).status 5 rfl rfl rfl
  ⟨(h.2.1 rfl).2.1, by rw [(h.2.1 rfl).1]; rfl, h.2.2.2.2.2⟩

/-! ### The storage copy -/

/-- The rollback of `qemuMigrationDriveMirror` entered with `lastGood` only
aborts block jobs of disks whose index is below `lastGood`. -/
theorem rollback_below_lastGood (env : Env) (obs : MirrorObs) (disks : List virDomainDiskDef)
    (cmd : MonitorCmd) : ∀ lastGood : Nat,
    cmd ∈ qemuMigrationDriveMirror_rollback env obs disks lastGood →
    ∃ j disk, j < lastGood ∧ disks.get? j = some disk ∧ diskSkipped disk = false ∧
      cmd = MonitorCmd.blockJobAbort (diskAlias env disk) := by
  intro lastGood
  induction lastGood with
  | zero => intro h; simp [qemuMigrationDriveMirror_rollback] at h
  | succ n ih =>
    intro h
    have step : cmd ∈ qemuMigrationDriveMirror_rollback env obs disks n →
        ∃ j disk, j < n + 1 ∧ disks.get? j = some disk ∧ diskSkipped disk = false ∧
          cmd = MonitorCmd.blockJobAbort (diskAlias env disk) := by
      intro h2
      obtain ⟨j, disk, hj, hd, hs, hc⟩ := ih h2
      exact ⟨j, disk, Nat.lt_succ_of_lt hj, hd, hs, hc⟩
    unfold qemuMigrationDriveMirror_rollback at h
    cases hget : disks.get? n with
    | none => rw [hget] at h; exact step h
    | some disk =>
      rw [hget] at h
      simp only at h
      by_cases hs : diskSkipped disk = true
      · rw [if_pos hs] at h; exact step h
      · rw [if_neg hs] at h
        by_cases ha : obs.abortEnterMonitor n = true
        · rw [if_pos ha] at h
          rcases List.mem_cons.mp h with h1 | h1
          · exact ⟨n, disk, Nat.lt_succ_self n, hget, by simpa using hs, h1⟩
          · exact step h1
        · rw [if_neg ha] at h; exact step h

set_option maxRecDepth 8000 in
open MonitorCmd in
/-- Claim C15 (divergence of the code): the rollback of `qemuMigrationDriveMirror`
misses the last mirror that was started. With one disk whose mirror was
started and whose block job query then fails, the function fails and sends no
block-job abort at all; with two disks, when the query fails for the second
one, the job of the first disk is aborted and the job of the second disk, the
one being polled, is not. In general the rollback entered with `lastGood`
(the index of the last disk whose mirror was started) only aborts jobs of
disks with an index below `lastGood`. -/
theorem driveMirror_rollback_misses_last_started :
    (qemuMigrationDriveMirror srcEnv (mirrorFailingAt 0) oneDiskGuest nbdCookie "dst" 0
        QEMU_MONITOR_MIGRATE_NON_SHARED_DISK).map (fun r => (r.ret, r.cmds)) =
      some (-1, [driveMirror "drive-virtio-disk0" "nbd:dst:49153:exportname=drive-virtio-disk0" 0
                   VIR_DOMAIN_BLOCK_REBASE_REUSE_EXT,
                 blockJobInfo "drive-virtio-disk0"]) ∧
    (qemuMigrationDriveMirror srcEnv (mirrorFailingAt 1) twoDiskGuest nbdCookie "dst" 0
        QEMU_MONITOR_MIGRATE_NON_SHARED_DISK).map (fun r => (r.ret, r.cmds)) =
      some (-1, [driveMirror "drive-virtio-disk0" "nbd:dst:49153:exportname=drive-virtio-disk0" 0
                   VIR_DOMAIN_BLOCK_REBASE_REUSE_EXT,
                 blockJobInfo "drive-virtio-disk0",
                 driveMirror "drive-virtio-disk1" "nbd:dst:49153:exportname=drive-virtio-disk1" 0
                   VIR_DOMAIN_BLOCK_REBASE_REUSE_EXT,
                 blockJobInfo "drive-virtio-disk1",
                 blockJobAbort "drive-virtio-disk0"]) ∧
    (∀ (env : Env) (obs : MirrorObs) (disks : List virDomainDiskDef) (lastGood : Nat)
        (cmd : MonitorCmd),
      cmd ∈ qemuMigrationDriveMirror_rollback env obs disks lastGood →
      ∃ j disk, j < lastGood ∧ disks.get? j = some disk ∧ diskSkipped disk = false ∧
        cmd = blockJobAbort (diskAlias env disk)) := by
  refine ⟨by decide, by decide, ?_⟩
  intro env obs disks lastGood cmd h
  exact rollback_below_lastGood env obs disks cmd lastGood h

/-- A wait loop whose observations lead to `cur == end` ends completed. -/
theorem poll_completed_of_reaches (env : Env) (vm : virDomainObj) (device : String)
    (polls : List MirrorPollObs) (h : mirrorPollReaches polls = true) :
    ∃ cmds, qemuMigrationDriveMirror_poll env vm device polls = MirrorPollEnd.completed cmds := by
  induction polls with
  | nil => simp [mirrorPollReaches] at h
  | cons p rest ih =>
    simp only [mirrorPollReaches, Bool.and_eq_true, Bool.or_eq_true, decide_eq_true_eq,
      Bool.not_eq_true'] at h
    obtain ⟨⟨⟨hmon, habort⟩, hjob⟩, hend⟩ := h
    unfold qemuMigrationDriveMirror_poll
    by_cases hce : p.cur = p.end
    · exact ⟨[MonitorCmd.blockJobInfo device], by simp [hmon, habort, hjob, hce]⟩
    · rcases hend with h1 | h1
      · exact absurd h1 hce
      · obtain ⟨cmds, hc⟩ := ih h1
        exact ⟨MonitorCmd.blockJobInfo device :: cmds, by simp [hmon, habort, hjob, hce, hc]⟩

/-- When every disk that is not skipped has its mirror started and reaches
`cur == end`, the loop over the disks ends with every disk copied. -/
theorem loop_copied_of_completes (env : Env) (obs : MirrorObs) (vm : virDomainObj)
    (hoststr : String) (port : Int) (speed mirror_flags : Nat)
    (disks : List virDomainDiskDef) : ∀ i lastGood : Nat,
    mirrorCompletes obs i disks = true →
    ∃ cmds, qemuMigrationDriveMirror_loop env obs vm hoststr port speed mirror_flags i lastGood
      disks = MirrorLoopEnd.copied cmds := by
  induction disks with
  | nil => intro i lastGood _; exact ⟨[], by simp [qemuMigrationDriveMirror_loop]⟩
  | cons disk rest ih =>
    intro i lastGood h
    simp only [mirrorCompletes, Bool.and_eq_true, Bool.or_eq_true] at h
    obtain ⟨hdisk, hrest⟩ := h
    unfold qemuMigrationDriveMirror_loop
    by_cases hs : diskSkipped disk = true
    · rw [if_pos hs]; exact ih (i + 1) lastGood hrest
    · rw [if_neg hs]
      rcases hdisk with h1 | h1
      · exact absurd h1 hs
      · obtain ⟨⟨hmon, hstart⟩, hpoll⟩ := h1
        obtain ⟨cmds, hc⟩ := poll_completed_of_reaches env vm (diskAlias env disk) _ hpoll
        obtain ⟨cmds2, hc2⟩ := ih (i + 1) i hrest
        exact ⟨MonitorCmd.driveMirror (diskAlias env disk)
            ("nbd:" ++ hoststr ++ ":" ++ toString port ++ ":exportname=" ++ diskAlias env disk)
            speed mirror_flags :: (cmds ++ cmds2), by simp [hmon, hstart, hc, hc2]⟩

/-- The bits of a flag word of 32 bits after `flags &= ~(NON_SHARED_DISK |
NON_SHARED_INC)`: the two storage bits (of index 1 and 2) are cleared and every
other bit is unchanged. -/
theorem clearFlags_storage_bits (flags : Nat) (hflags : flags < 2 ^ 32) (k : Nat) :
    (clearFlags flags
        (QEMU_MONITOR_MIGRATE_NON_SHARED_DISK ||| QEMU_MONITOR_MIGRATE_NON_SHARED_INC)).testBit k =
      (flags.testBit k && decide (k ≠ 1) && decide (k ≠ 2)) := by
  have hmask : (2 ^ 32 - 1) ^^^
      (QEMU_MONITOR_MIGRATE_NON_SHARED_DISK ||| QEMU_MONITOR_MIGRATE_NON_SHARED_INC) =
      4294967289 := by decide
  unfold clearFlags
  rw [hmask, Nat.testBit_and]
  have hconst : ∀ j, j < 32 →
      Nat.testBit 4294967289 j = (decide (j ≠ 1) && decide (j ≠ 2)) := by decide
  by_cases hk : k < 32
  · rw [hconst k hk, Bool.and_assoc]
  · have hfalse : flags.testBit k = false := by
      apply Nat.testBit_lt_two_pow
      exact lt_of_lt_of_le hflags (Nat.pow_le_pow_right (by decide) (Nat.le_of_not_lt hk))
    simp [hfalse]

/-- The test of a flag of one bit is the test of that bit. -/
theorem hasFlag_one_shiftLeft (flags k : Nat) : hasFlag flags (1 <<< k) = flags.testBit k := by
  unfold hasFlag
  rw [Nat.one_shiftLeft, Nat.and_two_pow]
  cases flags.testBit k <;> simp

open VirErrorCode in
/-- Claim C16: `qemuMigrationDriveMirror` and the flag word of the `migrate`
command (an `unsigned int`). When it is entered with NON_SHARED_DISK or
NON_SHARED_INC set and the cookie carries NBD data, and every disk that is not
skipped has its mirror started and reaches `cur == end`, it returns 0 with the
two bits cleared and every other bit unchanged. Whenever it returns, if it
fails, or neither bit was set, or the cookie has no NBD data, the flag word is
the one it was given. -/
theorem driveMirror_clears_storage_bits_only (env : Env) (obs : MirrorObs) (vm : virDomainObj)
    (mig : qemuMigrationCookie) (host : String) (speed : Nat) (migrate_flags : Nat)
    (hword : migrate_flags < 2 ^ 32) :
    (hasFlag migrate_flags
        (QEMU_MONITOR_MIGRATE_NON_SHARED_DISK ||| QEMU_MONITOR_MIGRATE_NON_SHARED_INC) = true →
      mig.nbd ≠ none → mirrorCompletes obs 0 vm.defn.disks = true →
      ∃ r, qemuMigrationDriveMirror env obs vm mig host speed migrate_flags = some r ∧
        r.ret = 0 ∧ r.errors = [] ∧
        hasFlag r.migrate_flags QEMU_MONITOR_MIGRATE_NON_SHARED_DISK = false ∧
        hasFlag r.migrate_flags QEMU_MONITOR_MIGRATE_NON_SHARED_INC = false ∧
        ∀ k, k ≠ 1 → k ≠ 2 → r.migrate_flags.testBit k = migrate_flags.testBit k) ∧
    (∀ r, qemuMigrationDriveMirror env obs vm mig host speed migrate_flags = some r →
      (r.ret ≠ 0 ∨
        hasFlag migrate_flags
          (QEMU_MONITOR_MIGRATE_NON_SHARED_DISK ||| QEMU_MONITOR_MIGRATE_NON_SHARED_INC) = false ∨
        mig.nbd = none) →
      r.migrate_flags = migrate_flags) := by
  constructor
  · intro hbits hnbd hall
    unfold qemuMigrationDriveMirror
    rw [if_neg (by simp [hbits])]
    cases hn : mig.nbd with
    | none => exact absurd hn hnbd
    | some nbd =>
      simp only
      obtain ⟨cmds, hc⟩ := loop_copied_of_completes env obs vm
        (if host.data.contains ':' then "[" ++ host ++ "]" else host) nbd.port speed
        (if hasFlag migrate_flags QEMU_MONITOR_MIGRATE_NON_SHARED_INC then
          VIR_DOMAIN_BLOCK_REBASE_REUSE_EXT ||| VIR_DOMAIN_BLOCK_REBASE_SHALLOW
        else VIR_DOMAIN_BLOCK_REBASE_REUSE_EXT) vm.defn.disks 0 0 hall
      rw [hc]
      refine ⟨_, rfl, rfl, rfl, ?_, ?_, ?_⟩
      · show hasFlag _ (1 <<< 1) = false
        rw [hasFlag_one_shiftLeft, clearFlags_storage_bits _ hword]; simp
      · show hasFlag _ (1 <<< 2) = false
        rw [hasFlag_one_shiftLeft, clearFlags_storage_bits _ hword]; simp
      · intro k h1 h2
        show (clearFlags _ _).testBit k = _
        rw [clearFlags_storage_bits _ hword]; simp [h1, h2]
  · intro r hr hcase
    unfold qemuMigrationDriveMirror at hr
    by_cases hbits : hasFlag migrate_flags
        (QEMU_MONITOR_MIGRATE_NON_SHARED_DISK ||| QEMU_MONITOR_MIGRATE_NON_SHARED_INC) = false
    · rw [if_pos hbits] at hr
      cases hr; rfl
    · rw [if_neg hbits] at hr
      cases hn : mig.nbd with
      | none => rw [hn] at hr; cases hr; rfl
      | some nbd =>
        rw [hn] at hr
        simp only at hr
        split at hr
        · cases hr
        · cases hr
          rcases hcase with h | h | h
          · exact absurd rfl h
          · exact absurd h hbits
          · rw [hn] at h; cases h
        · cases hr; rfl

set_option maxRecDepth 8000 in
/-- Claim C16 on the example guest with two disks: the mirrors complete and the
flag word loses NON_SHARED_DISK and keeps BACKGROUND. -/
theorem driveMirror_clears_storage_bits_only_witness :
    ∃ r, qemuMigrationDriveMirror srcEnv mirrorAllGood twoDiskGuest nbdCookie "dst" 0
        (QEMU_MONITOR_MIGRATE_BACKGROUND ||| QEMU_MONITOR_MIGRATE_NON_SHARED_DISK) = some r ∧
      r.ret = 0 ∧ r.errors = [] ∧
      hasFlag r.migrate_flags QEMU_MONITOR_MIGRATE_NON_SHARED_DISK = false ∧
      hasFlag r.migrate_flags QEMU_MONITOR_MIGRATE_NON_SHARED_INC = false ∧
      ∀ k, k ≠ 1 → k ≠ 2 → r.migrate_flags.testBit k =
        (QEMU_MONITOR_MIGRATE_BACKGROUND ||| QEMU_MONITOR_MIGRATE_NON_SHARED_DISK).testBit k :=
  (driveMirror_clears_storage_bits_only srcEnv mirrorAllGood twoDiskGuest nbdCookie "dst" 0
    (QEMU_MONITOR_MIGRATE_BACKGROUND ||| QEMU_MONITOR_MIGRATE_NON_SHARED_DISK)
    (by decide)).1 (by decide) (by decide) (by decide)

/-! ### The NBD server of the destination -/

/-- The disks that `qemuMigrationStartNBDServer` exports: those that are not
shared, not read-only and have a source. -/
theorem exported_disks_spec (disk : virDomainDiskDef) :
    diskSkipped disk = false ↔ disk.shared = false ∧ disk.readonly = false ∧ disk.src ≠ none := by
  unfold diskSkipped
  cases disk.shared <;> cases disk.readonly <;> cases disk.src <;> simp

/-- The loop of `qemuMigrationStartNBDServer` entered with a port already
acquired: it acquires and starts nothing; when it runs to its end it has kept
the port and published one export per disk that is not skipped, in order;
when it is left early the port is the one it was entered with. -/
theorem nbdLoop_with_port (env : Env) (obs : NBDServerObs) (host : String)
    (disks : List virDomainDiskDef) : ∀ (i port : Nat), port ≠ 0 →
    (qemuMigrationStartNBDServer_loop env obs host i port disks).acquireCalls = [] ∧
    (qemuMigrationStartNBDServer_loop env obs host i port disks).port = port ∧
    (∀ h p, MonitorCmd.nbdServerStart h p ∉
      (qemuMigrationStartNBDServer_loop env obs host i port disks).cmds) ∧
    ((qemuMigrationStartNBDServer_loop env obs host i port disks).completed = true →
      (qemuMigrationStartNBDServer_loop env obs host i port disks).cmds =
        (disks.filter (fun disk => !diskSkipped disk)).map
          (fun disk => MonitorCmd.nbdServerAdd (diskAlias env disk) true)) := by
  induction disks with
  | nil => intro i port _; simp [qemuMigrationStartNBDServer_loop]
  | cons disk rest ih =>
    intro i port hport
    unfold qemuMigrationStartNBDServer_loop
    by_cases hs : diskSkipped disk = true
    · rw [if_pos hs]
      have := ih (i + 1) port hport
      simpa [List.filter, hs] using this
    · have hs2 : diskSkipped disk = false := by simpa using hs
      rw [if_neg hs]
      by_cases hmon : obs.enterMonitor i = false
      · rw [if_pos hmon]; simp
      · rw [if_neg hmon, if_neg hport]
        by_cases hadd : obs.nbdServerAdd (diskAlias env disk) = false
        · rw [if_pos hadd]; simp
        · rw [if_neg hadd]
          obtain ⟨h1, h2, h3, h4⟩ := ih (i + 1) port hport
          refine ⟨h1, h2, ?_, ?_⟩
          · intro h p; simp [h3 h p]
          · intro hc
            simp [List.filter, hs2, h4 hc]

/-- The loop of `qemuMigrationStartNBDServer` entered without a port, under the
contract of the allocator (a successful acquire hands out a port that is not
0): it acquires at most once and starts the server at most once, bound to
`host`; when it runs to its end, the commands are the start of the server (when
a disk is not skipped) followed by one export per disk that is not skipped,
and the port is the acquired one (0 when every disk is skipped); when it is
left after a successful acquire the port is the acquired one. -/
theorem nbdLoop_without_port (env : Env) (obs : NBDServerObs) (host : String)
    (hcontract : ∀ i, (obs.acquire i).1 = true → (obs.acquire i).2 ≠ 0)
    (disks : List virDomainDiskDef) : ∀ i : Nat,
    (qemuMigrationStartNBDServer_loop env obs host i 0 disks).acquireCalls.length ≤ 1 ∧
    ((qemuMigrationStartNBDServer_loop env obs host i 0 disks).cmds.filter
      (fun cmd => match cmd with
        | MonitorCmd.nbdServerStart _ _ => true
        | _ => false)).length ≤ 1 ∧
    (∀ h p, MonitorCmd.nbdServerStart h p ∈
        (qemuMigrationStartNBDServer_loop env obs host i 0 disks).cmds →
      h = host ∧
      (qemuMigrationStartNBDServer_loop env obs host i 0 disks).acquireCalls = [(true, p)]) ∧
    (∀ a, a ∈ (qemuMigrationStartNBDServer_loop env obs host i 0 disks).acquireCalls →
      a.1 = true → (qemuMigrationStartNBDServer_loop env obs host i 0 disks).port = a.2) ∧
    ((qemuMigrationStartNBDServer_loop env obs host i 0 disks).completed = true →
      (disks.filter (fun disk => !diskSkipped disk) = [] →
        (qemuMigrationStartNBDServer_loop env obs host i 0 disks).port = 0 ∧
        (qemuMigrationStartNBDServer_loop env obs host i 0 disks).cmds = [] ∧
        (qemuMigrationStartNBDServer_loop env obs host i 0 disks).acquireCalls = []) ∧
      (disks.filter (fun disk => !diskSkipped disk) ≠ [] →
        (qemuMigrationStartNBDServer_loop env obs host i 0 disks).acquireCalls =
          [(true, (qemuMigrationStartNBDServer_loop env obs host i 0 disks).port)] ∧
        (qemuMigrationStartNBDServer_loop env obs host i 0 disks).cmds =
          MonitorCmd.nbdServerStart host
              (qemuMigrationStartNBDServer_loop env obs host i 0 disks).port ::
            (disks.filter (fun disk => !diskSkipped disk)).map
              (fun disk => MonitorCmd.nbdServerAdd (diskAlias env disk) true))) := by
  induction disks with
  | nil => intro i; simp [qemuMigrationStartNBDServer_loop]
  | cons disk rest ih =>
    intro i
    unfold qemuMigrationStartNBDServer_loop
    by_cases hs : diskSkipped disk = true
    · rw [if_pos hs]
      have := ih (i + 1)
      simpa [List.filter, hs] using this
    · have hs2 : diskSkipped disk = false := by simpa using hs
      rw [if_neg hs]
      by_cases hmon : obs.enterMonitor i = false
      · rw [if_pos hmon]; simp
      · rw [if_neg hmon, if_pos rfl]
        by_cases hacq : (obs.acquire i).1 = false
        · rw [if_pos hacq]
          refine ⟨by simp, by simp, by simp, ?_, by simp⟩
          intro a ha _
          simp only [List.mem_singleton] at ha
          rw [ha]
        · have hacq2 : (obs.acquire i).1 = true := by simpa using hacq
          have hpair : ∀ p, p = (obs.acquire i).2 → [obs.acquire i] = [(true, p)] := by
            intro p hp
            rw [hp, ← hacq2]
          have hport : ∀ a, a ∈ [obs.acquire i] → a.1 = true → (obs.acquire i).2 = a.2 := by
            intro a ha _
            simp only [List.mem_singleton] at ha
            rw [ha]
          rw [if_neg hacq]
          by_cases hstart : obs.nbdServerStart host (obs.acquire i).2 = false
          · rw [if_pos hstart]
            refine ⟨by simp, by simp, ?_, hport, by simp⟩
            intro h p hmem
            simp only [List.mem_singleton, MonitorCmd.nbdServerStart.injEq] at hmem
            exact ⟨hmem.1, hpair p hmem.2⟩
          · rw [if_neg hstart]
            by_cases hadd : obs.nbdServerAdd (diskAlias env disk) = false
            · rw [if_pos hadd]
              refine ⟨by simp, by simp, ?_, hport, by simp⟩
              intro h p hmem
              simp only [List.mem_cons, MonitorCmd.nbdServerStart.injEq, reduceCtorEq,
                List.not_mem_nil, or_false] at hmem
              exact ⟨hmem.1, hpair p hmem.2⟩
            · rw [if_neg hadd]
              obtain ⟨h1, h2, h3, h4⟩ :=
                nbdLoop_with_port env obs host rest (i + 1) (obs.acquire i).2
                  (hcontract i hacq2)
              have hnone : (qemuMigrationStartNBDServer_loop env obs host (i + 1)
                  (obs.acquire i).2 rest).cmds.filter
                  (fun cmd => match cmd with
                    | MonitorCmd.nbdServerStart _ _ => true
                    | _ => false) = [] := by
                rw [List.filter_eq_nil_iff]
                intro cmd hcmd
                cases cmd <;> simp
                exact h3 _ _ hcmd
              refine ⟨by simp [h1], by simp [List.filter, hnone], ?_, ?_, ?_⟩
              · intro h p hmem
                simp only [List.mem_cons, MonitorCmd.nbdServerStart.injEq, reduceCtorEq,
                  false_or] at hmem
                rcases hmem with hm | hm
                · refine ⟨hm.1, ?_⟩
                  simp only [h1]
                  exact hpair p hm.2
                · exact absurd hm (h3 h p)
              · intro a ha hok
                simp only [h1] at ha
                simp only [h2]
                exact hport a ha hok
              · intro hc
                refine ⟨by simp [List.filter, hs2], ?_⟩
                intro _
                simp only [h1, h2, h4 hc]
                refine ⟨hpair _ rfl, ?_⟩
                simp [List.filter, hs2]

set_option maxRecDepth 8000 in
/-- Claim C17 (counterexample): the allocator answers with success and stores
the port 0. For the guest with two eligible disks the test `!port` holds again
at the second disk: `virPortAllocatorAcquire` is called twice and the NBD server
is started twice, once before each export; the call succeeds and stores the
port 0. -/
theorem startNBDServer_port_zero_acquires_per_disk :
    (qemuMigrationStartNBDServer srcEnv nbdPortZero twoDiskGuest "[::]").ret = 0 ∧
    (qemuMigrationStartNBDServer srcEnv nbdPortZero twoDiskGuest "[::]").acquireCalls =
      [(true, 0), (true, 0)] ∧
    (qemuMigrationStartNBDServer srcEnv nbdPortZero twoDiskGuest "[::]").cmds =
      [MonitorCmd.nbdServerStart "::" 0,
       MonitorCmd.nbdServerAdd "drive-virtio-disk0" true,
       MonitorCmd.nbdServerStart "::" 0,
       MonitorCmd.nbdServerAdd "drive-virtio-disk1" true] ∧
    (qemuMigrationStartNBDServer srcEnv nbdPortZero twoDiskGuest "[::]").vm.privateData.nbdPort =
      0 := by
  decide

/-- Claim C17 (amended): `qemuMigrationStartNBDServer`, for every disk list and
listen address, when every successful answer of the port allocator stores a
port that is not 0. It acquires a port at most once and starts the NBD
server at most once, bound to `::` when the address is `[::]` and to the
address itself otherwise. On success the commands are the start of the server
on the acquired port (sent before the first export) followed by exactly one
export, named with the drive prefix and the alias, per disk that is not
shared, not read-only and has a source, and the stored port is the acquired
one (0, with no command, when no disk is eligible). On failure the stored port
is not updated and the port is given back exactly once; after a successful
acquire it is the acquired port. -/
theorem startNBDServer_contract (env : Env) (obs : NBDServerObs) (vm : virDomainObj)
    (listenAddr : String)
    (hcontract : ∀ i, (obs.acquire i).1 = true → (obs.acquire i).2 ≠ 0) :
    (qemuMigrationStartNBDServer env obs vm listenAddr).acquireCalls.length ≤ 1 ∧
    ((qemuMigrationStartNBDServer env obs vm listenAddr).cmds.filter
      (fun cmd => match cmd with
        | MonitorCmd.nbdServerStart _ _ => true
        | _ => false)).length ≤ 1 ∧
    (∀ h p, MonitorCmd.nbdServerStart h p ∈
        (qemuMigrationStartNBDServer env obs vm listenAddr).cmds →
      h = (if listenAddr = "[::]" then "::" else listenAddr) ∧
      (qemuMigrationStartNBDServer env obs vm listenAddr).acquireCalls = [(true, p)]) ∧
    ((qemuMigrationStartNBDServer env obs vm listenAddr).ret = 0 →
      (qemuMigrationStartNBDServer env obs vm listenAddr).released = [] ∧
      (vm.defn.disks.filter (fun disk => !diskSkipped disk) = [] →
        (qemuMigrationStartNBDServer env obs vm listenAddr).vm.privateData.nbdPort = 0 ∧
        (qemuMigrationStartNBDServer env obs vm listenAddr).cmds = []) ∧
      (vm.defn.disks.filter (fun disk => !diskSkipped disk) ≠ [] →
        (qemuMigrationStartNBDServer env obs vm listenAddr).acquireCalls =
          [(true, (qemuMigrationStartNBDServer env obs vm listenAddr).vm.privateData.nbdPort)] ∧
        (qemuMigrationStartNBDServer env obs vm listenAddr).cmds =
          MonitorCmd.nbdServerStart (if listenAddr = "[::]" then "::" else listenAddr)
              (qemuMigrationStartNBDServer env obs vm listenAddr).vm.privateData.nbdPort ::
            (vm.defn.disks.filter (fun disk => !diskSkipped disk)).map
              (fun disk =>
                MonitorCmd.nbdServerAdd (env.QEMU_DRIVE_HOST_PREFIX ++ disk.infoAlias.getD "(null)")
                  true))) ∧
    ((qemuMigrationStartNBDServer env obs vm listenAddr).ret ≠ 0 →
      (qemuMigrationStartNBDServer env obs vm listenAddr).ret = -1 ∧
      (qemuMigrationStartNBDServer env obs vm listenAddr).vm = vm ∧
      (qemuMigrationStartNBDServer env obs vm listenAddr).released.length = 1 ∧
      ∀ a, a ∈ (qemuMigrationStartNBDServer env obs vm listenAddr).acquireCalls → a.1 = true →
        (qemuMigrationStartNBDServer env obs vm listenAddr).released = [a.2]) := by
  obtain ⟨h1, h2, h3, h4, h5⟩ := nbdLoop_without_port env obs
    (if listenAddr = "[::]" then "::" else listenAddr) hcontract vm.defn.disks 0
  unfold qemuMigrationStartNBDServer
  simp only []
  by_cases hc : (qemuMigrationStartNBDServer_loop env obs
      (if listenAddr = "[::]" then "::" else listenAddr) 0 0 vm.defn.disks).completed = true
  · rw [if_pos hc]
    obtain ⟨h6, h7⟩ := h5 hc
    exact ⟨h1, h2, h3,
      fun _ => ⟨rfl, fun hn => ⟨(h6 hn).1, (h6 hn).2.1⟩, fun hsome => h7 hsome⟩,
      fun hne => absurd rfl hne⟩
  · rw [if_neg hc]
    exact ⟨h1, h2, h3, fun h0 => absurd h0 (by decide : ¬ ((-1 : Int) = 0)),
      fun _ => ⟨rfl, rfl, rfl, fun a ha hok => by rw [h4 a ha hok]⟩⟩

set_option maxRecDepth 8000 in
/-- The amended claim C17 on the example guest with two disks and the listen
address `[::]`, with an allocator that hands out the port 49153: the call
succeeds, and what the theorem says holds of it: one acquire, one start of
the server bound to `::` on the acquired port, sent before the two exports,
the port stored on the job and no port given back. -/
theorem startNBDServer_contract_witness :
    (∀ i, (nbdAllGood.acquire i).1 = true → (nbdAllGood.acquire i).2 ≠ 0) ∧
    (qemuMigrationStartNBDServer srcEnv nbdAllGood twoDiskGuest "[::]").ret = 0 ∧
    twoDiskGuest.defn.disks.filter (fun disk => !diskSkipped disk) ≠ [] ∧
    (qemuMigrationStartNBDServer srcEnv nbdAllGood twoDiskGuest "[::]").acquireCalls.length ≤ 1 ∧
    ((qemuMigrationStartNBDServer srcEnv nbdAllGood twoDiskGuest "[::]").cmds.filter
      (fun cmd => match cmd with
        | MonitorCmd.nbdServerStart _ _ => true
        | _ => false)).length ≤ 1 ∧
    (∀ h p, MonitorCmd.nbdServerStart h p ∈
        (qemuMigrationStartNBDServer srcEnv nbdAllGood twoDiskGuest "[::]").cmds →
      h = (if "[::]" = "[::]" then "::" else "[::]") ∧
      (qemuMigrationStartNBDServer srcEnv nbdAllGood twoDiskGuest "[::]").acquireCalls =
        [(true, p)]) ∧
    (qemuMigrationStartNBDServer srcEnv nbdAllGood twoDiskGuest "[::]").released = [] ∧
    (qemuMigrationStartNBDServer srcEnv nbdAllGood twoDiskGuest "[::]").acquireCalls =
      [(true,
        (qemuMigrationStartNBDServer srcEnv nbdAllGood twoDiskGuest "[::]").vm.privateData.nbdPort)] ∧
    (qemuMigrationStartNBDServer srcEnv nbdAllGood twoDiskGuest "[::]").cmds =
      MonitorCmd.nbdServerStart (if "[::]" = "[::]" then "::" else "[::]")
          (qemuMigrationStartNBDServer srcEnv nbdAllGood twoDiskGuest "[::]").vm.privateData.nbdPort ::
        (twoDiskGuest.defn.disks.filter (fun disk => !diskSkipped disk)).map
          (fun disk =>
            MonitorCmd.nbdServerAdd (srcEnv.QEMU_DRIVE_HOST_PREFIX ++ disk.infoAlias.getD "(null)")
              true) ∧
    (qemuMigrationStartNBDServer srcEnv nbdAllGood twoDiskGuest "[::]").cmds =
      [MonitorCmd.nbdServerStart "::" 49153,
       MonitorCmd.nbdServerAdd "drive-virtio-disk0" true,
       MonitorCmd.nbdServerAdd "drive-virtio-disk1" true] :=
  have hcontract : ∀ i, (nbdAllGood.acquire i).1 = true → (nbdAllGood.acquire i).2 ≠ 0 :=
    fun _ _ => (by decide : (49153 : Nat) ≠ 0)
  have hret : (qemuMigrationStartNBDServer srcEnv nbdAllGood twoDiskGuest "[::]").ret = 0 := by
    decide
  have hdisks : twoDiskGuest.defn.disks.filter (fun disk => !diskSkipped disk) ≠ [] := by
    decide
  have h := startNBDServer_contract srcEnv nbdAllGood twoDiskGuest "[::]" hcontract
  ⟨hcontract, hret, hdisks, h.1, h.2.1, h.2.2.1, (h.2.2.2.1 hret).1,
    ((h.2.2.2.1 hret).2.2 hdisks).1, ((h.2.2.2.1 hret).2.2 hdisks).2, by decide⟩

/-! ### The tunnel worker -/

/-- Claim C18: `qemuMigrationStopTunnel(io, error)` once the wake-up byte is
written. The worker is joined; the byte written is 1 iff `error` is true; the
call fails iff the worker captured an error and `error` is false, and it then
raises the error of the worker; when `error` is true the error of the worker is
discarded and the call returns 0; when the worker captured no error the call
returns 0. -/
theorem stopTunnel_precedence (obs : TunnelObs) (error : Bool)
    (hwritten : obs.wakeupWritten = true) :
    (qemuMigrationStopTunnel obs error).joined = true ∧
    ((qemuMigrationStopTunnel obs error).stop = 1 ↔ error = true) ∧
    ((qemuMigrationStopTunnel obs error).stop = if error then 1 else 0) ∧
    ((qemuMigrationStopTunnel obs error).rv < 0 ↔
      (obs.workerErr (qemuMigrationStopTunnel obs error).stop ≠ none ∧ error = false)) ∧
    (∀ err, obs.workerErr (qemuMigrationStopTunnel obs error).stop = some err → error = false →
      (qemuMigrationStopTunnel obs error).rv = -1 ∧
      (qemuMigrationStopTunnel obs error).errors = [err]) ∧
    (error = true →
      (qemuMigrationStopTunnel obs error).rv = 0 ∧
      (qemuMigrationStopTunnel obs error).errors = []) ∧
    (obs.workerErr (qemuMigrationStopTunnel obs error).stop = none →
      (qemuMigrationStopTunnel obs error).rv = 0 ∧
      (qemuMigrationStopTunnel obs error).errors = []) := by
  cases error
  · cases hw : obs.workerErr 0 <;>
      simp [qemuMigrationStopTunnel, hwritten, hw]
  · cases hw : obs.workerErr 1 <;>
      simp [qemuMigrationStopTunnel, hwritten, hw]

open VirErrorCode in
/-- Claim C18 on a tunnel whose worker has captured an error, stopped by a
coordinator that holds none: the call fails and raises the error of the
worker. -/
theorem stopTunnel_precedence_witness :
    (qemuMigrationStopTunnel brokenTunnel false).rv = -1 ∧
    (qemuMigrationStopTunnel brokenTunnel false).errors =
      [⟨VIR_ERR_SYSTEM_ERROR, "tunnelled migration failed to read from qemu"⟩] :=
  (stopTunnel_precedence brokenTunnel false rfl).2.2.2.2.1
    ⟨VIR_ERR_SYSTEM_ERROR, "tunnelled migration failed to read from qemu"⟩ rfl rfl

/-! ### The migration URI -/

open VirErrorCode qemuMigrationDestinationType qemuMigrationForwardType in
/-- Claim C19 (counterexample): the source side accepts a URI that does not
begin with `tcp:`. Given `udp://dst:4444`, `doNativeMigrate` parses the text as
it is and runs the migration to the host `dst` and the port 4444: the `migrate`
command is sent. -/
theorem doNativeMigrate_accepts_other_scheme :
    STRPREFIX "udp://dst:4444" "tcp:" = false ∧
    doNativeMigrate srcEnv migratingGuest "udp://dst:4444" exampleRun =
      ⟨[], none, 0, migratingGuest, [MonitorCmd.migrateToHost 0 (some "dst") 4444]⟩ := by
  decide

open VirErrorCode qemuMigrationDestinationType qemuMigrationForwardType in
/-- Claim C19 (amended): the destination side (`qemuMigrationPrepareDirect`)
rejects every `uri_in` that does not begin with `tcp:` with the InvalidArg error,
before `qemuMigrationPrepareAny` is entered: nothing is changed and no port is
generated. The source side (`doNativeMigrate`) makes no check of the scheme: it
fails, before the migration is run, only when `virURIParse` refuses the text, and
otherwise runs the migration to the host and port parsed. On both sides a URI
of the form `tcp:REST` that does not begin with `tcp://` is parsed as
`tcp://REST`, and every other accepted URI, in particular one that begins with
`tcp://`, is parsed unchanged. -/
theorem uri_scheme_handling (env : Env) (port : Nat) (state : PrepareState)
    (defn : virDomainDef) (flags : Nat)
    (rest : Nat → PrepareState → virDomainDef → PrepareResult)
    (vm : virDomainObj) (run : virDomainObj → qemuMigrationSpec → MigrateStep)
    (uri : String) :
    (STRPREFIX uri "tcp:" = false →
      qemuMigrationPrepareDirect env port state defn (some uri) flags rest =
        ⟨[⟨VIR_ERR_INVALID_ARG, "only tcp URIs are supported for KVM/QEMU migrations"⟩],
          -1, port, none, state⟩ ∧
      doNativeMigrate_uri uri = uri) ∧
    ((env.virURIParse (doNativeMigrate_uri uri)).value = none →
      doNativeMigrate env vm uri run =
        ⟨(env.virURIParse (doNativeMigrate_uri uri)).errors,
          (env.virURIParse (doNativeMigrate_uri uri)).errors.getLast?, -1, vm, []⟩) ∧
    (∀ uribits, (env.virURIParse (doNativeMigrate_uri uri)).value = some uribits →
      doNativeMigrate env vm uri run =
        { run vm
            { destType :=
                if vm.privateData.capsMigrateQemuFd then MIGRATION_DEST_CONNECT_HOST
                else MIGRATION_DEST_HOST,
              hostName := uribits.server,
              hostPort := uribits.port,
              fwdType := MIGRATION_FWD_DIRECT } with
          errors := (env.virURIParse (doNativeMigrate_uri uri)).errors ++
            (run vm
              { destType :=
                  if vm.privateData.capsMigrateQemuFd then MIGRATION_DEST_CONNECT_HOST
                  else MIGRATION_DEST_HOST,
                hostName := uribits.server,
                hostPort := uribits.port,
                fwdType := MIGRATION_FWD_DIRECT }).errors }) ∧
    (STRPREFIX uri "tcp:" = true → STRPREFIX uri "tcp://" = false →
      doNativeMigrate_uri uri = "tcp://" ++ String.mk (uri.data.drop 4) ∧
      ∃ p, STRSKIP uri "tcp:" = some p ∧
        qemuMigrationPrepareDirect_uri uri p = "tcp://" ++ String.mk (uri.data.drop 4)) ∧
    (STRPREFIX uri "tcp://" = true →
      doNativeMigrate_uri uri = uri ∧
      ∀ p, qemuMigrationPrepareDirect_uri uri p = uri) := by
  refine ⟨?_, ?_, ?_, ?_, ?_⟩
  · intro h
    simp [qemuMigrationPrepareDirect, STRSKIP, doNativeMigrate_uri, h]
  · intro h
    simp [doNativeMigrate, h]
  · intro uribits h
    simp [doNativeMigrate, h]
  · intro h1 h2
    have h4 : strlen "tcp:" = 4 := by decide
    simp [doNativeMigrate_uri, qemuMigrationPrepareDirect_uri, STRSKIP, h1, h2, h4]
  · intro h
    simp [doNativeMigrate_uri, qemuMigrationPrepareDirect_uri, h]

open VirErrorCode in
/-- The amended claim C19 on the URI `udp://dst:4444` given to the destination
side: it is rejected and the port counter is not moved. -/
theorem uri_scheme_handling_witness :
    qemuMigrationPrepareDirect srcEnv 7 ⟨[], none⟩ guestDef (some "udp://dst:4444") 0
        (fun _ state _ => ⟨[], 0, state⟩) =
      ⟨[⟨VIR_ERR_INVALID_ARG, "only tcp URIs are supported for KVM/QEMU migrations"⟩],
        -1, 7, none, ⟨[], none⟩⟩ :=
  ((uri_scheme_handling srcEnv 7 ⟨[], none⟩ guestDef 0 (fun _ state _ => ⟨[], 0, state⟩)
    migratingGuest exampleRun "udp://dst:4444").1 (by decide)).1

/-! ### The Perform step and the restart of the guest -/

/-- Starting the job does not change the state of the guest. -/
theorem jobStart_state (vm : virDomainObj) (job : qemuDomainAsyncJob) :
    (qemuMigrationJobStart vm job).state = vm.state := rfl

/-- Setting the phase does not change the state of the guest. -/
theorem setPhase_state (vm : virDomainObj) (phase : qemuMigrationJobPhase) :
    (qemuMigrationJobSetPhase vm phase).state = vm.state := by
  unfold qemuMigrationJobSetPhase
  split <;> rfl

open VirErrorCode virDomainState virDomainRunningReason qemuDomainAsyncJob in
/-- Claim C20 (divergence of the code): in `qemuMigrationPerformPhase` a failed
restart of the CPUs replaces the error that caused the failure. The job is
started by the call, the guest runs at entry, the migration fails with the
error `cause` and leaves the guest paused, and the restart of the CPUs fails
and reports `later`: the CPUs are restarted with the reason MIGRATION_CANCELED
and the return value is the one of the migration, but the error left in the
thread is `later`, not `cause`. At the label `endjob` of
`qemuMigrationPerformJob`, which saves the error before the restart and sets it
again afterwards, the same failure leaves `cause`. -/
theorem performPhase_failed_resume_replaces_error (env : Env) (obs : PerformObs)
    (vm : virDomainObj) (uri : String) (flags : Nat)
    (run : virDomainObj → qemuMigrationSpec → MigrateStep) (uribits : virURI)
    (cause later : VirError)
    (hprot : hasFlag flags VIR_MIGRATE_CHANGE_PROTECTION = false)
    (hjob : obs.beginAsyncJob = ⟨[], true⟩)
    (hrunning : vm.state = VIR_DOMAIN_RUNNING)
    (hparse : env.virURIParse (doNativeMigrate_uri uri) = Outcome.ok uribits)
    (hrun : ∀ v spec,
      run v spec = ⟨[cause], some cause, -1, { v with state := VIR_DOMAIN_PAUSED }, []⟩)
    (hresume : obs.startCPUs = ⟨[later], false⟩) :
    (qemuMigrationPerformPhase env obs vm uri flags run).ret = -1 ∧
    (qemuMigrationPerformPhase env obs vm uri flags run).actions =
      [GuestAction.startCPUs VIR_DOMAIN_RUNNING_MIGRATION_CANCELED QEMU_ASYNC_JOB_MIGRATION_OUT,
       GuestAction.jobFinish] ∧
    (qemuMigrationPerformPhase env obs vm uri flags run).errors = [cause, later] ∧
    (qemuMigrationPerformPhase env obs vm uri flags run).lastError = some later ∧
    (qemuMigrationPerformJob_endjob obs true
      ⟨[cause], some cause, -1, { vm with state := VIR_DOMAIN_PAUSED }, [], []⟩).lastError =
      some cause ∧
    (qemuMigrationPerformJob_endjob obs true
      ⟨[cause], some cause, -1, { vm with state := VIR_DOMAIN_PAUSED }, [], []⟩).actions =
      [GuestAction.startCPUs VIR_DOMAIN_RUNNING_MIGRATION_CANCELED QEMU_ASYNC_JOB_MIGRATION_OUT,
       GuestAction.jobFinish] := by
  have hstate : (qemuMigrationJobStartPhase
      (qemuMigrationJobStart vm QEMU_ASYNC_JOB_MIGRATION_OUT)
      qemuMigrationJobPhase.QEMU_MIGRATION_PHASE_PERFORM3).state = VIR_DOMAIN_RUNNING := by
    unfold qemuMigrationJobStartPhase
    rw [setPhase_state, jobStart_state, hrunning]
  simp [qemuMigrationPerformPhase, hprot, hjob, doNativeMigrate, hparse, Outcome.ok, hrun,
    hstate, resumeAfterFailure, hresume, lastErrorAfter, qemuMigrationPerformJob_endjob,
    virSaveLastError, virSetError]

set_option maxRecDepth 8000 in
open VirErrorCode virDomainState virDomainRunningReason qemuDomainAsyncJob in
/-- The divergence of claim C20 on the example guest: the migration to
`tcp://dst:4444` fails after the guest was paused, and the restart of the CPUs
fails too. The version 3 Perform step leaves the error of the restart; the
Perform step that owns its job leaves the error of the migration. -/
theorem performPhase_failed_resume_replaces_error_witness :
    (qemuMigrationPerformPhase srcEnv failedResumeObs guestObj "tcp://dst:4444" 0
      failingRun).lastError = some resumeError ∧
    (qemuMigrationPerformJob srcEnv failedResumeObs guestObj "tcp://dst:4444" 0 true
      (fun vm => (failingRun vm ⟨qemuMigrationDestinationType.MIGRATION_DEST_HOST, none, 0,
        qemuMigrationForwardType.MIGRATION_FWD_DIRECT⟩, true)) failingRun).lastError =
      some migrationError :=
  ⟨(performPhase_failed_resume_replaces_error srcEnv failedResumeObs guestObj "tcp://dst:4444" 0
      failingRun ⟨some "dst", 4444⟩ migrationError resumeError (by decide) rfl (by decide)
      (by decide) (fun _ _ => rfl) rfl).2.2.2.1,
    by decide⟩

/-! ### The Confirm step -/

/-- Setting the phase changes neither the capabilities of the hypervisor nor the
definition of the guest, so the wait for the SPICE server is the same. -/
theorem waitForSpice_setPhase (vm : virDomainObj) (phase : qemuMigrationJobPhase)
    (polls : List SpicePollObs) :
    qemuMigrationWaitForSpice (qemuMigrationJobSetPhase vm phase) polls =
      qemuMigrationWaitForSpice vm polls := by
  unfold qemuMigrationJobSetPhase
  split <;> rfl

open virDomainGraphicsType in
/-- The wait for the SPICE server returns at once when the hypervisor has no
seamless migration or the guest has no SPICE display. -/
theorem waitForSpice_not_needed (vm : virDomainObj) (polls : List SpicePollObs)
    (h : vm.privateData.capsSeamlessMigration = false ∨
      ∀ graphics ∈ vm.defn.graphics, graphics.type ≠ VIR_DOMAIN_GRAPHICS_TYPE_SPICE) :
    qemuMigrationWaitForSpice vm polls = some ⟨[], 0, []⟩ := by
  unfold qemuMigrationWaitForSpice
  rcases h with h | h
  · simp [h]
  · have hany : vm.defn.graphics.any
        (fun graphics => decide (graphics.type = VIR_DOMAIN_GRAPHICS_TYPE_SPICE)) = false := by
      rw [List.any_eq_false]
      intro graphics hmem
      simpa using h graphics hmem
    simp [hany]

open virDomainGraphicsType in
/-- With seamless migration and a SPICE display the wait for the SPICE server is
its poll loop. -/
theorem waitForSpice_needed (vm : virDomainObj) (polls : List SpicePollObs)
    (hcaps : vm.privateData.capsSeamlessMigration = true)
    (hspice : ∃ graphics ∈ vm.defn.graphics, graphics.type = VIR_DOMAIN_GRAPHICS_TYPE_SPICE) :
    qemuMigrationWaitForSpice vm polls = qemuMigrationWaitForSpice_loop polls := by
  unfold qemuMigrationWaitForSpice
  have hany : vm.defn.graphics.any
      (fun graphics => decide (graphics.type = VIR_DOMAIN_GRAPHICS_TYPE_SPICE)) = true := by
    rw [List.any_eq_true]
    obtain ⟨graphics, hmem, htype⟩ := hspice
    exact ⟨graphics, hmem, by simpa using htype⟩
  simp [hcaps, hany]

/-- The poll loop of the wait for the SPICE server ends at the first poll whose
query fails or reports the end of the migration: it has then sent one query
per poll up to that one. -/
theorem waitForSpice_loop_ends (polls : List SpicePollObs)
    (h : ∃ poll ∈ polls, poll.query.ok = false ∨ poll.spice_migrated = true) :
    ∃ spice, qemuMigrationWaitForSpice_loop polls = some spice ∧
      spice.cmds =
        List.replicate
          ((polls.takeWhile fun poll => poll.query.ok && !poll.spice_migrated).length + 1)
          MonitorCmd.getSpiceMigrationStatus := by
  induction polls with
  | nil => obtain ⟨poll, hmem, _⟩ := h; cases hmem
  | cons poll rest ih =>
    unfold qemuMigrationWaitForSpice_loop
    by_cases hok : poll.query.ok = false
    · rw [if_pos hok]
      exact ⟨_, rfl, by simp [List.takeWhile, hok]⟩
    · rw [if_neg hok]
      have hok2 : poll.query.ok = true := by simpa using hok
      by_cases hmig : poll.spice_migrated = true
      · rw [if_pos hmig]
        exact ⟨_, rfl, by simp [List.takeWhile, hok2, hmig]⟩
      · rw [if_neg hmig]
        have hmig2 : poll.spice_migrated = false := by simpa using hmig
        have hrest : ∃ p ∈ rest, p.query.ok = false ∨ p.spice_migrated = true := by
          obtain ⟨p, hmem, hp⟩ := h
          rcases List.mem_cons.mp hmem with hp2 | hp2
          · subst hp2
            rcases hp with hp | hp
            · exact absurd hp hok
            · exact absurd hp hmig
          · exact ⟨p, hp2, hp⟩
        obtain ⟨spice, hspice, hcmds⟩ := ih hrest
        refine ⟨_, by rw [hspice]; rfl, ?_⟩
        simp [List.takeWhile, hok2, hmig2, hcmds, List.replicate_succ]

/-- The poll loop of the wait for the SPICE server is still polling while every
query succeeds and reports that the migration has not ended. -/
theorem waitForSpice_loop_polling (polls : List SpicePollObs)
    (h : ∀ poll ∈ polls, poll.query.ok = true ∧ poll.spice_migrated = false) :
    qemuMigrationWaitForSpice_loop polls = none := by
  induction polls with
  | nil => rfl
  | cons poll rest ih =>
    unfold qemuMigrationWaitForSpice_loop
    have hp := h poll (List.mem_cons_self _ _)
    rw [if_neg (by simp [hp.1]), if_neg (by simp [hp.2]),
      ih (fun p hmem => h p (List.mem_cons_of_mem _ hmem))]
    rfl

set_option maxRecDepth 8000 in
open VirErrorCode virDomainShutoffReason virDomainEventDetail in
/-- Claim C21 (counterexample): two Confirm calls with `retcode = 0` on an active
outgoing job that do not stop the guest. With a cookie that is not terminated
by a NUL the cookie is refused: the call fails and nothing is stopped or
resumed. With the flag OFFLINE the call succeeds and nothing is stopped. -/
theorem confirm_without_stop :
    (qemuMigrationConfirm srcEnv confirmAllGood performedGuest (some unterminatedBuffer) 0 0).map
        (fun r => (r.ret, r.errors, r.actions)) =
      some (-1, [⟨VIR_ERR_INTERNAL_ERROR, "Migration cookie was not NULL terminated"⟩],
        [GuestAction.closeCallbacksUnset, GuestAction.jobFinish]) ∧
    (qemuMigrationConfirm srcEnv confirmAllGood performedGuest none VIR_MIGRATE_OFFLINE 0).map
        (fun r => (r.ret, r.actions)) =
      some (0, [GuestAction.closeCallbacksUnset, GuestAction.jobFinish]) := by
  decide

open VirErrorCode virDomainState virDomainRunningReason virDomainShutoffReason
  virDomainEventDetail qemuDomainAsyncJob qemuMigrationJobPhase virDomainGraphicsType in
/-- Claim C21 (amended): the disposition of `qemuMigrationConfirmPhase`. When the
flags are supported, the cookie is accepted and the flag OFFLINE is clear:
with `retcode = 0` the call first waits for the SPICE server. When the
hypervisor has no seamless migration or the guest has no SPICE display it
sends no command; otherwise it polls the state of the SPICE migration, and
once a poll fails or reports the end it has sent one query per poll up to
that one. Then the guest is stopped exactly once (shut off with the reason
MIGRATED, followed by the event STOPPED/MIGRATED), its CPUs are not resumed
and the call returns 0. While every poll succeeds and reports that the SPICE
migration has not ended, the call does not return. With `retcode != 0` the
call returns, the guest is not stopped, the storage mirrors are cancelled
first and then the CPUs are resumed with the reason MIGRATED (followed, when
the resume succeeds, by the event RESUMED/MIGRATED and the saving of the
status), and the return value is 0 iff the resume and the saving succeed.
When the flags are not supported, or the cookie is refused, or the flag
OFFLINE is set, the call returns, the guest is neither stopped nor resumed,
and no command is sent. -/
theorem confirmPhase_disposition (env : Env) (obs : ConfirmObs) (vm : virDomainObj)
    (cookiein : Option (List Char)) (flags : Nat) (retcode : Int) :
    (virCheckFlags flags env.QEMU_MIGRATION_FLAGS "qemuMigrationConfirmPhase" = none →
      (qemuMigrationEatCookie env
        (qemuMigrationJobSetPhase vm
          (if retcode = 0 then QEMU_MIGRATION_PHASE_CONFIRM3
           else QEMU_MIGRATION_PHASE_CONFIRM3_CANCELLED)) cookiein 0).value ≠ none →
      hasFlag flags VIR_MIGRATE_OFFLINE = false →
      (retcode = 0 →
        ((vm.privateData.capsSeamlessMigration = false ∨
            ∀ graphics ∈ vm.defn.graphics, graphics.type ≠ VIR_DOMAIN_GRAPHICS_TYPE_SPICE) →
          ∃ r, qemuMigrationConfirmPhase env obs vm cookiein flags retcode = some r ∧
            r.actions =
              [GuestAction.processStop VIR_DOMAIN_SHUTOFF_MIGRATED,
               GuestAction.event VIR_DOMAIN_EVENT_STOPPED_MIGRATED] ∧
            r.cmds = [] ∧ r.ret = 0) ∧
        (vm.privateData.capsSeamlessMigration = true →
          (∃ graphics ∈ vm.defn.graphics, graphics.type = VIR_DOMAIN_GRAPHICS_TYPE_SPICE) →
          ((∃ poll ∈ obs.spicePolls, poll.query.ok = false ∨ poll.spice_migrated = true) →
            ∃ r, qemuMigrationConfirmPhase env obs vm cookiein flags retcode = some r ∧
              r.actions =
                [GuestAction.processStop VIR_DOMAIN_SHUTOFF_MIGRATED,
                 GuestAction.event VIR_DOMAIN_EVENT_STOPPED_MIGRATED] ∧
              r.cmds =
                List.replicate
                  ((obs.spicePolls.takeWhile
                    fun poll => poll.query.ok && !poll.spice_migrated).length + 1)
                  MonitorCmd.getSpiceMigrationStatus ∧
              r.ret = 0) ∧
          ((∀ poll ∈ obs.spicePolls, poll.query.ok = true ∧ poll.spice_migrated = false) →
            qemuMigrationConfirmPhase env obs vm cookiein flags retcode = none))) ∧
      (retcode ≠ 0 →
        ∃ r, qemuMigrationConfirmPhase env obs vm cookiein flags retcode = some r ∧
          r.actions =
            [GuestAction.cancelDriveMirror,
             GuestAction.startCPUs VIR_DOMAIN_RUNNING_MIGRATED QEMU_ASYNC_JOB_MIGRATION_OUT] ++
            (if obs.startCPUs.ok then
              [GuestAction.event VIR_DOMAIN_EVENT_RESUMED_MIGRATED, GuestAction.saveStatus]
             else []) ∧
          r.cmds =
            qemuMigrationCancelDriveMirror env obs.mirrorEnterMonitor
              (qemuMigrationJobSetPhase vm QEMU_MIGRATION_PHASE_CONFIRM3_CANCELLED) ∧
          (r.ret = 0 ↔ (obs.startCPUs.ok = true ∧ obs.saveStatus = true)))) ∧
    ((virCheckFlags flags env.QEMU_MIGRATION_FLAGS "qemuMigrationConfirmPhase" ≠ none ∨
        (qemuMigrationEatCookie env
          (qemuMigrationJobSetPhase vm
            (if retcode = 0 then QEMU_MIGRATION_PHASE_CONFIRM3
             else QEMU_MIGRATION_PHASE_CONFIRM3_CANCELLED)) cookiein 0).value = none ∨
        hasFlag flags VIR_MIGRATE_OFFLINE = true) →
      ∃ r, qemuMigrationConfirmPhase env obs vm cookiein flags retcode = some r ∧
        r.actions = [] ∧ r.cmds = []) := by
  constructor
  · intro hflags heat hoff
    cases he : (qemuMigrationEatCookie env
        (qemuMigrationJobSetPhase vm
          (if retcode = 0 then QEMU_MIGRATION_PHASE_CONFIRM3
           else QEMU_MIGRATION_PHASE_CONFIRM3_CANCELLED)) cookiein 0).value with
    | none => exact absurd he heat
    | some mig =>
      constructor
      · intro h0
        subst h0
        simp only [if_true] at he
        refine ⟨?_, ?_⟩
        · intro hnone
          have hw := waitForSpice_not_needed vm obs.spicePolls hnone
          simp [qemuMigrationConfirmPhase, hflags, he, hoff, waitForSpice_setPhase, hw]
        · intro hcaps hspice
          have hw := waitForSpice_needed vm obs.spicePolls hcaps hspice
          refine ⟨?_, ?_⟩
          · intro hends
            obtain ⟨spice, hloop, hcmds⟩ := waitForSpice_loop_ends obs.spicePolls hends
            simp [qemuMigrationConfirmPhase, hflags, he, hoff, waitForSpice_setPhase, hw, hloop,
              hcmds]
          · intro hpolling
            have hloop := waitForSpice_loop_polling obs.spicePolls hpolling
            simp [qemuMigrationConfirmPhase, hflags, he, hoff, waitForSpice_setPhase, hw, hloop]
      · intro h0
        simp only [if_neg h0] at he
        cases hok : obs.startCPUs.ok <;> cases hsave : obs.saveStatus <;>
          simp [qemuMigrationConfirmPhase, hflags, he, hoff, h0, hok, hsave]
  · intro h
    unfold qemuMigrationConfirmPhase
    cases hf : virCheckFlags flags env.QEMU_MIGRATION_FLAGS "qemuMigrationConfirmPhase" with
    | some err => simp
    | none =>
      cases he : (qemuMigrationEatCookie env
          (qemuMigrationJobSetPhase vm
            (if retcode = 0 then QEMU_MIGRATION_PHASE_CONFIRM3
             else QEMU_MIGRATION_PHASE_CONFIRM3_CANCELLED)) cookiein 0).value with
      | none => simp [he]
      | some mig =>
        rcases h with h | h | h
        · exact absurd hf h
        · rw [he] at h; cases h
        · simp [he, h]

set_option maxRecDepth 8000 in
open VirErrorCode virDomainState virDomainRunningReason virDomainShutoffReason
  virDomainEventDetail qemuDomainAsyncJob qemuMigrationJobPhase virDomainGraphicsType in
/-- The amended claim C21 with no cookie and `retcode = 0`. On the example guest,
which has no SPICE display, the guest is stopped once and no command is sent.
On the guest with a SPICE display, when the third poll reports the end of the
SPICE migration, three queries are sent and the guest is stopped once; when
none of the four polls reports it, the call has not returned. -/
theorem confirmPhase_disposition_witness :
    (∃ r, qemuMigrationConfirmPhase srcEnv confirmAllGood performedGuest none 0 0 = some r ∧
      r.actions =
        [GuestAction.processStop VIR_DOMAIN_SHUTOFF_MIGRATED,
         GuestAction.event VIR_DOMAIN_EVENT_STOPPED_MIGRATED] ∧
      r.cmds = [] ∧ r.ret = 0) ∧
    (∃ r, qemuMigrationConfirmPhase srcEnv confirmSpiceThird spiceGuest none 0 0 = some r ∧
      r.actions =
        [GuestAction.processStop VIR_DOMAIN_SHUTOFF_MIGRATED,
         GuestAction.event VIR_DOMAIN_EVENT_STOPPED_MIGRATED] ∧
      r.cmds =
        List.replicate
          ((confirmSpiceThird.spicePolls.takeWhile
            fun poll => poll.query.ok && !poll.spice_migrated).length + 1)
          MonitorCmd.getSpiceMigrationStatus ∧
      r.ret = 0) ∧
    List.replicate
        ((confirmSpiceThird.spicePolls.takeWhile
          fun poll => poll.query.ok && !poll.spice_migrated).length + 1)
        MonitorCmd.getSpiceMigrationStatus =
      [MonitorCmd.getSpiceMigrationStatus, MonitorCmd.getSpiceMigrationStatus,
       MonitorCmd.getSpiceMigrationStatus] ∧
    qemuMigrationConfirmPhase srcEnv confirmSpicePending spiceGuest none 0 0 = none :=
  ⟨(((confirmPhase_disposition srcEnv confirmAllGood performedGuest none 0 0).1
      (by decide) (by decide) (by decide)).1 rfl).1 (Or.inl (by decide)),
    ((((confirmPhase_disposition srcEnv confirmSpiceThird spiceGuest none 0 0).1
      (by decide) (by decide) (by decide)).1 rfl).2 (by decide)
        ⟨_, List.mem_cons_self _ _, rfl⟩).1 ⟨spicePoll true, by decide, Or.inr rfl⟩,
    by decide,
    ((((confirmPhase_disposition srcEnv confirmSpicePending spiceGuest none 0 0).1
      (by decide) (by decide) (by decide)).1 rfl).2 (by decide)
        ⟨_, List.mem_cons_self _ _, rfl⟩).2 (by decide)⟩

open VirErrorCode qemuDomainAsyncJob in
/-- Claim C23: `qemuMigrationConfirm` on a domain whose asynchronous job is not an
outgoing migration only reports the failure: it returns -1 with the
OperationInvalid error, and the domain is unchanged (no phase is set), no
command is sent, and nothing is stopped, resumed, cancelled or unregistered
(no call is made on the guest or on its job). -/
theorem confirm_without_job_is_noop (env : Env) (obs : ConfirmObs) (vm : virDomainObj)
    (cookiein : Option (List Char)) (flags : Nat) (cancelled : Int)
    (hjob : vm.privateData.job.asyncJob ≠ QEMU_ASYNC_JOB_MIGRATION_OUT) :
    qemuMigrationConfirm env obs vm cookiein flags cancelled =
      some
        { errors := [⟨VIR_ERR_OPERATION_INVALID,
                      "domain '" ++ vm.defn.name ++ "' is not being migrated"⟩],
          lastError := some ⟨VIR_ERR_OPERATION_INVALID,
                      "domain '" ++ vm.defn.name ++ "' is not being migrated"⟩,
          ret := -1, vm := vm, cmds := [], actions := [] } := by
  simp [qemuMigrationConfirm, qemuMigrationJobIsActive, hjob]

open VirErrorCode qemuDomainAsyncJob in
/-- Claim C23 on the example guest, which has no job, for a cancelled Confirm. -/
theorem confirm_without_job_is_noop_witness :
    qemuMigrationConfirm srcEnv confirmAllGood guestObj none 0 1 =
      some
        { errors := [⟨VIR_ERR_OPERATION_INVALID,
                      "domain '" ++ guestObj.defn.name ++ "' is not being migrated"⟩],
          lastError := some ⟨VIR_ERR_OPERATION_INVALID,
                      "domain '" ++ guestObj.defn.name ++ "' is not being migrated"⟩,
          ret := -1, vm := guestObj, cmds := [], actions := [] } :=
  confirm_without_job_is_noop srcEnv confirmAllGood guestObj none 0 1 (by decide)

/-! ### The cleanup after a closed connection -/

open qemuDomainAsyncJob qemuMigrationJobPhase in
/-- Claim C27: `qemuMigrationCleanup` discards the asynchronous job iff the job is
an outgoing migration and its phase is BEGIN3 or PERFORM3_DONE, and then the
domain it returns is the one it was given with the job discarded; in every
other case the domain it returns is the one it was given, unchanged. In all
cases what it returns differs from what it was given by the job at most. -/
theorem cleanup_discards_job_iff (vm : virDomainObj) :
    (GuestAction.discardAsyncJob ∈ (qemuMigrationCleanup vm).actions ↔
      (vm.privateData.job.asyncJob = QEMU_ASYNC_JOB_MIGRATION_OUT ∧
        (vm.privateData.job.phase = QEMU_MIGRATION_PHASE_BEGIN3 ∨
         vm.privateData.job.phase = QEMU_MIGRATION_PHASE_PERFORM3_DONE))) ∧
    ((vm.privateData.job.asyncJob = QEMU_ASYNC_JOB_MIGRATION_OUT ∧
        (vm.privateData.job.phase = QEMU_MIGRATION_PHASE_BEGIN3 ∨
         vm.privateData.job.phase = QEMU_MIGRATION_PHASE_PERFORM3_DONE)) →
      (qemuMigrationCleanup vm).vm = qemuDomainObjDiscardAsyncJob vm ∧
      (qemuMigrationCleanup vm).actions = [GuestAction.discardAsyncJob] ∧
      (qemuMigrationCleanup vm).errors = []) ∧
    (¬ (vm.privateData.job.asyncJob = QEMU_ASYNC_JOB_MIGRATION_OUT ∧
        (vm.privateData.job.phase = QEMU_MIGRATION_PHASE_BEGIN3 ∨
         vm.privateData.job.phase = QEMU_MIGRATION_PHASE_PERFORM3_DONE)) →
      (qemuMigrationCleanup vm).vm = vm ∧ (qemuMigrationCleanup vm).actions = []) ∧
    ({ (qemuMigrationCleanup vm).vm with
        privateData := { (qemuMigrationCleanup vm).vm.privateData with
                         job := vm.privateData.job } } : virDomainObj) = vm := by
  unfold qemuMigrationCleanup qemuMigrationJobIsActive
  by_cases hjob : vm.privateData.job.asyncJob = QEMU_ASYNC_JOB_MIGRATION_OUT
  · cases hp : vm.privateData.job.phase <;>
      simp [hjob, hp, qemuDomainObjDiscardAsyncJob]
  · simp [hjob]

/-! ### The order of the phases -/

/-- Claim C26: for every edge `p -> q` of the four state graphs of the
specification, `q` is strictly greater than `p` in the order of the phase
enumeration, and `qemuMigrationJobSetPhase` accepts the step: on a job in the
phase `p` it stores the phase `q`. -/
theorem setPhase_accepts_documented_edges (edge : qemuMigrationJobPhase × qemuMigrationJobPhase)
    (hedge : edge ∈ specPhaseGraphEdges) :
    edge.1.toNat < edge.2.toNat ∧
    ∀ vm : virDomainObj, vm.privateData.job.phase = edge.1 →
      (qemuMigrationJobSetPhase vm edge.2).privateData.job.phase = edge.2 := by
  have hlt : edge.1.toNat < edge.2.toNat := by
    revert edge
    decide
  refine ⟨hlt, ?_⟩
  intro vm hvm
  unfold qemuMigrationJobSetPhase
  rw [if_neg (by rw [hvm]; omega)]
  rfl

open qemuMigrationJobPhase in
/-- Claim C26 on the edge from PERFORM3_DONE to CONFIRM3_CANCELLED. -/
theorem setPhase_accepts_documented_edges_witness :
    QEMU_MIGRATION_PHASE_PERFORM3_DONE.toNat < QEMU_MIGRATION_PHASE_CONFIRM3_CANCELLED.toNat ∧
    ∀ vm : virDomainObj, vm.privateData.job.phase = QEMU_MIGRATION_PHASE_PERFORM3_DONE →
      (qemuMigrationJobSetPhase vm QEMU_MIGRATION_PHASE_CONFIRM3_CANCELLED).privateData.job.phase =
        QEMU_MIGRATION_PHASE_CONFIRM3_CANCELLED :=
  setPhase_accepts_documented_edges
    (QEMU_MIGRATION_PHASE_PERFORM3_DONE, QEMU_MIGRATION_PHASE_CONFIRM3_CANCELLED) (by decide)

/-! ### The port pool of the destination -/

/-- One generation of a port with a counter below `QEMUD_MIGRATION_NUM_PORTS`. -/
theorem prepareDirect_port_step (env : Env) (c : Nat) (hc : c < env.QEMUD_MIGRATION_NUM_PORTS) :
    (qemuMigrationPrepareDirect_port env c).1 = env.QEMUD_MIGRATION_FIRST_PORT + c ∧
    (qemuMigrationPrepareDirect_port env c).2 = (c + 1) % env.QEMUD_MIGRATION_NUM_PORTS := by
  unfold qemuMigrationPrepareDirect_port
  refine ⟨rfl, ?_⟩
  by_cases h : c + 1 = env.QEMUD_MIGRATION_NUM_PORTS
  · simp [h]
  · rw [if_neg h, Nat.mod_eq_of_lt (by omega)]

/-- The ports of `n` consecutive generations, the first one with the counter `c`. -/
theorem prepareDirect_ports_eq (env : Env) (n : Nat) : ∀ c : Nat,
    c < env.QEMUD_MIGRATION_NUM_PORTS →
    qemuMigrationPrepareDirect_ports env c n =
      (List.range n).map
        (fun k => env.QEMUD_MIGRATION_FIRST_PORT + (c + k) % env.QEMUD_MIGRATION_NUM_PORTS) := by
  induction n with
  | zero => intro c _; simp [qemuMigrationPrepareDirect_ports]
  | succ n ih =>
    intro c hc
    have hstep := prepareDirect_port_step env c hc
    have hnext : (c + 1) % env.QEMUD_MIGRATION_NUM_PORTS < env.QEMUD_MIGRATION_NUM_PORTS :=
      Nat.mod_lt _ (by omega)
    unfold qemuMigrationPrepareDirect_ports
    rw [hstep.1, hstep.2, ih _ hnext, List.range_succ_eq_map, List.map_cons, List.map_map]
    congr 1
    · simp [Nat.mod_eq_of_lt hc]
    · apply List.map_congr_left
      intro k _
      simp only [Function.comp]
      congr 1
      rw [Nat.add_mod, Nat.mod_mod, ← Nat.add_mod]
      congr 1
      omega

open VirErrorCode in
/-- Claim C25: the port pool of `qemuMigrationPrepareDirect`, for a counter `c`
below `QEMUD_MIGRATION_NUM_PORTS`. A generation hands out the port `FIRST + c` and
leaves the counter `(c + 1) mod NUM`, which is below `NUM` again; the port lies in
`[FIRST, FIRST + NUM)`; `NUM` consecutive generations hand out `NUM` distinct ports.
Without a URI, and with a URI that names a host and no port, the call makes one
generation: the counter moves and `qemuMigrationPrepareAny` is given the port
`FIRST + c`. With a URI that names a host and a port that is not 0, the port
is used as given and the counter is unchanged. -/
theorem prepareDirect_port_pool (env : Env) (c : Nat) (state : PrepareState)
    (defn : virDomainDef) (flags : Nat)
    (rest : Nat → PrepareState → virDomainDef → PrepareResult)
    (hc : c < env.QEMUD_MIGRATION_NUM_PORTS) :
    (qemuMigrationPrepareDirect_port env c).1 = env.QEMUD_MIGRATION_FIRST_PORT + c ∧
    (qemuMigrationPrepareDirect_port env c).2 = (c + 1) % env.QEMUD_MIGRATION_NUM_PORTS ∧
    (qemuMigrationPrepareDirect_port env c).2 < env.QEMUD_MIGRATION_NUM_PORTS ∧
    env.QEMUD_MIGRATION_FIRST_PORT ≤ (qemuMigrationPrepareDirect_port env c).1 ∧
    (qemuMigrationPrepareDirect_port env c).1 <
      env.QEMUD_MIGRATION_FIRST_PORT + env.QEMUD_MIGRATION_NUM_PORTS ∧
    (qemuMigrationPrepareDirect_ports env c env.QEMUD_MIGRATION_NUM_PORTS).length =
      env.QEMUD_MIGRATION_NUM_PORTS ∧
    (qemuMigrationPrepareDirect_ports env c env.QEMUD_MIGRATION_NUM_PORTS).Nodup ∧
    (qemuMigrationPrepareDirect env c state defn none flags rest).port =
      (c + 1) % env.QEMUD_MIGRATION_NUM_PORTS ∧
    (∀ hostname, env.hostname = some hostname → STRPREFIX hostname "localhost" = false →
      qemuMigrationPrepareDirect env c state defn none flags rest =
        qemuMigrationPrepareDirect_any env state defn flags rest
          ((c + 1) % env.QEMUD_MIGRATION_NUM_PORTS) (env.QEMUD_MIGRATION_FIRST_PORT + c)
          (some ("tcp:" ++ hostname ++ ":" ++ toString (env.QEMUD_MIGRATION_FIRST_PORT + c)))) ∧
    (∀ uri_in p uri, STRSKIP uri_in "tcp:" = some p →
      (env.virURIParse (qemuMigrationPrepareDirect_uri uri_in p)).value = some uri →
      uri.server ≠ none →
      (uri.port = 0 →
        qemuMigrationPrepareDirect env c state defn (some uri_in) flags rest =
          qemuMigrationPrepareDirect_any env state defn flags rest
            ((c + 1) % env.QEMUD_MIGRATION_NUM_PORTS) (env.QEMUD_MIGRATION_FIRST_PORT + c)
            (some (uri_in ++ ":" ++ toString (env.QEMUD_MIGRATION_FIRST_PORT + c)))) ∧
      (uri.port ≠ 0 →
        qemuMigrationPrepareDirect env c state defn (some uri_in) flags rest =
          qemuMigrationPrepareDirect_any env state defn flags rest c uri.port none ∧
        (qemuMigrationPrepareDirect env c state defn (some uri_in) flags rest).port = c)) := by
  have hstep := prepareDirect_port_step env c hc
  have hnext : (c + 1) % env.QEMUD_MIGRATION_NUM_PORTS < env.QEMUD_MIGRATION_NUM_PORTS :=
    Nat.mod_lt _ (by omega)
  refine ⟨hstep.1, hstep.2, by rw [hstep.2]; exact hnext, by rw [hstep.1]; omega,
    by rw [hstep.1]; omega, ?_, ?_, ?_, ?_, ?_⟩
  · rw [prepareDirect_ports_eq env _ c hc]; simp
  · rw [prepareDirect_ports_eq env _ c hc]
    apply List.Nodup.map_on _ (List.nodup_range _)
    intro x hx y hy hxy
    rw [List.mem_range] at hx hy
    have hmod : (c + x) % env.QEMUD_MIGRATION_NUM_PORTS =
        (c + y) % env.QEMUD_MIGRATION_NUM_PORTS := by omega
    have hxy2 : x % env.QEMUD_MIGRATION_NUM_PORTS = y % env.QEMUD_MIGRATION_NUM_PORTS :=
      Nat.ModEq.add_left_cancel' c hmod
    rwa [Nat.mod_eq_of_lt hx, Nat.mod_eq_of_lt hy] at hxy2
  · unfold qemuMigrationPrepareDirect
    simp only [hstep.2]
    cases env.hostname with
    | none => rfl
    | some hostname =>
      simp only
      split
      · rfl
      · rfl
  · intro hostname hname hlocal
    unfold qemuMigrationPrepareDirect
    simp only [hname, hlocal, hstep.1, hstep.2]
    simp
  · intro uri_in p uri hskip hparse hserver
    constructor
    · intro hport
      unfold qemuMigrationPrepareDirect
      simp only [hskip, hparse, hport, hstep.1, hstep.2]
      simp [hserver]
    · intro hport
      have heq : qemuMigrationPrepareDirect env c state defn (some uri_in) flags rest =
          qemuMigrationPrepareDirect_any env state defn flags rest c uri.port none := by
        unfold qemuMigrationPrepareDirect
        simp only [hskip, hparse]
        simp [hserver, hport]
      exact ⟨heq, by rw [heq]; rfl⟩

set_option maxRecDepth 8000 in
/-- Claim C25 on the example host (the first port is 49152 and the pool has 64
ports), with the counter at its last value 63: the port is 49215 and the
counter wraps to 0. -/
theorem prepareDirect_port_pool_witness :
    (qemuMigrationPrepareDirect_port srcEnv 63).1 = srcEnv.QEMUD_MIGRATION_FIRST_PORT + 63 ∧
    (qemuMigrationPrepareDirect_port srcEnv 63).2 = (63 + 1) % srcEnv.QEMUD_MIGRATION_NUM_PORTS :=
  ⟨(prepareDirect_port_pool srcEnv 63 ⟨[], none⟩ guestDef 0 (fun _ state _ => ⟨[], 0, state⟩)
      (by decide)).1,
    (prepareDirect_port_pool srcEnv 63 ⟨[], none⟩ guestDef 0 (fun _ state _ => ⟨[], 0, state⟩)
      (by decide)).2.1⟩

/-! ### The peer-to-peer driver of the version 3 protocol -/

set_option maxRecDepth 8000 in
open VirErrorCode virDomainState qemuMigrationJobPhase virDomainShutoffReason
  virDomainEventDetail in
/-- A fresh cookie has no NBD data. -/
theorem cookieNew_nbd (env : Env) (dom : virDomainObj) (mig : qemuMigrationCookie)
    (h : (qemuMigrationCookieNew env dom).value = some mig) : mig.nbd = none := by
  unfold qemuMigrationCookieNew at h
  cases hn : env.hostname with
  | none => simp [hn, Outcome.failQuiet] at h
  | some n =>
    cases hu : env.hostUUID with
    | none => simp [hn, hu, Outcome.fail] at h
    | some u =>
      simp [hn, hu, Outcome.ok] at h
      subst h
      rfl

/-- The parser stores NBD data only when the flag NBD is among the flags it is
given. -/
theorem parse_value_nbd (env : Env) (mig m : qemuMigrationCookie) (doc : CookieDoc)
    (flags : Nat) (hflag : hasFlag flags QEMU_MIGRATION_COOKIE_NBD = false)
    (h : (qemuMigrationCookieXMLParse env mig doc flags).value = some m) :
    m.nbd = mig.nbd := by
  unfold qemuMigrationCookieXMLParse at h
  split at h
  · simp [Outcome.failQuiet] at h
  · simp only [Outcome.bind_value] at h
    obtain ⟨m1, h1, g1⟩ := Option.bind_eq_some.mp h
    obtain ⟨m2, h2, g2⟩ := Option.bind_eq_some.mp g1
    obtain ⟨m3, h3, g3⟩ := Option.bind_eq_some.mp g2
    obtain ⟨m4, h4, g4⟩ := Option.bind_eq_some.mp g3
    obtain ⟨m5, h5, g5⟩ := Option.bind_eq_some.mp g4
    obtain ⟨m6, h6, g6⟩ := Option.bind_eq_some.mp g5
    obtain ⟨m7, h7, g7⟩ := Option.bind_eq_some.mp g6
    obtain ⟨m8, h8, g8⟩ := Option.bind_eq_some.mp g7
    obtain ⟨m9, h9, g9⟩ := Option.bind_eq_some.mp g8
    have e1 : m1 = mig := parse_name_value _ _ _ h1
    have e2 : m2 = m1 := parse_uuid_value _ _ _ _ h2
    have e3 : m3.nbd = m2.nbd := by
      unfold qemuMigrationCookieXMLParse_hostname at h3
      split at h3
      · simp [Outcome.fail] at h3
      · split at h3
        · simp [Outcome.fail] at h3
        · simp [Outcome.ok] at h3; subst h3; rfl
    have e4 : m4.nbd = m3.nbd := by
      unfold qemuMigrationCookieXMLParse_hostuuid at h4
      split at h4
      · simp [Outcome.fail] at h4
      · split at h4
        · simp [Outcome.fail] at h4
        · split at h4
          · simp [Outcome.fail] at h4
          · simp [Outcome.ok] at h4; subst h4; rfl
    have e5 : m5 = m4 := parse_features_flags _ _ _ _ h5
    have e6 : m6.nbd = m5.nbd := by
      unfold qemuMigrationCookieXMLParse_graphics at h6
      split at h6
      · simp only [Outcome.bind_value] at h6
        obtain ⟨_, _, h6⟩ := Option.bind_eq_some.mp h6
        simp [Outcome.ok] at h6; subst h6; rfl
      · simp [Outcome.ok] at h6; subst h6; rfl
    have e7 : m7.nbd = m6.nbd := by
      unfold qemuMigrationCookieXMLParse_lockstate at h7
      split at h7
      · split at h7
        · simp [Outcome.fail] at h7
        · simp [Outcome.ok] at h7; subst h7; rfl
      · simp [Outcome.ok] at h7; subst h7; rfl
    have e8 : m8.nbd = m7.nbd := by
      unfold qemuMigrationCookieXMLParse_persistent at h8
      split at h8
      · split at h8
        · simp [Outcome.fail] at h8
        · split at h8
          · simp [Outcome.failQuiet] at h8
          · simp [Outcome.ok] at h8; subst h8; rfl
      · simp [Outcome.ok] at h8; subst h8; rfl
    have e9 : m9.nbd = m8.nbd := by
      unfold qemuMigrationCookieXMLParse_network at h9
      split at h9
      · simp only [Outcome.bind_value] at h9
        obtain ⟨_, _, h9⟩ := Option.bind_eq_some.mp h9
        simp [Outcome.ok] at h9; subst h9; rfl
      · simp [Outcome.ok] at h9; subst h9; rfl
    have e10 : m = m9 := by
      unfold qemuMigrationCookieXMLParse_nbd at g9
      rw [hflag] at g9
      simp [Outcome.ok] at g9
      exact g9.symm
    rw [e10, e9, e8, e7, e6, e5, e4, e3, e2, e1]

/-- A cookie eaten without the flag NBD has no NBD data. -/
theorem eatCookie_nbd_none (env : Env) (dom : virDomainObj) (cookiein : Option (List Char))
    (flags : Nat) (mig : qemuMigrationCookie)
    (hflag : hasFlag flags QEMU_MIGRATION_COOKIE_NBD = false)
    (h : (qemuMigrationEatCookie env dom cookiein flags).value = some mig) :
    mig.nbd = none := by
  obtain ⟨mig0, h0, h1⟩ := eatCookie_value env dom cookiein flags mig h
  have hn := cookieNew_nbd env dom mig0 h0
  rcases h1 with ⟨_, rfl⟩ | ⟨buf, doc, _, _, _, hp⟩
  · exact hn
  · rw [parse_value_nbd env mig0 mig doc flags hflag hp, hn]

/-- The flags with which `qemuMigrationFinish` eats its cookie do not hold NBD. -/
theorem finish_cookie_flags_without_nbd (flags : Nat) :
    hasFlag
      (if hasFlag flags VIR_MIGRATE_PERSIST_DEST then
        QEMU_MIGRATION_COOKIE_NETWORK ||| QEMU_MIGRATION_COOKIE_PERSISTENT
       else QEMU_MIGRATION_COOKIE_NETWORK) QEMU_MIGRATION_COOKIE_NBD = false := by
  split <;> decide

/-- The end of the success branch of Finish adds no command and gives back no
port, and leaves the stored NBD port as it is. -/
theorem finish_resume_frame (env : Env) (obs : FinishObs) (mig : qemuMigrationCookie)
    (out : Option CookieOut) (flags : Nat) (v3proto : Bool) (r : FinishResult) :
    (qemuMigrationFinish_resume env obs mig out flags v3proto r).cmds = r.cmds ∧
    (qemuMigrationFinish_resume env obs mig out flags v3proto r).released = r.released ∧
    (qemuMigrationFinish_resume env obs mig out flags v3proto r).vm.privateData.nbdPort =
      r.vm.privateData.nbdPort := by
  unfold qemuMigrationFinish_resume qemuMigrationFinish_endjob
  simp only
  split
  · simp
  · split
    · refine ⟨?_, ?_, ?_⟩ <;> (repeat' split) <;> rfl
    · refine ⟨?_, ?_, ?_⟩ <;> (repeat' split) <;> rfl

/-- The part of Finish that makes the domain persistent adds no command and
gives back no port, and leaves the stored NBD port as it is. -/
theorem finish_persist_frame (env : Env) (obs : FinishObs) (mig : qemuMigrationCookie)
    (out : Option CookieOut) (flags : Nat) (v3proto : Bool) (r : FinishResult) :
    (qemuMigrationFinish_persist env obs mig out flags v3proto r).cmds = r.cmds ∧
    (qemuMigrationFinish_persist env obs mig out flags v3proto r).released = r.released ∧
    (qemuMigrationFinish_persist env obs mig out flags v3proto r).vm.privateData.nbdPort =
      r.vm.privateData.nbdPort := by
  have hf := finish_resume_frame env obs mig out flags v3proto
  unfold qemuMigrationFinish_persist
  simp only
  split
  · split
    · simp only [qemuMigrationFinish_endjob]
      refine ⟨?_, ?_, ?_⟩ <;> (repeat' split) <;> rfl
    · refine ⟨?_, ?_, ?_⟩
      · rw [(hf _).1]; split <;> rfl
      · rw [(hf _).2.1]; split <;> rfl
      · rw [(hf _).2.2]; split <;> rfl
  · exact hf r

/-- The success branch of Finish, entered with a cookie without NBD data, adds
no command and gives back no port, and leaves the stored NBD port as it is. -/
theorem finish_success_frame (env : Env) (obs : FinishObs) (mig : qemuMigrationCookie)
    (out : Option CookieOut) (flags : Nat) (v3proto : Bool) (r : FinishResult)
    (hnbd : mig.nbd = none) (hcmds : r.cmds = []) (hreleased : r.released = []) :
    (qemuMigrationFinish_success env obs mig out flags v3proto r).cmds = [] ∧
    (qemuMigrationFinish_success env obs mig out flags v3proto r).released = [] ∧
    (qemuMigrationFinish_success env obs mig out flags v3proto r).vm.privateData.nbdPort =
      r.vm.privateData.nbdPort := by
  have hf := finish_persist_frame env obs mig out flags v3proto
  have hstop : ∀ v, qemuMigrationStopNBDServer obs.nbdEnterMonitor v mig = ⟨v, [], []⟩ := by
    intro v
    unfold qemuMigrationStopNBDServer
    rw [hnbd]
  unfold qemuMigrationFinish_success
  simp only [hstop]
  (repeat' split) <;>
    first
    | exact ⟨hcmds, hreleased, rfl⟩
    | exact ⟨by rw [(hf _).1], by rw [(hf _).2.1], by rw [(hf _).2.2]⟩

/-- Claim C22 (divergence of the code): `qemuMigrationFinish` never stops the NBD
server. Whatever the cookie, the flags, the return code of the source and the
stored NBD port, it sends no command to the hypervisor (no `nbd-server-stop`),
gives no port back to the allocator and leaves the stored NBD port as it is:
the cookie is eaten without the flag NBD, so it has no NBD data, and
`qemuMigrationStopNBDServer` returns at once. -/
theorem finish_never_stops_nbd_server (env : Env) (obs : FinishObs) (vm : virDomainObj)
    (cookiein : Option (List Char)) (out : Option CookieOut) (flags : Nat) (retcode : Int)
    (v3proto : Bool) :
    (qemuMigrationFinish env obs vm cookiein out flags retcode v3proto).cmds = [] ∧
    (qemuMigrationFinish env obs vm cookiein out flags retcode v3proto).released = [] ∧
    (qemuMigrationFinish env obs vm cookiein out flags retcode v3proto).vm.privateData.nbdPort =
      vm.privateData.nbdPort := by
  have hphase : ∀ phase, (qemuMigrationJobStartPhase vm phase).privateData.nbdPort =
      vm.privateData.nbdPort := by
    intro phase
    unfold qemuMigrationJobStartPhase qemuMigrationJobSetPhase
    split <;> rfl
  unfold qemuMigrationFinish
  simp only
  split
  · exact ⟨rfl, rfl, rfl⟩
  · split
    · exact ⟨rfl, rfl, rfl⟩
    · cases he : (qemuMigrationEatCookie env
          (qemuMigrationJobStartPhase vm
            (if v3proto then qemuMigrationJobPhase.QEMU_MIGRATION_PHASE_FINISH3
             else qemuMigrationJobPhase.QEMU_MIGRATION_PHASE_FINISH2)) cookiein
          (if hasFlag flags VIR_MIGRATE_PERSIST_DEST then
            QEMU_MIGRATION_COOKIE_NETWORK ||| QEMU_MIGRATION_COOKIE_PERSISTENT
           else QEMU_MIGRATION_COOKIE_NETWORK)).value with
      | none => exact ⟨rfl, rfl, hphase _⟩
      | some mig =>
        have hnbd : mig.nbd = none :=
          eatCookie_nbd_none env _ cookiein _ mig (finish_cookie_flags_without_nbd flags) he
        simp only
        split
        · have hs := finish_success_frame env obs mig out flags v3proto
            { errors := (qemuMigrationEatCookie env
                  (qemuMigrationJobStartPhase vm
                    (if v3proto then qemuMigrationJobPhase.QEMU_MIGRATION_PHASE_FINISH3
                     else qemuMigrationJobPhase.QEMU_MIGRATION_PHASE_FINISH2)) cookiein
                  (if hasFlag flags VIR_MIGRATE_PERSIST_DEST then
                    QEMU_MIGRATION_COOKIE_NETWORK ||| QEMU_MIGRATION_COOKIE_PERSISTENT
                   else QEMU_MIGRATION_COOKIE_NETWORK)).errors,
              lastError := none, dom := false,
              vm := qemuMigrationJobStartPhase vm
                (if v3proto then qemuMigrationJobPhase.QEMU_MIGRATION_PHASE_FINISH3
                 else qemuMigrationJobPhase.QEMU_MIGRATION_PHASE_FINISH2),
              cmds := [], actions := [], vportCalls := [], relocated := [], released := [],
              out := out } hnbd rfl rfl
          exact ⟨hs.1, hs.2.1, hs.2.2.trans (hphase _)⟩
        · simp only [qemuMigrationFinish_endjob]
          refine ⟨?_, ?_, ?_⟩ <;> (repeat' split) <;> first | rfl | exact hphase _

set_option maxRecDepth 8000 in
/-- The divergence of claim C22 on a guest whose Prepare step has started an NBD
server on the port 49153: a Finish step in which every call succeeds returns
the domain, and the stored port is still 49153. -/
theorem finish_keeps_nbd_server_example :
    (qemuMigrationFinish srcEnv finishAllGood incomingGuest none none 0 0 true).dom = true ∧
    (qemuMigrationFinish srcEnv finishAllGood incomingGuest none none 0 0 true).cmds = [] ∧
    (qemuMigrationFinish srcEnv finishAllGood incomingGuest none none 0 0
      true).vm.privateData.nbdPort = 49153 := by
  decide

/-! ### The feature words of the cookie -/

/-- Adding the same bit to both words keeps the mandatory word inside the
advertised word. -/
theorem subset_or_both (a c b : Nat) (h : a &&& c = a) : (a ||| b) &&& (c ||| b) = a ||| b := by
  apply Nat.eq_of_testBit_eq
  intro i
  have hi := congrArg (fun x => x.testBit i) h
  simp only [Nat.testBit_and, Nat.testBit_or] at hi ⊢
  cases ha : a.testBit i <;> cases hc : c.testBit i <;> cases hb : b.testBit i <;> simp_all

/-- Adding a bit to the advertised word keeps the mandatory word inside it. -/
theorem subset_or_right (a c b : Nat) (h : a &&& c = a) : a &&& (c ||| b) = a := by
  apply Nat.eq_of_testBit_eq
  intro i
  have hi := congrArg (fun x => x.testBit i) h
  simp only [Nat.testBit_and, Nat.testBit_or] at hi ⊢
  cases ha : a.testBit i <;> cases hc : c.testBit i <;> cases hb : b.testBit i <;> simp_all

/-- The graphics accumulator keeps the invariant. -/
theorem addGraphics_subset (env : Env) (mig : qemuMigrationCookie) (dom : virDomainObj)
    (h : flagsMandatorySubset mig) :
    flagsMandatorySubset (qemuMigrationCookieAddGraphics env mig dom).mig := by
  unfold flagsMandatorySubset at h ⊢
  unfold qemuMigrationCookieAddGraphics
  split
  · exact h
  · split
    · exact h
    · split
      · exact h
      · exact subset_or_right _ _ _ h

/-- The lock state accumulator keeps the invariant. -/
theorem addLockstate_subset (env : Env) (mig : qemuMigrationCookie) (dom : virDomainObj)
    (h : flagsMandatorySubset mig) :
    flagsMandatorySubset (qemuMigrationCookieAddLockstate env mig dom).mig := by
  unfold flagsMandatorySubset at h ⊢
  unfold qemuMigrationCookieAddLockstate
  split
  · exact h
  · simp only
    split
    · exact h
    · exact subset_or_both _ _ _ h

/-- The persistent configuration accumulator keeps the invariant. -/
theorem addPersistent_subset (mig : qemuMigrationCookie) (dom : virDomainObj)
    (h : flagsMandatorySubset mig) :
    flagsMandatorySubset (qemuMigrationCookieAddPersistent mig dom).mig := by
  unfold flagsMandatorySubset at h ⊢
  unfold qemuMigrationCookieAddPersistent
  split
  · exact h
  · split
    · exact h
    · exact subset_or_both _ _ _ h

/-- The network accumulator keeps the invariant. -/
theorem addNetwork_subset (env : Env) (mig : qemuMigrationCookie) (dom : virDomainObj)
    (h : flagsMandatorySubset mig) :
    flagsMandatorySubset (qemuMigrationCookieAddNetwork env mig dom).mig := by
  unfold flagsMandatorySubset at h ⊢
  unfold qemuMigrationCookieAddNetwork
  split
  · exact h
  · split
    · split
      · exact h
      · exact subset_or_right _ _ _ h
    · exact h

/-- The NBD accumulator keeps the invariant. -/
theorem addNBD_subset (mig : qemuMigrationCookie) (vm : virDomainObj)
    (h : flagsMandatorySubset mig) :
    flagsMandatorySubset (qemuMigrationCookieAddNBD mig vm).mig := by
  unfold flagsMandatorySubset at h ⊢
  exact subset_or_right _ _ _ h

/-- A guarded accumulator that keeps the invariant. -/
theorem guarded_subset (cond : Bool) (f : qemuMigrationCookie → CookieStep)
    (hf : ∀ m, flagsMandatorySubset m → flagsMandatorySubset (f m).mig)
    (mig : qemuMigrationCookie) (h : flagsMandatorySubset mig) :
    flagsMandatorySubset (CookieStep.guarded cond f mig).mig := by
  unfold CookieStep.guarded
  split
  · exact hf mig h
  · exact h

/-- A sequence of two steps that keep the invariant. -/
theorem andThen_subset (s : CookieStep) (f : qemuMigrationCookie → CookieStep)
    (hs : flagsMandatorySubset s.mig)
    (hf : ∀ m, flagsMandatorySubset m → flagsMandatorySubset (f m).mig) :
    flagsMandatorySubset (s.andThen f).mig := by
  unfold CookieStep.andThen
  split
  · exact hs
  · exact hf _ hs

/-- A call of `qemuMigrationBakeCookie` keeps the invariant, whether it succeeds
or fails. -/
theorem bakeCookie_subset (env : Env) (mig : qemuMigrationCookie) (dom : virDomainObj)
    (out : Option CookieOut) (flags : Nat) (h : flagsMandatorySubset mig) :
    flagsMandatorySubset (qemuMigrationBakeCookie env mig dom out flags).mig := by
  have hacc : flagsMandatorySubset (qemuMigrationBakeCookie_accumulate env mig dom flags).mig := by
    unfold qemuMigrationBakeCookie_accumulate
    apply andThen_subset
    · exact guarded_subset _ _ (fun m hm => addGraphics_subset env m dom hm) mig h
    · intro m1 h1
      apply andThen_subset
      · exact guarded_subset _ _ (fun m hm => addLockstate_subset env m dom hm) m1 h1
      · intro m2 h2
        apply andThen_subset
        · exact guarded_subset _ _ (fun m hm => addPersistent_subset m dom hm) m2 h2
        · intro m3 h3
          apply andThen_subset
          · exact guarded_subset _ _ (fun m hm => addNetwork_subset env m dom hm) m3 h3
          · intro m4 h4
            exact guarded_subset _ _ (fun m hm => addNBD_subset m dom hm) m4 h4
  unfold qemuMigrationBakeCookie
  cases out with
  | none => exact h
  | some o =>
    simp only
    split
    · exact hacc
    · split
      · exact hacc
      · exact hacc

/-- A sequence of calls of `qemuMigrationBakeCookie` keeps the invariant. -/
theorem bakeCookie_calls_subset (env : Env) (calls : List BakeCall) :
    ∀ mig : qemuMigrationCookie, flagsMandatorySubset mig →
      flagsMandatorySubset (qemuMigrationBakeCookie_calls env mig calls) := by
  induction calls with
  | nil => intro mig h; exact h
  | cons call rest ih =>
    intro mig h
    unfold qemuMigrationBakeCookie_calls
    exact ih _ (bakeCookie_subset env mig call.dom call.out call.flags h)

/-- Claim C28: the invariant of the feature words. Each of the five
accumulators, whether it succeeds or fails, leaves `flagsMandatory` a subset of
`flags` when it was one. Hence for every cookie built from a fresh cookie by a
sequence of calls of `qemuMigrationBakeCookie`, the `feature` elements that the
formatter writes are those of the indexes whose bit is set in `flagsMandatory`,
and each of them names a feature whose bit is set in `flags`. -/
theorem cookie_features_are_advertised (env : Env) (dom : virDomainObj)
    (mig0 : qemuMigrationCookie) (calls : List BakeCall)
    (hfresh : (qemuMigrationCookieNew env dom).value = some mig0) :
    (∀ (mig : qemuMigrationCookie) (vm : virDomainObj), flagsMandatorySubset mig →
      flagsMandatorySubset (qemuMigrationCookieAddGraphics env mig vm).mig ∧
      flagsMandatorySubset (qemuMigrationCookieAddLockstate env mig vm).mig ∧
      flagsMandatorySubset (qemuMigrationCookieAddPersistent mig vm).mig ∧
      flagsMandatorySubset (qemuMigrationCookieAddNetwork env mig vm).mig ∧
      flagsMandatorySubset (qemuMigrationCookieAddNBD mig vm).mig) ∧
    flagsMandatorySubset (qemuMigrationBakeCookie_calls env mig0 calls) ∧
    qemuMigrationCookieXMLFormat_features (qemuMigrationBakeCookie_calls env mig0 calls) =
      String.join
        ((qemuMigrationCookieXMLFormat_featureIndexes
            (qemuMigrationBakeCookie_calls env mig0 calls)).map
          fun i => "  <feature name='" ++ qemuMigrationCookieFlagTypeToString i ++ "'/>\n") ∧
    ∀ i ∈ qemuMigrationCookieXMLFormat_featureIndexes
        (qemuMigrationBakeCookie_calls env mig0 calls),
      hasFlag (qemuMigrationBakeCookie_calls env mig0 calls).flags (1 <<< i) = true := by
  have hzero := cookieNew_value env dom mig0 hfresh
  have h0 : flagsMandatorySubset mig0 := by
    unfold flagsMandatorySubset
    rw [hzero.2.2.2.1]
    simp
  have hinv := bakeCookie_calls_subset env calls mig0 h0
  refine ⟨?_, hinv, rfl, ?_⟩
  · intro mig vm h
    exact ⟨addGraphics_subset env mig vm h, addLockstate_subset env mig vm h,
      addPersistent_subset mig vm h, addNetwork_subset env mig vm h, addNBD_subset mig vm h⟩
  · intro i hi
    unfold qemuMigrationCookieXMLFormat_featureIndexes at hi
    rw [List.mem_filter] at hi
    have hm : (qemuMigrationBakeCookie_calls env mig0 calls).flagsMandatory.testBit i = true := by
      have := hi.2
      rw [← hasFlag_one_shiftLeft]
      exact this
    rw [hasFlag_one_shiftLeft]
    unfold flagsMandatorySubset at hinv
    have hbit := congrArg (fun x => x.testBit i) hinv
    simp only [Nat.testBit_and, hm, Bool.true_and] at hbit
    exact hbit

set_option maxRecDepth 8000 in
/-- Claim C28 on the cookie of the example guest after a call that asks for the
lock state and the NBD data: the only `feature` element is `lockstate`, whose bit
is set in `flags`. -/
theorem cookie_features_are_advertised_witness :
    qemuMigrationCookieXMLFormat_featureIndexes
        (qemuMigrationBakeCookie_calls srcEnv freshCookie
          [⟨guestObj, some ⟨none, 0⟩,
            QEMU_MIGRATION_COOKIE_LOCKSTATE ||| QEMU_MIGRATION_COOKIE_NBD⟩]) =
      [QEMU_MIGRATION_COOKIE_FLAG_LOCKSTATE] ∧
    ∀ i ∈ qemuMigrationCookieXMLFormat_featureIndexes
        (qemuMigrationBakeCookie_calls srcEnv freshCookie
          [⟨guestObj, some ⟨none, 0⟩,
            QEMU_MIGRATION_COOKIE_LOCKSTATE ||| QEMU_MIGRATION_COOKIE_NBD⟩]),
      hasFlag (qemuMigrationBakeCookie_calls srcEnv freshCookie
          [⟨guestObj, some ⟨none, 0⟩,
            QEMU_MIGRATION_COOKIE_LOCKSTATE ||| QEMU_MIGRATION_COOKIE_NBD⟩]).flags (1 <<< i) =
        true :=
  ⟨by decide,
    (cookie_features_are_advertised srcEnv guestObj freshCookie
      [⟨guestObj, some ⟨none, 0⟩, QEMU_MIGRATION_COOKIE_LOCKSTATE ||| QEMU_MIGRATION_COOKIE_NBD⟩]
      (by decide)).2.2.2⟩

/-! ### The network data of the cookie and the port profiles -/

open virNetDevVPortProfile in
/-- What the parser of the cookie reads back from the `network` element written
by the formatter, when the table of the port profile names is read back as it
was written: the records whose `vporttype` is set, in their order, one after
the other from the index 0 on. -/
theorem network_parse_of_written (env : Env)
    (htable : ∀ t, t ≠ VIR_NETDEV_VPORT_PROFILE_NONE →
      env.virNetDevVPortTypeFromString (env.virNetDevVPortTypeToString t) = t)
    (net : List qemuMigrationCookieNetData) :
    (qemuMigrationCookieNetworkXMLParse env (some (networkInterfaceNodes env ⟨net⟩))).value =
      some
        { net := (net.filter (fun data => data.vporttype != VIR_NETDEV_VPORT_PROFILE_NONE)).map
            fun data =>
              { data with portdata := if data.portdata = some "" then none else data.portdata } } := by
  have hloop : ∀ l : List qemuMigrationCookieNetData,
      (∀ data ∈ l, data.vporttype ≠ VIR_NETDEV_VPORT_PROFILE_NONE) →
      (qemuMigrationCookieNetworkXMLParse_loop env
        (l.map fun data =>
          ({ portdata := if data.portdata = some "" then none else data.portdata,
             vporttype := some (env.virNetDevVPortTypeToString data.vporttype) } :
            InterfaceQuery))).value =
        some (l.map fun data =>
          { data with portdata := if data.portdata = some "" then none else data.portdata }) := by
    intro l
    induction l with
    | nil => intro _; simp [qemuMigrationCookieNetworkXMLParse_loop, Outcome.ok]
    | cons data rest ih =>
      intro hall
      have hrest := ih (fun d hd => hall d (List.mem_cons_of_mem _ hd))
      have hhead := htable data.vporttype (hall data (List.mem_cons_self _ _))
      simp only [List.map_cons, qemuMigrationCookieNetworkXMLParse_loop, Outcome.bind_value,
        hrest, hhead]
      simp [Outcome.ok]
  unfold qemuMigrationCookieNetworkXMLParse networkInterfaceNodes
  simp only [Outcome.bind_value]
  rw [hloop]
  · simp [Outcome.ok]
  · intro data hdata
    rw [List.mem_filter] at hdata
    simpa using hdata.2

set_option maxRecDepth 8000 in
open virNetDevVPortProfile in
/-- Claim C29 (divergence of the code): the port data does not keep its NIC. The
guest has two interfaces: `vnet0` without a port profile and `vnet1`, an Open
vSwitch port with port data. The formatter writes one `interface` element with
`index='1'`; the parser does not read the attribute `index` and stores the record
at the index 0; `qemuDomainMigrateOPDRelocate` then applies the port data of
`vnet1` to `vnet0`. In general the records whose `vporttype` is set are read back
one after the other from the index 0 on, whatever their index was. -/
theorem network_data_loses_its_index :
    qemuMigrationCookieNetworkXMLFormat vportEnv mixedNetwork =
      "  <network>\n" ++
      "    <interface index='1' vporttype='openvswitch'>\n" ++
      "      <portdata>blob-of-vnet1</portdata>\n" ++
      "    </interface>\n" ++
      "  </network>\n" ∧
    (qemuMigrationCookieNetworkXMLParse vportEnv
        (some (networkInterfaceNodes vportEnv mixedNetwork))).value =
      some { net := [{ vporttype := VIR_NETDEV_VPORT_PROFILE_OPENVSWITCH,
                       portdata := some "blob-of-vnet1" }] } ∧
    mixedNetwork.net.get? 1 =
      some { vporttype := VIR_NETDEV_VPORT_PROFILE_OPENVSWITCH, portdata := some "blob-of-vnet1" } ∧
    (qemuDomainMigrateOPDRelocate (fun _ _ => true) mixedNetGuest
        { net := [{ vporttype := VIR_NETDEV_VPORT_PROFILE_OPENVSWITCH,
                    portdata := some "blob-of-vnet1" }] }).calls =
      [(some "blob-of-vnet1", "vnet0")] ∧
    (∀ (env : Env) (net : List qemuMigrationCookieNetData),
      (∀ t, t ≠ VIR_NETDEV_VPORT_PROFILE_NONE →
        env.virNetDevVPortTypeFromString (env.virNetDevVPortTypeToString t) = t) →
      (qemuMigrationCookieNetworkXMLParse env (some (networkInterfaceNodes env ⟨net⟩))).value =
        some
          { net := (net.filter (fun data => data.vporttype != VIR_NETDEV_VPORT_PROFILE_NONE)).map
              fun data =>
                { data with
                  portdata := if data.portdata = some "" then none else data.portdata } }) := by
  refine ⟨by decide, by decide, by decide, by decide, ?_⟩
  intro env net htable
  exact network_parse_of_written env htable net

open virDomainNetType in
/-- The rollback of `qemuMigrationVPAssociatePortProfiles` only disassociates
interfaces whose index is below `last_good_net`. -/
theorem vport_rollback_below_last_good (nets : List virDomainNetDef) (last_good_net : Int)
    (j : Nat)
    (h : VPortCall.disassociate j ∈
      qemuMigrationVPAssociatePortProfiles_rollback nets last_good_net) :
    (j : Int) < last_good_net := by
  unfold qemuMigrationVPAssociatePortProfiles_rollback at h
  split at h
  · simp at h
  · rename_i hne
    simp only [List.mem_map, List.mem_filter, VPortCall.disassociate.injEq] at h
    obtain ⟨p, ⟨hp, _⟩, hj⟩ := h
    have hmem := List.mem_of_mem_take hp
    have hlen : p.1 < last_good_net.toNat := by
      have hidx := List.getElem_of_mem hp
      obtain ⟨n, hn, hget⟩ := hidx
      rw [List.length_take] at hn
      rw [List.getElem_take, List.getElem_enum] at hget
      rw [← hget]
      simp only [Nat.zero_add]
      omega
    rw [← hj]
    omega

set_option maxRecDepth 8000 in
/-- Claim C30 (divergence of the code): the rollback of
`qemuMigrationVPAssociatePortProfiles` misses the last interface that was
associated. With three direct interfaces, when the association fails at the
interface 1, the interface 0 was associated and is not disassociated; when it
fails at the interface 2, the interface 0 is disassociated and the interface 1
is not. In general the rollback only disassociates interfaces whose index is
below `last_good_net`, the index of the last interface that was handled. On
success nothing is disassociated. -/
theorem vport_rollback_misses_last_associated :
    qemuMigrationVPAssociatePortProfiles (associateFailingAt 1) directNetsDef =
      ⟨[⟨VirErrorCode.VIR_ERR_OPERATION_FAILED, "Port profile Associate failed for macvtap1"⟩],
        -1,
        [VPortCall.associate 0, VPortCall.registerCallback 0, VPortCall.associate 1]⟩ ∧
    qemuMigrationVPAssociatePortProfiles (associateFailingAt 2) directNetsDef =
      ⟨[⟨VirErrorCode.VIR_ERR_OPERATION_FAILED, "Port profile Associate failed for macvtap2"⟩],
        -1,
        [VPortCall.associate 0, VPortCall.registerCallback 0,
         VPortCall.associate 1, VPortCall.registerCallback 1,
         VPortCall.associate 2, VPortCall.disassociate 0]⟩ ∧
    qemuMigrationVPAssociatePortProfiles (associateFailingAt 3) directNetsDef =
      ⟨[], 0,
        [VPortCall.associate 0, VPortCall.registerCallback 0,
         VPortCall.associate 1, VPortCall.registerCallback 1,
         VPortCall.associate 2, VPortCall.registerCallback 2]⟩ ∧
    (∀ (nets : List virDomainNetDef) (last_good_net : Int) (j : Nat),
      VPortCall.disassociate j ∈
        qemuMigrationVPAssociatePortProfiles_rollback nets last_good_net →
      (j : Int) < last_good_net) := by
  refine ⟨by decide, by decide, by decide, ?_⟩
  intro nets last_good_net j h
  exact vport_rollback_below_last_good nets last_good_net j h

end QemuMigration
